import Mathlib

/-!
# MOS 6526 (CIA) core: register interface, timers, TOD, shift register, ICR

The constants and the context record follow `src/vice/src/cia.h`.  The bodies
of `ciacore_store`, `ciacore_read`, `ciacore_peek`, of the alarm handlers, of
the setup functions and of the snapshot functions are not part of the shown
sources (only their declarations in `cia.h` are); they are modelled from the
specification, and every such definition says so in its doc comment.

The namespaces `AciaWidget`, `KbdMappingWidget`, `UiC64Model` and `Vic20Stubs`
embed the functions of `aciawidget.c`, `kbdmappingwidget.c`, `uic64model.c` and
`vic20-stubs.c` that the statements are about; GTK, the Windows API and the
resource subsystem appear through the state they act on.
-/

namespace Cia

/-! ## Constants of `cia.h` -/

/-- MOS 6526 models: "old". -/
def CIA_MODEL_6526 : Nat := 0
/-- MOS 6526 models: "new". -/
def CIA_MODEL_6526A : Nat := 1

/-- Port A. -/
def CIA_PRA : Nat := 0
/-- Port B. -/
def CIA_PRB : Nat := 1
/-- Data direction register for port A. -/
def CIA_DDRA : Nat := 2
/-- Data direction register for port B. -/
def CIA_DDRB : Nat := 3
/-- Timer A low. -/
def CIA_TAL : Nat := 4
/-- Timer A high. -/
def CIA_TAH : Nat := 5
/-- Timer B low. -/
def CIA_TBL : Nat := 6
/-- Timer B high. -/
def CIA_TBH : Nat := 7
/-- Time Of Day clock 1/10 s. -/
def CIA_TOD_TEN : Nat := 8
/-- Time Of Day clock sec. -/
def CIA_TOD_SEC : Nat := 9
/-- Time Of Day clock min. -/
def CIA_TOD_MIN : Nat := 10
/-- Time Of Day clock hour. -/
def CIA_TOD_HR : Nat := 11
/-- Serial port shift register. -/
def CIA_SDR : Nat := 12
/-- Interrupt control register. -/
def CIA_ICR : Nat := 13
/-- Control register A. -/
def CIA_CRA : Nat := 14
/-- Control register B. -/
def CIA_CRB : Nat := 15

def CIA_CR_START : Nat := 0x01
def CIA_CR_PBON : Nat := 0x02
def CIA_CR_OUTMODE : Nat := 0x04
def CIA_CR_OUTMODE_TOGGLE : Nat := 0x04
def CIA_CR_OUTMODE_PULSE : Nat := 0x00
def CIA_CR_RUNMODE : Nat := 0x08
def CIA_CR_RUNMODE_ONE_SHOT : Nat := 0x08
def CIA_CR_RUNMODE_CONTINUOUS : Nat := 0x00
def CIA_CR_LOAD : Nat := 0x10
def CIA_CR_FORCE_LOAD : Nat := 0x10

def CIA_CRA_INMODE : Nat := 0x20
def CIA_CRA_INMODE_CNT : Nat := 0x20
def CIA_CRA_INMODE_PHI2 : Nat := 0x00
def CIA_CRA_SPMODE : Nat := 0x40
def CIA_CRA_SPMODE_OUT : Nat := 0x40
def CIA_CRA_SPMODE_IN : Nat := 0x00
def CIA_CRA_TODIN : Nat := 0x80
def CIA_CRA_TODIN_50HZ : Nat := 0x80
def CIA_CRA_TODIN_60HZ : Nat := 0x00

def CIA_CRB_INMODE : Nat := 0x60
def CIA_CRB_INMODE_PHI2 : Nat := 0x00
def CIA_CRB_INMODE_CNT : Nat := 0x20
def CIA_CRB_INMODE_TA : Nat := 0x40
def CIA_CRB_INMODE_TA_CNT : Nat := 0x60
def CIA_CRB_ALARM : Nat := 0x80
def CIA_CRB_ALARM_ALARM : Nat := 0x80
def CIA_CRB_ALARM_TOD : Nat := 0x00

/-- Control bit of an ICR write. -/
def CIA_IM_SET : Nat := 0x80
/-- Timer A underflow. -/
def CIA_IM_TA : Nat := 1
/-- Timer B underflow. -/
def CIA_IM_TB : Nat := 2
/-- TOD clock alarm. -/
def CIA_IM_TOD : Nat := 4
/-- Shift register completion. -/
def CIA_IM_SDR : Nat := 8
/-- Handshake. -/
def CIA_IM_FLG : Nat := 16
/-- Timer B bug flag. -/
def CIA_IM_TBB : Nat := 0x100

/-- The sixteen register offsets of `cia.h`, in the order of their definition. -/
def cia_registers : List Nat :=
  [CIA_PRA, CIA_PRB, CIA_DDRA, CIA_DDRB, CIA_TAL, CIA_TAH, CIA_TBL, CIA_TBH,
   CIA_TOD_TEN, CIA_TOD_SEC, CIA_TOD_MIN, CIA_TOD_HR, CIA_SDR, CIA_ICR,
   CIA_CRA, CIA_CRB]

/-- The five interrupt sources that have a mask bit. -/
def cia_im_sources : List Nat :=
  [CIA_IM_TA, CIA_IM_TB, CIA_IM_TOD, CIA_IM_SDR, CIA_IM_FLG]

/-- The run mode selected by a control-register byte: the `CIA_CR_RUNMODE` field. -/
def cia_cr_runmode (cr : Nat) : Nat := cr &&& CIA_CR_RUNMODE

/-! ## The context record -/

/-- Modelled from the spec: the timer record `struct ciat_s`, which `cia.h`
only declares.  Section 3 gives each timer a current count and a latch (the
reload value), both 16 bit; the run mode, input mode and started flag are the
bits of the timer's control register in `c_cia`. -/
structure ciat where
  cnt : Nat
  latch : Nat
deriving DecidableEq, Repr

/-- The record `cia_context_s` of `cia.h`.  Arrays are lists, the alarm handles
are the flag "an alarm is scheduled", unsigned machine integers are naturals and
the `int` model tag is an integer; the clock
bookkeeping, logging and pointer fields, which no operation below reads, are
left out.  The last five fields are not in the C record; they stand for
collaborators that the spec names: `pa_in` and `pb_in` are what the host's
`read_ciapa` and `read_ciapb` callbacks return, `int_line` is the chip's line in
the interrupt-status collaborator, `sp_out_state` is the level last driven on
the SP pin through `set_sp`, and `todwrbuf` is the TOD write buffer of section
4.3. -/
structure cia_context where
  c_cia : List Nat
  ta_alarm : Bool
  tb_alarm : Bool
  tod_alarm : Bool
  idle_alarm : Bool
  sdr_alarm : Bool
  irqflags : Nat
  irq_enabled : Nat
  tat : Nat
  tbt : Nat
  sr_bits : Nat
  sdr_force_finish : Bool
  sdr_valid : Bool
  shifter : Nat
  sdr_delay : Nat
  old_pa : Nat
  old_pb : Nat
  todstopped : Bool
  todlatched : Bool
  todalarm : List Nat
  todlatch : List Nat
  todtickcounter : Nat
  ta : ciat
  tb : ciat
  model : Int
  enabled : Bool
  sp_in_state : Bool
  cnt_in_state : Bool
  cnt_out_state : Bool
  pa_in : Nat
  pb_in : Nat
  int_line : Bool
  sp_out_state : Bool
  todwrbuf : List (Option Nat)
deriving DecidableEq, Repr

/-- The byte `c[i]` of a register array (0 past its end). -/
def reg (c : List Nat) (i : Nat) : Nat := c.getD i 0

/-- A context with all registers zero, both timers stopped with latch and count
0xFFFF, no interrupt pending or enabled, TOD running and not latched, shift
register idle. -/
def cia_ctx0 : cia_context :=
  { c_cia := List.replicate 16 0,
    ta_alarm := false, tb_alarm := false, tod_alarm := false,
    idle_alarm := false, sdr_alarm := false,
    irqflags := 0, irq_enabled := 0, tat := 0, tbt := 0,
    sr_bits := 0, sdr_force_finish := false, sdr_valid := false,
    shifter := 0, sdr_delay := 0, old_pa := 0xff, old_pb := 0xff,
    todstopped := false, todlatched := false,
    todalarm := [0, 0, 0, 0], todlatch := [0, 0, 0, 0], todtickcounter := 0,
    ta := { cnt := 0xffff, latch := 0xffff },
    tb := { cnt := 0xffff, latch := 0xffff },
    model := CIA_MODEL_6526, enabled := true,
    sp_in_state := false, cnt_in_state := false, cnt_out_state := false,
    pa_in := 0xff, pb_in := 0xff,
    int_line := false, sp_out_state := false,
    todwrbuf := [none, none, none, none] }

/-! ## Interrupt control -/

/-- Modelled from the spec: whether an enabled (unmasked) source is pending
(section 4.5); the sources are the five bits TA, TB, TOD, SDR, FLG. -/
def cia_irq_pending (ctx : cia_context) : Bool :=
  decide (ctx.irqflags &&& ctx.irq_enabled &&& 0x1f ≠ 0)

/-- Modelled from the spec: a source fires (section 4.5): its bit is latched in
`irqflags`, and the interrupt line is asserted when an unmasked source is
pending. -/
def cia_set_int (ctx : cia_context) (src : Nat) : cia_context :=
  let ctx1 := { ctx with irqflags := ctx.irqflags ||| src }
  { ctx1 with int_line := ctx1.int_line || cia_irq_pending ctx1 }

/-- Modelled from the spec: the byte an ICR read returns (section 4.5): the
latched pending flags, with bit 7 saying that an enabled source is pending. -/
def cia_icr_value (ctx : cia_context) : Nat :=
  (ctx.irqflags &&& 0x7f) ||| (if cia_irq_pending ctx then 0x80 else 0)

/-! ## Shift register -/

/-- Modelled from the spec: one serial-out shift event (section 4.4), clocked by
Timer A.  While a shift is in flight (`sdr_alarm`, the completion alarm, is
scheduled) the top bit of the low byte of `shifter` is driven on SP, the
shifter moves left in its 16-bit working width, the bit counter is incremented
and the pending-action delay counts down.  On reaching 8 the SDR bit is latched
in the ICR and, if not force-finish, the byte that software has queued
(`sdr_valid`) is loaded for the next shift; otherwise the shifter goes idle. -/
def cia_sdr_shift_out (ctx : cia_context) : cia_context :=
  if ctx.sdr_alarm = false then ctx
  else
    let ctx1 := { ctx with
      sp_out_state := decide (ctx.shifter &&& 0x80 ≠ 0),
      shifter := (ctx.shifter <<< 1) % 65536,
      sr_bits := ctx.sr_bits + 1,
      sdr_delay := ctx.sdr_delay - 1 }
    if ctx1.sr_bits < 8 then ctx1
    else
      let ctx2 := cia_set_int ctx1 CIA_IM_SDR
      if ctx2.sdr_valid && !ctx2.sdr_force_finish then
        { ctx2 with shifter := reg ctx2.c_cia CIA_SDR, sr_bits := 0, sdr_valid := false }
      else
        { ctx2 with sr_bits := 0, sdr_alarm := false, sdr_force_finish := false }

/-- Modelled from the spec: one serial-in shift event (section 4.4), driven by
the CNT line: the level of SP enters the shifter; the eighth bit completes the
byte, which becomes the SDR register value, and latches the SDR bit. -/
def cia_sdr_shift_in (ctx : cia_context) : cia_context :=
  let sh := ((ctx.shifter <<< 1) ||| (if ctx.sp_in_state then 1 else 0)) % 65536
  if ctx.sr_bits + 1 < 8 then
    { ctx with shifter := sh, sr_bits := ctx.sr_bits + 1 }
  else
    cia_set_int
      { ctx with shifter := sh, sr_bits := 0, c_cia := ctx.c_cia.set CIA_SDR (sh % 256) }
      CIA_IM_SDR

/-! ## Timers -/

/-- Modelled from the spec: one input-source tick of a running timer (section
4.2): the count decrements, and when it reaches 0 the timer underflows and
reloads from the latch, so a count of `n` underflows on the `n`-th tick (section
8).  Ticks are those of the input source as they reach the counter; start-up
latency in clock cycles is outside this model.  The flag says whether the timer
underflowed. -/
def ciat_tick (t : ciat) : ciat × Bool :=
  if t.cnt ≤ 1 then ({ t with cnt := t.latch }, true)
  else ({ t with cnt := t.cnt - 1 }, false)

/-- Whether the timer with control register `cr` is started: the `CIA_CR_START`
bit. -/
def cia_cr_started (cr : Nat) : Bool := decide (cr &&& CIA_CR_START ≠ 0)

/-- Modelled from the spec: the effects of a Timer B underflow besides the
reload (section 4.2): the TB bit is latched, the output toggles when the timer
drives port B in toggle mode, and a one-shot timer stops, which clears the
START bit of CRB and cancels the alarm. -/
def cia_tb_underflow (ctx : cia_context) : cia_context :=
  let cr := reg ctx.c_cia CIA_CRB
  let ctx1 := cia_set_int ctx CIA_IM_TB
  let ctx2 :=
    if cr &&& CIA_CR_PBON ≠ 0 ∧ cr &&& CIA_CR_OUTMODE = CIA_CR_OUTMODE_TOGGLE then
      { ctx1 with tbt := 1 - ctx1.tbt }
    else ctx1
  if cr &&& CIA_CR_RUNMODE = CIA_CR_RUNMODE_ONE_SHOT then
    { ctx2 with c_cia := ctx2.c_cia.set CIA_CRB (cr &&& 0xfe), tb_alarm := false }
  else ctx2

/-- Modelled from the spec: one tick of Timer B's configured input source; a
stopped timer ignores it. -/
def cia_tb_tick (ctx : cia_context) : cia_context :=
  if cia_cr_started (reg ctx.c_cia CIA_CRB) then
    let r := ciat_tick ctx.tb
    let ctx1 := { ctx with tb := r.1 }
    if r.2 then cia_tb_underflow ctx1 else ctx1
  else ctx

/-- Modelled from the spec: whether Timer B is chained to Timer A (section 4.2):
input mode TA, or TA_CNT while the CNT line is high. -/
def cia_tb_chained (ctx : cia_context) : Bool :=
  let m := reg ctx.c_cia CIA_CRB &&& CIA_CRB_INMODE
  decide (m = CIA_CRB_INMODE_TA) || (decide (m = CIA_CRB_INMODE_TA_CNT) && ctx.cnt_in_state)

/-- Modelled from the spec: the effects of a Timer A underflow besides the
reload (section 4.2): the TA bit is latched, the output toggles when the timer
drives port B in toggle mode, a one-shot timer stops (START of CRA is cleared,
the alarm cancelled); the underflow pulse then clocks a chained Timer B and, in
serial-out mode, the shift register. -/
def cia_ta_underflow (ctx : cia_context) : cia_context :=
  let cr := reg ctx.c_cia CIA_CRA
  let ctx1 := cia_set_int ctx CIA_IM_TA
  let ctx2 :=
    if cr &&& CIA_CR_PBON ≠ 0 ∧ cr &&& CIA_CR_OUTMODE = CIA_CR_OUTMODE_TOGGLE then
      { ctx1 with tat := 1 - ctx1.tat }
    else ctx1
  let ctx3 :=
    if cr &&& CIA_CR_RUNMODE = CIA_CR_RUNMODE_ONE_SHOT then
      { ctx2 with c_cia := ctx2.c_cia.set CIA_CRA (cr &&& 0xfe), ta_alarm := false }
    else ctx2
  let ctx4 := if cia_tb_chained ctx3 then cia_tb_tick ctx3 else ctx3
  if cr &&& CIA_CRA_SPMODE = CIA_CRA_SPMODE_OUT then cia_sdr_shift_out ctx4 else ctx4

/-- Modelled from the spec: one tick of Timer A's configured input source; a
stopped timer ignores it. -/
def cia_ta_tick (ctx : cia_context) : cia_context :=
  if cia_cr_started (reg ctx.c_cia CIA_CRA) then
    let r := ciat_tick ctx.ta
    let ctx1 := { ctx with ta := r.1 }
    if r.2 then cia_ta_underflow ctx1 else ctx1
  else ctx

/-- Whether the next input-source tick makes Timer A underflow. -/
def cia_ta_underflows_next (ctx : cia_context) : Bool :=
  cia_cr_started (reg ctx.c_cia CIA_CRA) && (ciat_tick ctx.ta).2

/-- How many of the next `n` input-source ticks make Timer A underflow. -/
def cia_ta_underflows : Nat → cia_context → Nat
  | 0, _ => 0
  | n + 1, ctx =>
    (if cia_ta_underflows_next ctx then 1 else 0) + cia_ta_underflows n (cia_ta_tick ctx)

/-- Modelled from the spec: one cycle of the phi2 clock: it ticks each timer
whose input mode is PHI2. -/
def cia_phi2 (ctx : cia_context) : cia_context :=
  let ctx1 :=
    if reg ctx.c_cia CIA_CRA &&& CIA_CRA_INMODE = CIA_CRA_INMODE_PHI2 then cia_ta_tick ctx
    else ctx
  if reg ctx1.c_cia CIA_CRB &&& CIA_CRB_INMODE = CIA_CRB_INMODE_PHI2 then cia_tb_tick ctx1
  else ctx1

/-- Modelled from the spec: `ciacore_set_cnt`, the CNT input line.  A rising
edge is a count pulse for each timer whose input mode is CNT and, in serial-in
mode, a shift event. -/
def ciacore_set_cnt (ctx : cia_context) (data : Bool) : cia_context :=
  let rising := data && !ctx.cnt_in_state
  let ctx0 := { ctx with cnt_in_state := data }
  if rising then
    let ctx1 :=
      if reg ctx0.c_cia CIA_CRA &&& CIA_CRA_INMODE = CIA_CRA_INMODE_CNT then cia_ta_tick ctx0
      else ctx0
    let ctx2 :=
      if reg ctx1.c_cia CIA_CRB &&& CIA_CRB_INMODE = CIA_CRB_INMODE_CNT then cia_tb_tick ctx1
      else ctx1
    if reg ctx2.c_cia CIA_CRA &&& CIA_CRA_SPMODE = CIA_CRA_SPMODE_IN then cia_sdr_shift_in ctx2
    else ctx2
  else ctx0

/-- Modelled from the spec: `ciacore_set_sp`, the SP input line; the state is
stored for the next serial-in shift event. -/
def ciacore_set_sp (ctx : cia_context) (data : Bool) : cia_context :=
  { ctx with sp_in_state := data }

/-- Modelled from the spec: `ciacore_set_flag`, the FLAG input line: the
handshake source fires. -/
def ciacore_set_flag (ctx : cia_context) : cia_context :=
  cia_set_int ctx CIA_IM_FLG

/-! ## Time-of-day clock -/

/-- Modelled from the spec: BCD increment of the tenths field (0 to 9); the
flag is the carry into the seconds. -/
def tod_inc_ten (b : Nat) : Nat × Bool :=
  if b % 16 = 9 then (0, true) else ((b % 16 + 1) % 16, false)

/-- Modelled from the spec: BCD increment of a seconds or minutes field (00 to
59); the flag is the carry into the next field. -/
def tod_inc_60 (b : Nat) : Nat × Bool :=
  let lo := b % 16
  let hi := b / 16 % 8
  if lo = 9 then
    if hi = 5 then (0, true) else ((hi + 1) % 8 * 16, false)
  else (hi * 16 + (lo + 1) % 16, false)

/-- Modelled from the spec: BCD increment of the hours field with 12-hour AM/PM
rollover: bit 7 is the PM flag, 09 is followed by 10, 11 by 12 with the PM flag
flipped, and 12 by 01. -/
def tod_inc_hr (b : Nat) : Nat :=
  let pm := b &&& 0x80
  let h := b &&& 0x1f
  if h = 0x12 then pm ||| 0x01
  else if h = 0x11 then (pm ^^^ 0x80) ||| 0x12
  else if h = 0x09 then pm ||| 0x10
  else pm ||| ((h + 1) &&& 0x1f)

/-- Modelled from the spec: the clock, which lives in `c_cia[CIA_TOD_TEN ..
CIA_TOD_HR]`, advances by one tenth of a second: tenths, then seconds, minutes
and hours (section 4.3). -/
def tod_increment (c : List Nat) : List Nat :=
  let t := tod_inc_ten (reg c CIA_TOD_TEN)
  let c1 := c.set CIA_TOD_TEN t.1
  if t.2 then
    let s := tod_inc_60 (reg c CIA_TOD_SEC)
    let c2 := c1.set CIA_TOD_SEC s.1
    if s.2 then
      let m := tod_inc_60 (reg c CIA_TOD_MIN)
      let c3 := c2.set CIA_TOD_MIN m.1
      if m.2 then c3.set CIA_TOD_HR (tod_inc_hr (reg c CIA_TOD_HR)) else c3
    else c2
  else c1

/-- Modelled from the spec: the buffered TOD writes take effect: slot `i` of the
buffer, when filled, becomes register `base + i`. -/
def tod_wrbuf_apply : List (Option Nat) → Nat → List Nat → List Nat
  | [], _, c => c
  | none :: r, i, c => tod_wrbuf_apply r (i + 1) c
  | some v :: r, i, c => tod_wrbuf_apply r (i + 1) (c.set i v)

/-- Modelled from the spec: the alarm comparison (section 4.3): the four clock
fields equal the four alarm fields. -/
def cia_tod_match (ctx : cia_context) : Bool :=
  decide (reg ctx.c_cia CIA_TOD_TEN = reg ctx.todalarm 0 ∧
          reg ctx.c_cia CIA_TOD_SEC = reg ctx.todalarm 1 ∧
          reg ctx.c_cia CIA_TOD_MIN = reg ctx.todalarm 2 ∧
          reg ctx.c_cia CIA_TOD_HR = reg ctx.todalarm 3)

/-- Modelled from the spec: one tenth-of-a-second tick of a running TOD clock
(section 4.3): buffered writes take effect at the tick boundary, the clock is
incremented and then compared against the alarm; on an exact match the TOD bit
is latched in the ICR.  The read latch is left alone: section 8 requires a hold
to survive several ticks, so the tick boundary that section 4.3 mentions next to
the tenths read is not taken as releasing it. -/
def cia_tod_tick (ctx : cia_context) : cia_context :=
  if ctx.todstopped then ctx
  else
    let ctx1 := { ctx with
      c_cia := tod_increment (tod_wrbuf_apply ctx.todwrbuf CIA_TOD_TEN ctx.c_cia),
      todwrbuf := ctx.todwrbuf.map (fun _ => none) }
    if cia_tod_match ctx1 then cia_set_int ctx1 CIA_IM_TOD else ctx1

/-- Modelled from the spec: sub-ticks per tenth of a second (section 4.3): 5 at
50 Hz, 6 at 60 Hz, selected by the TODIN bit of CRA. -/
def cia_tod_divisor (cra : Nat) : Nat :=
  if cra &&& CIA_CRA_TODIN = CIA_CRA_TODIN_50HZ then 5 else 6

/-- Modelled from the spec: one sub-tick (50 or 60 per second) of the TOD input;
every fifth or sixth one is a tenth-of-a-second tick. -/
def cia_tod_subtick (ctx : cia_context) : cia_context :=
  if ctx.todstopped then ctx
  else if cia_tod_divisor (reg ctx.c_cia CIA_CRA) ≤ ctx.todtickcounter + 1 then
    cia_tod_tick { ctx with todtickcounter := 0 }
  else { ctx with todtickcounter := ctx.todtickcounter + 1 }

/-! ## Register file and bus interface -/

/-- Modelled from the spec: the byte that register `a` (already masked to 0..15)
shows to a reader (sections 4.1, 4.3, 4.5): the ports come from the host
callbacks, the timer registers show the live count, the TOD registers show the
frozen snapshot while a hold exists, the ICR shows the latched flags. -/
def cia_reg_value (ctx : cia_context) (a : Nat) : Nat :=
  if a = CIA_PRA then ctx.pa_in % 256
  else if a = CIA_PRB then ctx.pb_in % 256
  else if a = CIA_TAL then ctx.ta.cnt % 256
  else if a = CIA_TAH then ctx.ta.cnt / 256 % 256
  else if a = CIA_TBL then ctx.tb.cnt % 256
  else if a = CIA_TBH then ctx.tb.cnt / 256 % 256
  else if CIA_TOD_TEN ≤ a ∧ a ≤ CIA_TOD_HR then
    if ctx.todlatched then reg ctx.todlatch (a - CIA_TOD_TEN) else reg ctx.c_cia a
  else if a = CIA_ICR then cia_icr_value ctx
  else reg ctx.c_cia a

/-- Modelled from the spec: `ciacore_peek` (section 4.1), the non-side-effecting
read for debuggers: the address is masked to 4 bits, the context is handed back
as it was. -/
def ciacore_peek (ctx : cia_context) (addr : Nat) : Nat × cia_context :=
  (cia_reg_value ctx (addr &&& 0x0f), ctx)

/-- Modelled from the spec: `ciacore_read` (sections 4.1, 4.3, 4.5).  The
address is masked to 4 bits.  Reading the hours starts a TOD hold (the clock is
copied to `todlatch`), reading the tenths releases it; reading the ICR clears
all latched flags and de-asserts the interrupt line. -/
def ciacore_read (ctx : cia_context) (addr : Nat) : Nat × cia_context :=
  let a := addr &&& 0x0f
  let v := cia_reg_value ctx a
  if a = CIA_TOD_HR then
    if ctx.todlatched then (v, ctx)
    else
      (v, { ctx with
        todlatched := true,
        todlatch := [reg ctx.c_cia CIA_TOD_TEN, reg ctx.c_cia CIA_TOD_SEC,
                     reg ctx.c_cia CIA_TOD_MIN, reg ctx.c_cia CIA_TOD_HR] })
  else if a = CIA_TOD_TEN then (v, { ctx with todlatched := false })
  else if a = CIA_ICR then (v, { ctx with irqflags := 0, int_line := false })
  else (v, ctx)

/-- Modelled from the spec: a store to a timer latch register (section 4.1):
the selected byte of the latch is replaced; the live count follows only when
the timer is stopped. -/
def ciat_store_latch (t : ciat) (started high : Bool) (byte : Nat) : ciat :=
  let l := if high then (t.latch % 256) ||| (byte <<< 8) else (t.latch / 256 % 256) <<< 8 ||| byte
  { cnt := if started then t.cnt else l, latch := l }

/-- Modelled from the spec: a store to a control register (section 4.1) as far
as the timer is concerned: FORCE_LOAD reloads the count from the latch in the
same cycle. -/
def ciat_store_cr (t : ciat) (byte : Nat) : ciat :=
  if byte &&& CIA_CR_FORCE_LOAD ≠ 0 then { t with cnt := t.latch } else t

/-- Modelled from the spec: `ciacore_store` (sections 4.1, 4.3, 4.4, 4.5).  The
address is masked to 4 bits and the value is a byte.
* Ports and data direction registers: the register is written and the output
  value last handed to the host is remembered in `old_pa` / `old_pb`.
* Timer latch registers: see `ciat_store_latch`.
* TOD registers: with the ALARM bit of CRB set the alarm is written; otherwise
  the clock is written, through the write buffer while `todlatched` is set.
  The raw value is stored as it is.
* SDR: in serial-out mode a store while a shift is in flight is deferred: the
  byte is queued (`sdr_valid`) and `sdr_delay` counts the shift events left
  until the current shift completes; with the shifter idle the byte is loaded
  and a shift starts.
* ICR: bit 7 set adds the selected source bits to the mask, bit 7 clear removes
  them; the line is re-evaluated.
* CRA / CRB: the byte is stored with the self-clearing FORCE_LOAD bit removed,
  and the underflow alarm is scheduled or cancelled with the START bit. -/
def ciacore_store (ctx : cia_context) (addr data : Nat) : cia_context :=
  let a := addr &&& 0x0f
  let byte := data % 256
  if a = CIA_PRA ∨ a = CIA_DDRA then
    let c := ctx.c_cia.set a byte
    { ctx with c_cia := c, old_pa := reg c CIA_PRA ||| (0xff ^^^ reg c CIA_DDRA) }
  else if a = CIA_PRB ∨ a = CIA_DDRB then
    let c := ctx.c_cia.set a byte
    { ctx with c_cia := c, old_pb := reg c CIA_PRB ||| (0xff ^^^ reg c CIA_DDRB) }
  else if a = CIA_TAL ∨ a = CIA_TAH then
    { ctx with
      c_cia := ctx.c_cia.set a byte,
      ta := ciat_store_latch ctx.ta (cia_cr_started (reg ctx.c_cia CIA_CRA))
              (decide (a = CIA_TAH)) byte }
  else if a = CIA_TBL ∨ a = CIA_TBH then
    { ctx with
      c_cia := ctx.c_cia.set a byte,
      tb := ciat_store_latch ctx.tb (cia_cr_started (reg ctx.c_cia CIA_CRB))
              (decide (a = CIA_TBH)) byte }
  else if CIA_TOD_TEN ≤ a ∧ a ≤ CIA_TOD_HR then
    if reg ctx.c_cia CIA_CRB &&& CIA_CRB_ALARM ≠ 0 then
      { ctx with todalarm := ctx.todalarm.set (a - CIA_TOD_TEN) byte }
    else if ctx.todlatched then
      { ctx with todwrbuf := ctx.todwrbuf.set (a - CIA_TOD_TEN) (some byte) }
    else
      { ctx with c_cia := ctx.c_cia.set a byte }
  else if a = CIA_SDR then
    let ctx1 := { ctx with c_cia := ctx.c_cia.set CIA_SDR byte }
    if reg ctx.c_cia CIA_CRA &&& CIA_CRA_SPMODE = CIA_CRA_SPMODE_OUT then
      if ctx.sdr_alarm then
        { ctx1 with sdr_valid := true, sdr_delay := 8 - ctx.sr_bits }
      else
        { ctx1 with shifter := byte, sr_bits := 0, sdr_alarm := true,
                    sdr_valid := false, sdr_delay := 0 }
    else ctx1
  else if a = CIA_ICR then
    let m :=
      if byte &&& CIA_IM_SET ≠ 0 then ctx.irq_enabled ||| (byte &&& 0x1f)
      else ctx.irq_enabled &&& (0xff ^^^ (byte &&& 0x1f))
    let ctx1 := { ctx with c_cia := ctx.c_cia.set CIA_ICR byte, irq_enabled := m }
    { ctx1 with int_line := ctx1.int_line || cia_irq_pending ctx1 }
  else if a = CIA_CRA then
    { ctx with
      c_cia := ctx.c_cia.set CIA_CRA (byte &&& 0xef),
      ta := ciat_store_cr ctx.ta byte,
      ta_alarm := cia_cr_started byte }
  else
    { ctx with
      c_cia := ctx.c_cia.set CIA_CRB (byte &&& 0xef),
      tb := ciat_store_cr ctx.tb byte,
      tb_alarm := cia_cr_started byte }

/-! ## Sequences of operations -/

/-- The operations on a context: the three bus accesses and the events that the
alarm scheduler and the input lines deliver. -/
inductive cia_op where
  | store (addr data : Nat)
  | read (addr : Nat)
  | peek (addr : Nat)
  | ta_tick
  | tb_tick
  | phi2
  | tod_tick
  | tod_subtick
  | set_cnt (data : Bool)
  | set_sp (data : Bool)
  | set_flag
deriving DecidableEq, Repr

/-- Whether an operation is a debugger peek. -/
def cia_op.peeks : cia_op → Bool
  | .peek _ => true
  | _ => false

/-- One operation: the byte handed to the CPU (reads only) and the next
context.  What a peek shows goes to the debugger, not to the CPU. -/
def cia_step (ctx : cia_context) : cia_op → Option Nat × cia_context
  | .store addr data => (none, ciacore_store ctx addr data)
  | .read addr => ((ciacore_read ctx addr).1, (ciacore_read ctx addr).2)
  | .peek addr => (none, (ciacore_peek ctx addr).2)
  | .ta_tick => (none, cia_ta_tick ctx)
  | .tb_tick => (none, cia_tb_tick ctx)
  | .phi2 => (none, cia_phi2 ctx)
  | .tod_tick => (none, cia_tod_tick ctx)
  | .tod_subtick => (none, cia_tod_subtick ctx)
  | .set_cnt data => (none, ciacore_set_cnt ctx data)
  | .set_sp data => (none, ciacore_set_sp ctx data)
  | .set_flag => (none, ciacore_set_flag ctx)

/-- A sequence of operations: the bytes the reads returned, in order, and the
final context. -/
def cia_run : List cia_op → cia_context → List Nat × cia_context
  | [], ctx => ([], ctx)
  | op :: ops, ctx =>
    let r := cia_step ctx op
    let rest := cia_run ops r.2
    (match r.1 with
      | some v => v :: rest.1
      | none => rest.1, rest.2)

/-- The context after `n` applications of an event. -/
def cia_iter (f : cia_context → cia_context) : Nat → cia_context → cia_context
  | 0, ctx => ctx
  | n + 1, ctx => cia_iter f n (f ctx)

/-! ## Scenarios and observers used in the statements -/

/-- The context with Timer A replaced. -/
def cia_with_ta (c : cia_context) (t : ciat) : cia_context := { c with ta := t }

/-- The context with Timer B replaced. -/
def cia_with_tb (c : cia_context) (t : ciat) : cia_context := { c with tb := t }

/-- The one-shot scenario of section 8: Timer A latch set to 5 (low byte 5, high
byte 0), then CRA written with one-shot mode and START. -/
def cia_one_shot_5 (ctx : cia_context) : cia_context :=
  ciacore_store (ciacore_store (ciacore_store ctx CIA_TAL 5) CIA_TAH 0) CIA_CRA
    (CIA_CR_RUNMODE_ONE_SHOT ||| CIA_CR_START)

/-- The stores that set the TOD alarm: CRB is written with the ALARM bit, then the
hours, minutes, seconds and tenths registers. -/
def cia_tod_set_alarm (ctx : cia_context) (hr min sec ten : Nat) : cia_context :=
  ciacore_store (ciacore_store (ciacore_store (ciacore_store
    (ciacore_store ctx CIA_CRB CIA_CRB_ALARM) CIA_TOD_HR hr) CIA_TOD_MIN min) CIA_TOD_SEC sec)
    CIA_TOD_TEN ten

/-- The stores that set the TOD clock: CRB is written with the ALARM bit clear,
then the hours, minutes, seconds and tenths registers. -/
def cia_tod_set_clock (ctx : cia_context) (hr min sec ten : Nat) : cia_context :=
  ciacore_store (ciacore_store (ciacore_store (ciacore_store
    (ciacore_store ctx CIA_CRB CIA_CRB_ALARM_TOD) CIA_TOD_HR hr) CIA_TOD_MIN min) CIA_TOD_SEC sec)
    CIA_TOD_TEN ten

/-- The alarm scenario of section 8: alarm 10:00:00.0, clock 09:59:59.9. -/
def cia_tod_alarm_scenario (ctx : cia_context) : cia_context :=
  cia_tod_set_clock (cia_tod_set_alarm ctx 0x10 0x00 0x00 0x00) 0x09 0x59 0x59 0x09

/-- The TOD read latch of a context: the hold flag and the frozen snapshot. -/
def cia_tod_hold (c : cia_context) : Bool × List Nat := (c.todlatched, c.todlatch)

/-- Whether an operation is a CPU read of the tenths register. -/
def cia_op.reads_ten : cia_op → Bool
  | .read addr => decide (addr &&& 0x0f = CIA_TOD_TEN)
  | _ => false

/-- The context after `j` serial-out shift events that do not complete the byte. -/
def cia_sdr_shifted (c : cia_context) (j : Nat) : cia_context :=
  { c with
    sp_out_state := if j = 0 then c.sp_out_state else c.shifter.testBit (8 - j),
    shifter := (c.shifter <<< j) % 65536,
    sr_bits := c.sr_bits + j,
    sdr_delay := c.sdr_delay - j }

/-- The levels driven on SP by each of the next `n` serial-out shift events. -/
def cia_sdr_out_bits : Nat → cia_context → List Bool
  | 0, _ => []
  | n + 1, c => (cia_sdr_shift_out c).sp_out_state :: cia_sdr_out_bits n (cia_sdr_shift_out c)

/-- A context in the middle of a serial-out shift: serial port in output mode,
0x3C stored to the idle SDR, three bits already shifted out. -/
def cia_sdr_in_flight_example : cia_context :=
  cia_iter cia_sdr_shift_out 3
    (ciacore_store (ciacore_store cia_ctx0 CIA_CRA CIA_CRA_SPMODE_OUT) CIA_SDR 0x3C)

/-! ## Control-register fields -/

/-- The bit fields of control register A, in the order of `cia.h`. -/
def cia_cra_fields : List Nat :=
  [CIA_CR_START, CIA_CR_PBON, CIA_CR_OUTMODE, CIA_CR_RUNMODE, CIA_CR_LOAD,
   CIA_CRA_INMODE, CIA_CRA_SPMODE, CIA_CRA_TODIN]

/-- The bit fields of control register B, in the order of `cia.h`. -/
def cia_crb_fields : List Nat :=
  [CIA_CR_START, CIA_CR_PBON, CIA_CR_OUTMODE, CIA_CR_RUNMODE, CIA_CR_LOAD,
   CIA_CRB_INMODE, CIA_CRB_ALARM]

/-- Every named field value of `cia.h`, paired with the mask of its field. -/
def cia_cr_field_values : List (Nat × Nat) :=
  [(CIA_CR_OUTMODE_TOGGLE, CIA_CR_OUTMODE), (CIA_CR_OUTMODE_PULSE, CIA_CR_OUTMODE),
   (CIA_CR_RUNMODE_ONE_SHOT, CIA_CR_RUNMODE), (CIA_CR_RUNMODE_CONTINUOUS, CIA_CR_RUNMODE),
   (CIA_CR_FORCE_LOAD, CIA_CR_LOAD),
   (CIA_CRA_INMODE_CNT, CIA_CRA_INMODE), (CIA_CRA_INMODE_PHI2, CIA_CRA_INMODE),
   (CIA_CRA_SPMODE_OUT, CIA_CRA_SPMODE), (CIA_CRA_SPMODE_IN, CIA_CRA_SPMODE),
   (CIA_CRA_TODIN_50HZ, CIA_CRA_TODIN), (CIA_CRA_TODIN_60HZ, CIA_CRA_TODIN),
   (CIA_CRB_INMODE_PHI2, CIA_CRB_INMODE), (CIA_CRB_INMODE_CNT, CIA_CRB_INMODE),
   (CIA_CRB_INMODE_TA, CIA_CRB_INMODE), (CIA_CRB_INMODE_TA_CNT, CIA_CRB_INMODE),
   (CIA_CRB_ALARM_ALARM, CIA_CRB_ALARM), (CIA_CRB_ALARM_TOD, CIA_CRB_ALARM)]

/-- The four Timer B input modes. -/
def cia_crb_inmodes : List Nat :=
  [CIA_CRB_INMODE_PHI2, CIA_CRB_INMODE_CNT, CIA_CRB_INMODE_TA, CIA_CRB_INMODE_TA_CNT]

/-- The fields of a control-register byte: the byte under each mask. -/
def cia_cr_decode (fields : List Nat) (cr : Nat) : List Nat := fields.map (fun m => cr &&& m)

/-- The bitwise OR of a list of masks. -/
def cia_or_all (l : List Nat) : Nat := l.foldr (fun a b => a ||| b) 0

/-! ## Setup -/

/-- Modelled from the spec: the error of section 7 that is fatal at construction, an invalid
chip model tag; `cia.h` declares no error type. -/
inductive cia_error where
  | configuration (model : Int)
deriving DecidableEq, Repr

/-- Whether a model tag is one of the two tags of `cia.h`. -/
def cia_model_valid (model : Int) : Bool :=
  decide (model = CIA_MODEL_6526 ∨ model = CIA_MODEL_6526A)

/-- Modelled from the spec: `ciacore_setup_context`, which `cia.h` only declares (as a `void`
function of the context).  Section 7 makes an invalid model tag in the context a fatal
configuration error that reaches the caller and is not replaced by a default; the fatal end
of the C function is the error result here.  A valid tag leaves the context as the caller
built it. -/
def ciacore_setup_context (ctx : cia_context) : Except cia_error cia_context :=
  if cia_model_valid ctx.model then .ok ctx else .error (.configuration ctx.model)

/-- Modelled from the spec: `ciacore_init`, which `cia.h` only declares; the alarm context and
the interrupt status it receives are collaborators outside the context record.  It is the
second step of construction and fails on an invalid model tag like the first. -/
def ciacore_init (ctx : cia_context) : Except cia_error cia_context :=
  if cia_model_valid ctx.model then .ok ctx else .error (.configuration ctx.model)

/-! ## Snapshot module -/

/-- Whether `l` is an array of `n` bytes. -/
def cia_is_bytes (n : Nat) (l : List Nat) : Bool :=
  decide (l.length = n) && l.all fun b => decide (b < 256)

/-- Whether a slot of the TOD write buffer is empty or holds a byte. -/
def cia_is_slot : Option Nat → Bool
  | none => true
  | some v => decide (v < 256)

/-- Whether the fields of a context fit the C types `cia.h` gives them: `uint8_t` registers,
ports and TOD bytes, `uint16_t` shifter and timer values, 32-bit `unsigned int` and `uint32_t`
counters; the TOD write buffer has one slot per TOD register. -/
def cia_in_range (c : cia_context) : Bool :=
  cia_is_bytes 16 c.c_cia && decide (c.irqflags < 2 ^ 32) && decide (c.irq_enabled < 256) &&
  decide (c.tat < 2 ^ 32) && decide (c.tbt < 2 ^ 32) && decide (c.sr_bits < 2 ^ 32) &&
  decide (c.shifter < 65536) && decide (c.sdr_delay < 2 ^ 32) &&
  decide (c.old_pa < 256) && decide (c.old_pb < 256) &&
  cia_is_bytes 4 c.todalarm && cia_is_bytes 4 c.todlatch && decide (c.todtickcounter < 256) &&
  decide (c.ta.cnt < 65536) && decide (c.ta.latch < 65536) &&
  decide (c.tb.cnt < 65536) && decide (c.tb.latch < 65536) &&
  decide (c.todwrbuf.length = 4) && c.todwrbuf.all cia_is_slot

/-- Modelled from the spec: a module of a snapshot (section 6: "an opaque versioned binary
module"): its name, its version and its bytes.  The type `snapshot_s` is only declared in
`cia.h`. -/
structure snapshot_module where
  name : String
  major : Nat
  minor : Nat
  data : List Nat
deriving DecidableEq, Repr

/-- Modelled from the spec: the name of the CIA's snapshot module. -/
def CIA_DUMP_NAME : String := "CIA"

/-- Modelled from the spec: the major version of the CIA's snapshot module. -/
def CIA_DUMP_VER_MAJOR : Nat := 2

/-- Modelled from the spec: the minor version of the CIA's snapshot module. -/
def CIA_DUMP_VER_MINOR : Nat := 5

/-- Modelled from the spec: a byte written to a module. -/
def smw_b (v : Nat) : List Nat := [v % 256]

/-- Modelled from the spec: a 16-bit word written to a module, low byte first. -/
def smw_w (v : Nat) : List Nat := [v % 256, v / 256 % 256]

/-- Modelled from the spec: a 32-bit word written to a module, low byte first. -/
def smw_dw (v : Nat) : List Nat :=
  [v % 256, v / 256 % 256, v / 65536 % 256, v / 16777216 % 256]

/-- Modelled from the spec: a byte array written to a module. -/
def smw_ba (l : List Nat) : List Nat := l.map fun b => b % 256

/-- Modelled from the spec: a flag written to a module, as the byte 1 or 0. -/
def smw_bool (b : Bool) : List Nat := [if b then 1 else 0]

/-- Modelled from the spec: the slots of the TOD write buffer written to a module, each as a
byte saying whether the slot is filled and the byte it holds. -/
def smw_slots : List (Option Nat) → List Nat
  | [] => []
  | none :: r => 0 :: 0 :: smw_slots r
  | some v :: r => 1 :: v % 256 :: smw_slots r

/-- Modelled from the spec: a byte read from the front of a module and the bytes after it. -/
def smr_b : List Nat → Option (Nat × List Nat)
  | b :: r => some (b, r)
  | [] => none

/-- Modelled from the spec: a 16-bit word read from a module. -/
def smr_w : List Nat → Option (Nat × List Nat)
  | lo :: hi :: r => some (lo + 256 * hi, r)
  | _ => none

/-- Modelled from the spec: a 32-bit word read from a module. -/
def smr_dw : List Nat → Option (Nat × List Nat)
  | b0 :: b1 :: b2 :: b3 :: r => some (b0 + 256 * b1 + 65536 * b2 + 16777216 * b3, r)
  | _ => none

/-- Modelled from the spec: a byte array of length `n` read from a module. -/
def smr_ba (n : Nat) (s : List Nat) : Option (List Nat × List Nat) :=
  if n ≤ s.length then some (s.take n, s.drop n) else none

/-- Modelled from the spec: a flag read from a module. -/
def smr_bool : List Nat → Option (Bool × List Nat)
  | b :: r => some (decide (b ≠ 0), r)
  | [] => none

/-- Modelled from the spec: `n` slots of the TOD write buffer read from a module. -/
def smr_slots : Nat → List Nat → Option (List (Option Nat) × List Nat)
  | 0, s => some ([], s)
  | n + 1, f :: v :: r =>
    match smr_slots n r with
    | some (l, rest) => some ((if f = 0 then none else some v) :: l, rest)
    | none => none
  | _ + 1, _ => none

/-- Modelled from the spec: the bytes of the CIA module (section 6): all register bytes, the
five alarms, the ICR's pending flags and mask, the timer outputs, the SDR state, the old port
values, the TOD state with alarm, latch and write buffer, both timers' count and latch, and
the line states.  The model tag and the values of the host's port callbacks belong to the
context the module is read into and are not written. -/
def cia_snapshot_data (c : cia_context) : List Nat :=
  smw_ba c.c_cia ++ (smw_bool c.ta_alarm ++ (smw_bool c.tb_alarm ++ (smw_bool c.tod_alarm ++
  (smw_bool c.idle_alarm ++ (smw_bool c.sdr_alarm ++ (smw_dw c.irqflags ++
  (smw_b c.irq_enabled ++ (smw_dw c.tat ++ (smw_dw c.tbt ++ (smw_dw c.sr_bits ++
  (smw_bool c.sdr_force_finish ++ (smw_bool c.sdr_valid ++ (smw_w c.shifter ++
  (smw_dw c.sdr_delay ++ (smw_b c.old_pa ++ (smw_b c.old_pb ++ (smw_bool c.todstopped ++
  (smw_bool c.todlatched ++ (smw_ba c.todalarm ++ (smw_ba c.todlatch ++
  (smw_b c.todtickcounter ++ (smw_w c.ta.cnt ++ (smw_w c.ta.latch ++ (smw_w c.tb.cnt ++
  (smw_w c.tb.latch ++ (smw_bool c.enabled ++ (smw_bool c.sp_in_state ++
  (smw_bool c.cnt_in_state ++ (smw_bool c.cnt_out_state ++ (smw_bool c.int_line ++
  (smw_bool c.sp_out_state ++ smw_slots c.todwrbuf)))))))))))))))))))))))))))))))

/-- Modelled from the spec: `ciacore_snapshot_write_module`, which `cia.h` only declares: the
CIA module is added to the snapshot; the result 0 says that it was written. -/
def ciacore_snapshot_write_module (ctx : cia_context) (s : List snapshot_module) :
    Int × List snapshot_module :=
  (0, s ++ [{ name := CIA_DUMP_NAME, major := CIA_DUMP_VER_MAJOR, minor := CIA_DUMP_VER_MINOR,
              data := cia_snapshot_data ctx }])

/-- Modelled from the spec: one read from a module followed by what is done with the value
and the bytes left; the end of the bytes ends the reading. -/
def smr_bind {α β : Type} (p : Option (α × List Nat)) (k : α → List Nat → Option β) :
    Option β :=
  match p with
  | none => none
  | some (a, s) => k a s

/-- Modelled from the spec: the fields of a context read back from the bytes of a CIA module,
in the order they were written, into the context `ctx`; `none` when the bytes run out. -/
def cia_snapshot_parse (ctx : cia_context) (s : List Nat) : Option cia_context :=
  smr_bind (smr_ba 16 s) fun c_cia s =>
  smr_bind (smr_bool s) fun ta_alarm s =>
  smr_bind (smr_bool s) fun tb_alarm s =>
  smr_bind (smr_bool s) fun tod_alarm s =>
  smr_bind (smr_bool s) fun idle_alarm s =>
  smr_bind (smr_bool s) fun sdr_alarm s =>
  smr_bind (smr_dw s) fun irqflags s =>
  smr_bind (smr_b s) fun irq_enabled s =>
  smr_bind (smr_dw s) fun tat s =>
  smr_bind (smr_dw s) fun tbt s =>
  smr_bind (smr_dw s) fun sr_bits s =>
  smr_bind (smr_bool s) fun sdr_force_finish s =>
  smr_bind (smr_bool s) fun sdr_valid s =>
  smr_bind (smr_w s) fun shifter s =>
  smr_bind (smr_dw s) fun sdr_delay s =>
  smr_bind (smr_b s) fun old_pa s =>
  smr_bind (smr_b s) fun old_pb s =>
  smr_bind (smr_bool s) fun todstopped s =>
  smr_bind (smr_bool s) fun todlatched s =>
  smr_bind (smr_ba 4 s) fun todalarm s =>
  smr_bind (smr_ba 4 s) fun todlatch s =>
  smr_bind (smr_b s) fun todtickcounter s =>
  smr_bind (smr_w s) fun ta_cnt s =>
  smr_bind (smr_w s) fun ta_latch s =>
  smr_bind (smr_w s) fun tb_cnt s =>
  smr_bind (smr_w s) fun tb_latch s =>
  smr_bind (smr_bool s) fun enabled s =>
  smr_bind (smr_bool s) fun sp_in_state s =>
  smr_bind (smr_bool s) fun cnt_in_state s =>
  smr_bind (smr_bool s) fun cnt_out_state s =>
  smr_bind (smr_bool s) fun int_line s =>
  smr_bind (smr_bool s) fun sp_out_state s =>
  smr_bind (smr_slots 4 s) fun todwrbuf _ =>
  some { ctx with
    c_cia := c_cia, ta_alarm := ta_alarm, tb_alarm := tb_alarm, tod_alarm := tod_alarm,
    idle_alarm := idle_alarm, sdr_alarm := sdr_alarm, irqflags := irqflags,
    irq_enabled := irq_enabled, tat := tat, tbt := tbt, sr_bits := sr_bits,
    sdr_force_finish := sdr_force_finish, sdr_valid := sdr_valid, shifter := shifter,
    sdr_delay := sdr_delay, old_pa := old_pa, old_pb := old_pb, todstopped := todstopped,
    todlatched := todlatched, todalarm := todalarm, todlatch := todlatch,
    todtickcounter := todtickcounter, ta := { cnt := ta_cnt, latch := ta_latch },
    tb := { cnt := tb_cnt, latch := tb_latch }, enabled := enabled,
    sp_in_state := sp_in_state, cnt_in_state := cnt_in_state, cnt_out_state := cnt_out_state,
    int_line := int_line, sp_out_state := sp_out_state, todwrbuf := todwrbuf }

/-- Modelled from the spec: `ciacore_snapshot_read_module`, which `cia.h` only declares: the
CIA module of the snapshot is looked up, its version checked and its bytes read into the
context.  The result is 0 and the restored context, or -1 and the context as it was when the
module is missing, of another major or a later minor version, or too short. -/
def ciacore_snapshot_read_module (ctx : cia_context) (s : List snapshot_module) :
    Int × cia_context :=
  match s.find? fun m => m.name = CIA_DUMP_NAME with
  | none => (-1, ctx)
  | some m =>
    if m.major ≠ CIA_DUMP_VER_MAJOR ∨ CIA_DUMP_VER_MINOR < m.minor then (-1, ctx)
    else
      match cia_snapshot_parse ctx m.data with
      | none => (-1, ctx)
      | some c => (0, c)

/-- A sequence that leaves a deferred SDR action and a TOD hold pending: the serial port is
put in output mode, a byte is stored to the idle SDR, a second byte is stored while the first
is in flight, and the hours register is read. -/
def cia_snapshot_example_ops : List cia_op :=
  [.store CIA_CRA CIA_CRA_SPMODE_OUT, .store CIA_SDR 0x3c, .store CIA_SDR 0x55,
   .read CIA_TOD_HR]

/-- Reads over further ticks: the clock advances under the hold, the minutes and the ICR are
read, the shift register is read, the tenths are read, which releases the hold, and the
seconds are read from the live clock. -/
def cia_snapshot_example_later : List cia_op :=
  [.tod_tick, .read CIA_TOD_MIN, .phi2, .read CIA_ICR, .read CIA_SDR, .tod_tick,
   .read CIA_TOD_TEN, .read CIA_TOD_SEC, .read CIA_TAL]

end Cia

namespace AciaWidget

/-! ## The ACIA settings widget (`arch/gtk3/widgets/aciawidget.c`) -/

/-- An entry of a combo box list, `vice_gtk3_combo_entry_int_t`, with the two fields
`generate_baud_rate_list` writes; a NULL `name` is `none`. -/
structure vice_gtk3_combo_entry_int_t where
  name : Option String
  id : Int
deriving DecidableEq, Repr

/-- The call `lib_msprintf("%d", v)`: a fresh string holding the decimal rendering of the
int `v`. -/
def lib_msprintf_d (v : Int) : String := toString v

/-- The counting loop `for (i = 0; acia_baud_rates[i] > 0; i++)` of
`generate_baud_rate_list`, at index `i` with the array from that index on: the index at which
the loop stops, `none` when it reads past the end of the array. -/
def count_baud_rates : List Int → Nat → Option Nat
  | [], _ => none
  | v :: rest, i => if v > 0 then count_baud_rates rest (i + 1) else some i

/-- The filling loop of `generate_baud_rate_list`, at index `i` with the array from that index
on and the allocated block `buf`: the index at which the loop stops and the block then, `none`
when it reads past the array or writes past the block. -/
def fill_baud_rate_list :
    List Int → Nat → List vice_gtk3_combo_entry_int_t →
      Option (Nat × List vice_gtk3_combo_entry_int_t)
  | [], _, _ => none
  | v :: rest, i, buf =>
    if v > 0 then
      if i < buf.length then
        fill_baud_rate_list rest (i + 1) (buf.set i { name := some (lib_msprintf_d v), id := v })
      else none
    else some (i, buf)

/-- The function `generate_baud_rate_list` on the array `acia_baud_rates`: the block it leaves
in `baud_rate_list`, `none` when an access is out of bounds. `lib_malloc` hands out `i + 1`
entries of unspecified content, here all `junk`. -/
def generate_baud_rate_list (junk : vice_gtk3_combo_entry_int_t) (acia_baud_rates : List Int) :
    Option (List vice_gtk3_combo_entry_int_t) :=
  match count_baud_rates acia_baud_rates 0 with
  | none => none
  | some n =>
    match fill_baud_rate_list acia_baud_rates 0 (List.replicate (n + 1) junk) with
    | none => none
    | some (i, buf) =>
      if i < buf.length then some (buf.set i { name := none, id := -1 }) else none

/-- A text entry box: its text and, once `on_serial_device_changed` is connected to its
"changed" signal, the device number given as user data. -/
structure GtkEntry where
  text : String
  changed_data : Option Int
deriving DecidableEq, Repr

/-- The state the functions of `aciawidget.c` work on: the file's statics `acia_baud_rates`,
`acia_entries` (a NULL slot is `none`) and `baud_rate_list` (NULL is `none`), the string
resources `RsDevice<n>`, the device numbers of the errors logged, the strings released with
`g_free` and whether the file dialog has been destroyed. -/
structure acia_widget_state where
  acia_baud_rates : List Int
  acia_entries : List (Option GtkEntry)
  baud_rate_list : Option (List vice_gtk3_combo_entry_int_t)
  rs_device : Int → Option String
  log : List Int
  freed : List String
  dialog_destroyed : Bool

/-- The state at program start: `acia_entries[2]` zeroed, `baud_rate_list = NULL`. -/
def acia_widget_state0 : acia_widget_state :=
  { acia_baud_rates := [], acia_entries := [none, none], baud_rate_list := none,
    rs_device := fun _ => none, log := [], freed := [], dialog_destroyed := false }

/-- The index `idx` into `acia_entries` as a position of the array, `none` when it lies
outside of it. -/
def acia_entries_index (st : acia_widget_state) (idx : Int) : Option Nat :=
  if 0 ≤ idx ∧ idx < st.acia_entries.length then some idx.toNat else none

/-- The handler `on_serial_device_changed` for an entry with text `text`:
`resources_set_string_sprintf("RsDevice%d", text, device)`. -/
def on_serial_device_changed (st : acia_widget_state) (text : String) (user_data : Int) :
    acia_widget_state :=
  { st with rs_device := fun n => if n = user_data then some text else st.rs_device n }

/-- The call `gtk_entry_set_text` on the entry in slot `k` of `acia_entries`: the text is
replaced and the "changed" handler, when connected, runs; on a NULL entry GTK returns without
effect. -/
def gtk_entry_set_text (st : acia_widget_state) (k : Nat) (text : String) : acia_widget_state :=
  match st.acia_entries.getD k none with
  | none => st
  | some e =>
    let st1 := { st with acia_entries := st.acia_entries.set k (some { e with text := text }) }
    match e.changed_data with
    | none => st1
    | some device => on_serial_device_changed st1 text device

/-- The function `browse_filename_callback` with the statics in `st`; `filename` is `none`
for NULL and `data` is the device number carried by the pointer. `none` when
`acia_entries[device - 1]` is out of bounds. -/
def browse_filename_callback (st : acia_widget_state) (filename : Option String) (data : Int) :
    Option acia_widget_state :=
  match filename with
  | some f =>
    let device := data
    if device ≠ 1 ∧ device ≠ 2 then
      some { st with log := st.log ++ [device], freed := st.freed ++ [f],
                     dialog_destroyed := true }
    else
      match acia_entries_index st (device - 1) with
      | none => none
      | some k =>
        let st1 := gtk_entry_set_text st k f
        some { st1 with freed := st1.freed ++ [f], dialog_destroyed := true }
  | none => some { st with dialog_destroyed := true }

/-- The function `create_acia_serial_device_widget(num)` as far as the statics go: a new,
empty entry is stored in `acia_entries[num - 1]`, receives the text of resource
`RsDevice<num>` when that is a non-empty string, and then gets its "changed" handler. `none`
when the index is out of bounds. -/
def create_acia_serial_device_widget (st : acia_widget_state) (num : Int) :
    Option acia_widget_state :=
  match acia_entries_index st (num - 1) with
  | none => none
  | some k =>
    let st1 := { st with acia_entries :=
                   st.acia_entries.set k (some { text := "", changed_data := none }) }
    let st2 := match st1.rs_device num with
      | some path => if path ≠ "" then gtk_entry_set_text st1 k path else st1
      | none => st1
    let entry := (st2.acia_entries.getD k none).map fun e => { e with changed_data := some num }
    some { st2 with acia_entries := st2.acia_entries.set k entry }

/-- The function `acia_widget_create(baud)` as far as the statics go: `acia_baud_rates` is
set, the baud rate list generated and the two serial device widgets created. `none` when an
access is out of bounds. -/
def acia_widget_create (junk : vice_gtk3_combo_entry_int_t) (st : acia_widget_state)
    (baud : List Int) : Option acia_widget_state :=
  let st1 := { st with acia_baud_rates := baud }
  match generate_baud_rate_list junk st1.acia_baud_rates with
  | none => none
  | some l =>
    let st2 := { st1 with baud_rate_list := some l }
    match create_acia_serial_device_widget st2 1 with
    | none => none
    | some st3 => create_acia_serial_device_widget st3 2

/-- The list entry made for baud rate `v`: the name is its decimal rendering, the id is `v`. -/
def baud_rate_entry (v : Int) : vice_gtk3_combo_entry_int_t :=
  { name := some (lib_msprintf_d v), id := v }

/-- The terminator of a combo box list: a NULL name and id -1. -/
def baud_rate_terminator : vice_gtk3_combo_entry_int_t := { name := none, id := -1 }

/-- The list the documentation of `acia_widget_create` describes, read literally: one entry
for each element of `baud` before its first -1, then the terminator. -/
def baud_rate_list_until_minus_one (baud : List Int) : List vice_gtk3_combo_entry_int_t :=
  (baud.takeWhile fun v => v ≠ -1).map baud_rate_entry ++ [baud_rate_terminator]

/-- A state in which both serial device widgets exist, each entry empty and connected to its
"changed" handler. -/
def acia_widget_example : acia_widget_state :=
  { acia_widget_state0 with
    acia_entries := [some { text := "", changed_data := some 1 },
                     some { text := "", changed_data := some 2 }] }

end AciaWidget

namespace KbdMappingWidget

/-! ## The keyboard mapping widget (`arch/gtk3/widgets/kbdmappingwidget.c`) -/

/-- Modelled from the spec: the resource subsystem, whose `resources_get_int` and
`resources_set_int` are not among the sources, is a store of named configuration values that
are got and set. The state `kbdmapping_widget_update` works on is that store (`none` for a
name that is no resource), the calls of `resources_set_int` made so far, and the sensitivity
of the items of `radio_group`, one per entry of `mappings`. -/
structure kbdmapping_state where
  resources : String → Option Int
  resource_sets : List (String × Int)
  radio_group : List Bool

/-- The ids of the table `mappings`, in order, without the terminator. -/
def mappings : List (String × Int) :=
  [("Symbolic", 0), ("Positional", 1), ("Symbolic (user)", 2), ("Positional (user)", 3)]

/-- Modelled from the spec: `resources_get_int(name, &value)` gets the value of the named
resource, `none` when there is no such resource and `value` stays unset. -/
def resources_get_int (st : kbdmapping_state) (name : String) : Option Int :=
  st.resources name

/-- Modelled from the spec: `resources_set_int(name, value)` sets the value of the named
resource; the call is recorded, and a name that is no resource is left alone. -/
def resources_set_int (st : kbdmapping_state) (name : String) (value : Int) :
    kbdmapping_state :=
  { st with
    resources := fun n =>
      if n = name ∧ (st.resources name).isSome then some value else st.resources n
    resource_sets := st.resource_sets ++ [(name, value)] }

/-- The call `vice_gtk3_resource_radiogroup_item_set_sensitive(radio_group, index, sensitive)`:
the item at `index` becomes sensitive when `sensitive` is non-zero and insensitive when it is
zero. -/
def vice_gtk3_resource_radiogroup_item_set_sensitive (st : kbdmapping_state) (index : Nat)
    (sensitive : Int) : kbdmapping_state :=
  { st with radio_group := st.radio_group.set index (decide (sensitive ≠ 0)) }

/-- The function `kbdmapping_widget_update`; `keyboard_is_keymap_valid` and the constants
`KBD_INDEX_SYM` and `KBD_INDEX_POS` of `keyboard.h` are parameters. `none` when one of the
three resources read does not exist, which leaves a local unset. -/
def kbdmapping_widget_update (keyboard_is_keymap_valid : Int → Int → Int → Int)
    (KBD_INDEX_SYM KBD_INDEX_POS : Int) (st : kbdmapping_state) : Option kbdmapping_state :=
  match resources_get_int st "KeyboardMapping", resources_get_int st "KeyboardType",
      resources_get_int st "KeymapIndex" with
  | some hosttype, some kbdtype, some kbdindex =>
    let sym : Int := if keyboard_is_keymap_valid KBD_INDEX_SYM hosttype kbdtype = 0 then 1 else 0
    let pos : Int := if keyboard_is_keymap_valid KBD_INDEX_POS hosttype kbdtype = 0 then 1 else 0
    let st1 := vice_gtk3_resource_radiogroup_item_set_sensitive st 0 sym
    let st2 := vice_gtk3_resource_radiogroup_item_set_sensitive st1 1 pos
    some (resources_set_int st2 "KeymapIndex" kbdindex)
  | _, _, _ => none

/-- A widget state for the examples: host mapping 2, keyboard type 0, the symbolic keymap
selected and all four items sensitive. -/
def kbdmapping_example : kbdmapping_state :=
  { resources := fun n =>
      if n = "KeyboardMapping" then some 2 else if n = "KeyboardType" then some 0
      else if n = "KeymapIndex" then some 0 else none
    resource_sets := []
    radio_group := [true, true, true, true] }

/-- A validity check for the examples: only the positional keymap (index 1) is valid. -/
def keymap_valid_example (index _hosttype _kbdtype : Int) : Int :=
  if index = 1 then 0 else -1

end KbdMappingWidget

namespace UiC64Model

/-! ## The C64 model dialog (`arch/win32/uic64model.c`) -/

/-- The message `WM_CLOSE` of the Windows headers. -/
def WM_CLOSE : Nat := 0x0010

/-- The message `WM_INITDIALOG` of the Windows headers. -/
def WM_INITDIALOG : Nat := 0x0110

/-- The message `WM_COMMAND` of the Windows headers. -/
def WM_COMMAND : Nat := 0x0111

/-- The command id `IDOK` of the Windows headers. -/
def IDOK : Nat := 1

/-- The command id `IDCANCEL` of the Windows headers. -/
def IDCANCEL : Nat := 2

/-- The result `CB_ERR` of a combo box message. -/
def CB_ERR : Int := -1

/-- The value `TRUE` of the Windows headers. -/
def TRUE : Int := 1

/-- The value `FALSE` of the Windows headers. -/
def FALSE : Int := 0

/-- The low-order word of a message parameter, `LOWORD(wparam)`. -/
def LOWORD (wparam : Nat) : Nat := wparam &&& 0xffff

/-- What `dialog_proc` works on: the emulator state `machine` that `c64model_get` reads and
`c64model_set` changes, the arguments of the calls of `c64model_set` so far, the combo box
`IDC_C64MODEL_LIST` (enabled or not, its strings, its current selection or `CB_ERR`) and the
results handed to `EndDialog` so far. -/
structure c64model_dialog (M : Type) where
  machine : M
  c64model_set_calls : List Int
  list_enabled : Bool
  list_strings : List String
  cursel : Int
  end_dialog_calls : List Int

/-- The message `CB_ADDSTRING` sent to the list: the string is added at the end. -/
def cb_addstring {M : Type} (d : c64model_dialog M) (s : String) : c64model_dialog M :=
  { d with list_strings := d.list_strings ++ [s] }

/-- The message `CB_SETCURSEL` sent to the list: the item at the index becomes the selection;
an index that is no item of the list clears the selection. -/
def cb_setcursel {M : Type} (d : c64model_dialog M) (index : Int) : c64model_dialog M :=
  { d with cursel := if 0 ≤ index ∧ index < d.list_strings.length then index else CB_ERR }

/-- The call `EndDialog(hwnd, result)`. -/
def EndDialog {M : Type} (d : c64model_dialog M) (result : Int) : c64model_dialog M :=
  { d with end_dialog_calls := d.end_dialog_calls ++ [result] }

/-- The function `init_c64model_dialog`, the calls that lay out the window left aside: the
list is enabled, the fourteen model names are added and the item `c64model_get()` is
selected. -/
def init_c64model_dialog {M : Type} (c64model_get : M → Int) (d : c64model_dialog M) :
    c64model_dialog M :=
  let d := { d with list_enabled := true }
  let d := cb_addstring d "C64 PAL"
  let d := cb_addstring d "C64C PAL"
  let d := cb_addstring d "C64 old PAL"
  let d := cb_addstring d "C64 NTSC"
  let d := cb_addstring d "C64C NTSC"
  let d := cb_addstring d "C64 old NTSC"
  let d := cb_addstring d "Drean"
  let d := cb_addstring d "C64 SX PAL"
  let d := cb_addstring d "C64 SX NTSC"
  let d := cb_addstring d "Japanese"
  let d := cb_addstring d "C64 GS"
  let d := cb_addstring d "PET64 PAL"
  let d := cb_addstring d "PET64 NTSC"
  let d := cb_addstring d "MAX Machine"
  let res_value := c64model_get d.machine
  cb_setcursel d res_value

/-- The function `end_c64model_dialog`: `c64model_set` is called with the answer of the list
to `CB_GETCURSEL`. -/
def end_c64model_dialog {M : Type} (c64model_set : Int → M → M) (d : c64model_dialog M) :
    c64model_dialog M :=
  { d with machine := c64model_set d.cursel d.machine
           c64model_set_calls := d.c64model_set_calls ++ [d.cursel] }

/-- The function `dialog_proc`: its return value and the state it leaves. The case `IDOK`
has no `break` and runs on into the case `IDCANCEL`. -/
def dialog_proc {M : Type} (c64model_get : M → Int) (c64model_set : Int → M → M)
    (d : c64model_dialog M) (msg wparam : Nat) : Int × c64model_dialog M :=
  if msg = WM_COMMAND then
    let command := LOWORD wparam
    if command = IDOK then
      let d1 := end_c64model_dialog c64model_set d
      (TRUE, EndDialog d1 0)
    else if command = IDCANCEL then
      (TRUE, EndDialog d 0)
    else
      (FALSE, d)
  else if msg = WM_CLOSE then
    (TRUE, EndDialog d 0)
  else if msg = WM_INITDIALOG then
    (TRUE, init_c64model_dialog c64model_get d)
  else
    (FALSE, d)

/-- A dialog as it is created, for the examples: the machine state is the model number, here
3, the list is empty and disabled and nothing is selected. -/
def c64model_dialog_example : c64model_dialog Int :=
  { machine := 3, c64model_set_calls := [], list_enabled := false, list_strings := [],
    cursel := CB_ERR, end_dialog_calls := [] }

/-- A `c64model_get` for the examples: the machine state is the model number. -/
def c64model_get_example (machine : Int) : Int := machine

/-- A `c64model_set` for the examples: the model number replaces the machine state. -/
def c64model_set_example (model _machine : Int) : Int := model

end UiC64Model

namespace Vic20Stubs

/-! ## The VIC-20 stubs (`vic20/vic20-stubs.c`) -/

/-- The function `cartridge_enable`. -/
def cartridge_enable (_crtid : Int) : Int := -1

/-- The function `cartridge_disable`. -/
def cartridge_disable (_crtid : Int) : Int := -1

/-- The function `cartridge_get_info_list`; the type `cartridge_info_t` of `cartridge.h` is a
parameter and the NULL pointer is `none`. -/
def cartridge_get_info_list (cartridge_info_t : Type) : Option (List cartridge_info_t) := none

/-- The function `cartridge_get_id`; the constant `CARTRIDGE_NONE` of `cartridge.h` is a
parameter. -/
def cartridge_get_id (CARTRIDGE_NONE : Int) (_slot : Int) : Int := CARTRIDGE_NONE

/-- The function `cartridge_get_filename`; the NULL pointer is `none`. -/
def cartridge_get_filename (_slot : Int) : Option String := none

/-- The function `pia1_get_diagnostic_pin`, declared in `pet/petpia.h`. -/
def pia1_get_diagnostic_pin : Bool := false

end Vic20Stubs

namespace Cia

/-! ## Theorems -/

/-! ### Register arrays and single bits -/

theorem reg_set_eq (c : List Nat) (i v : Nat) (h : i < c.length) : reg (c.set i v) i = v := by
  simp [reg, List.getElem?_set, h]

theorem reg_set_ne (c : List Nat) (i j v : Nat) (h : i ≠ j) : reg (c.set i v) j = reg c j := by
  simp [reg, List.getElem?_set_ne h]

theorem and_two_pow_cases (x k : Nat) : x &&& 2 ^ k = 0 ∨ x &&& 2 ^ k = 2 ^ k := by
  cases h : x.testBit k
  · left
    apply Nat.eq_of_testBit_eq
    intro i
    rw [Nat.testBit_and, Nat.testBit_two_pow, Nat.zero_testBit]
    by_cases hk : k = i
    · subst hk; simp [h]
    · simp [hk]
  · right
    apply Nat.eq_of_testBit_eq
    intro i
    rw [Nat.testBit_and, Nat.testBit_two_pow]
    by_cases hk : k = i
    · subst hk; simp [h]
    · simp [hk]

theorem and_two_pow_ne_zero_iff (x k : Nat) : x &&& 2 ^ k ≠ 0 ↔ x.testBit k = true := by
  constructor
  · intro h
    obtain ⟨i, hi⟩ := Nat.ne_zero_implies_bit_true h
    rw [Nat.testBit_and, Nat.testBit_two_pow] at hi
    by_cases hk : k = i
    · subst hk; simpa using hi
    · simp [hk] at hi
  · intro h h0
    have : (x &&& 2 ^ k).testBit k = true := by
      rw [Nat.testBit_and, Nat.testBit_two_pow]; simp [h]
    rw [h0] at this
    simp at this

theorem ne_zero_of_testBit (x i : Nat) (h : x.testBit i = true) : x ≠ 0 := by
  intro h0; rw [h0] at h; simp at h

/-! ### Interrupt control register (C1, C2) and peek (C3) -/

/-- An enabled source is pending exactly when one of the five source bits is set
in both the flags and the mask. -/
theorem cia_irq_pending_iff (ctx : cia_context) :
    cia_irq_pending ctx = true ↔
      ∃ src ∈ cia_im_sources, ctx.irqflags &&& src ≠ 0 ∧ ctx.irq_enabled &&& src ≠ 0 := by
  unfold cia_irq_pending
  rw [decide_eq_true_iff]
  constructor
  · intro h
    obtain ⟨i, hi⟩ := Nat.ne_zero_implies_bit_true h
    simp only [Nat.testBit_and, Bool.and_eq_true] at hi
    obtain ⟨⟨hf, hm⟩, h31⟩ := hi
    have hi5 : i < 5 := by
      by_contra hge
      have : (0x1f : Nat) < 2 ^ i :=
        lt_of_lt_of_le (by norm_num : (0x1f : Nat) < 2 ^ 5)
          (Nat.pow_le_pow_right (by norm_num) (by omega))
      rw [Nat.testBit_lt_two_pow this] at h31
      exact Bool.false_ne_true h31
    refine ⟨2 ^ i, ?_, (and_two_pow_ne_zero_iff _ _).2 hf, (and_two_pow_ne_zero_iff _ _).2 hm⟩
    interval_cases i <;> decide
  · rintro ⟨src, hsrc, hf, hm⟩
    have key : ∀ i, i < 5 → ctx.irqflags &&& 2 ^ i ≠ 0 → ctx.irq_enabled &&& 2 ^ i ≠ 0 →
        ctx.irqflags &&& ctx.irq_enabled &&& 0x1f ≠ 0 := by
      intro i hi5 h1 h2
      apply ne_zero_of_testBit _ i
      simp only [Nat.testBit_and, Bool.and_eq_true]
      refine ⟨⟨(and_two_pow_ne_zero_iff _ _).1 h1, (and_two_pow_ne_zero_iff _ _).1 h2⟩, ?_⟩
      interval_cases i <;> decide
    simp only [cia_im_sources, CIA_IM_TA, CIA_IM_TB, CIA_IM_TOD, CIA_IM_SDR, CIA_IM_FLG,
      List.mem_cons, List.mem_singleton, List.not_mem_nil, or_false] at hsrc
    rcases hsrc with rfl | rfl | rfl | rfl | rfl
    · exact key 0 (by norm_num) hf hm
    · exact key 1 (by norm_num) hf hm
    · exact key 2 (by norm_num) hf hm
    · exact key 3 (by norm_num) hf hm
    · exact key 4 (by norm_num) hf hm

theorem cia_icr_value_testBit7 (ctx : cia_context) :
    (cia_icr_value ctx).testBit 7 = cia_irq_pending ctx := by
  unfold cia_icr_value
  rw [Nat.testBit_or, Nat.testBit_and]
  have h1 : Nat.testBit 0x7f 7 = false := by decide
  have h2 : Nat.testBit 0x80 7 = true := by decide
  have h3 : Nat.testBit 0 7 = false := by decide
  cases cia_irq_pending ctx <;> simp [h1, h2, h3]

theorem cia_icr_value_low (ctx : cia_context) :
    cia_icr_value ctx % 128 = ctx.irqflags % 128 := by
  unfold cia_icr_value
  apply Nat.eq_of_testBit_eq
  intro i
  have e : (128 : Nat) = 2 ^ 7 := by norm_num
  rw [e, Nat.testBit_mod_two_pow, Nat.testBit_mod_two_pow, Nat.testBit_or, Nat.testBit_and]
  by_cases hi : i < 7
  · have h7f : (0x7f : Nat).testBit i = true := by interval_cases i <;> decide
    have h80 : (0x80 : Nat).testBit i = false := by interval_cases i <;> decide
    cases cia_irq_pending ctx <;> simp [hi, h7f, h80]
  · simp [hi]

theorem cia_icr_value_lt (ctx : cia_context) : cia_icr_value ctx < 256 := by
  unfold cia_icr_value
  apply Nat.or_lt_two_pow (n := 8)
  · exact Nat.and_lt_two_pow _ (n := 8) (by norm_num)
  · split <;> norm_num

/-- C1: a read of the ICR returns a byte whose low seven bits are the latched
flags and whose bit 7 is set exactly when an enabled source is pending; it
clears the latched flags and the interrupt line, so an immediate second read
returns 0x00. -/
theorem ciacore_read_icr_clears (ctx : cia_context) :
    (ciacore_read ctx CIA_ICR).1 < 256 ∧
    (ciacore_read ctx CIA_ICR).1 % 128 = ctx.irqflags % 128 ∧
    ((ciacore_read ctx CIA_ICR).1.testBit 7 = true ↔
      ∃ src ∈ cia_im_sources, ctx.irqflags &&& src ≠ 0 ∧ ctx.irq_enabled &&& src ≠ 0) ∧
    (ciacore_read ctx CIA_ICR).2.irqflags = 0 ∧
    (ciacore_read ctx CIA_ICR).2.int_line = false ∧
    (ciacore_read (ciacore_read ctx CIA_ICR).2 CIA_ICR).1 = 0x00 := by
  have hm : (13 : Nat) &&& 15 = 13 := by decide
  have hr : ∀ c : cia_context, ciacore_read c CIA_ICR =
      (cia_icr_value c, { c with irqflags := 0, int_line := false }) := by
    intro c
    simp [ciacore_read, cia_reg_value, hm, CIA_ICR, CIA_TOD_HR, CIA_TOD_TEN, CIA_PRA, CIA_PRB,
      CIA_TAL, CIA_TAH, CIA_TBL, CIA_TBH]
  have hv : (ciacore_read ctx CIA_ICR).1 = cia_icr_value ctx := by rw [hr]
  have hs : (ciacore_read ctx CIA_ICR).2 = { ctx with irqflags := 0, int_line := false } := by
    rw [hr]
  refine ⟨?_, ?_, ?_, ?_, ?_, ?_⟩
  · rw [hv]; exact cia_icr_value_lt ctx
  · rw [hv]; exact cia_icr_value_low ctx
  · rw [hv, cia_icr_value_testBit7]; exact cia_irq_pending_iff ctx
  · rw [hs]
  · rw [hs]
  · rw [hs, hr]
    simp [cia_icr_value, cia_irq_pending]

/-- C3: a peek hands back the context unchanged (no alarm, no ICR flag, no TOD
latch is touched), so a sequence of operations returns the same bytes and ends
in the same context with its peeks removed. -/
theorem ciacore_peek_frame (ctx : cia_context) (addr : Nat) (ops : List cia_op) :
    (ciacore_peek ctx addr).2 = ctx ∧
    cia_run (ops.filter (fun o => !o.peeks)) ctx = cia_run ops ctx := by
  refine ⟨rfl, ?_⟩
  induction ops generalizing ctx with
  | nil => rfl
  | cons op ops ih =>
    cases op
    case peek a =>
      rw [List.filter_cons_of_neg (by simp [cia_op.peeks])]
      simp only [cia_run, cia_step, ciacore_peek]
      exact ih ctx
    all_goals
      rw [List.filter_cons_of_pos (by rfl)]
      simp only [cia_run, cia_step]
      rw [ih]

theorem mod_256_and (v m : Nat) (hm : 255 &&& m = m) : v % 256 &&& m = v &&& m := by
  have h : v % 256 = v &&& 255 := (Nat.and_pow_two_sub_one_eq_mod v 8).symm
  rw [h, Nat.and_assoc, hm]

theorem ciacore_store_icr (ctx : cia_context) (v : Nat) :
    (ciacore_store ctx CIA_ICR v).irq_enabled =
      if v &&& CIA_IM_SET ≠ 0 then ctx.irq_enabled ||| (v &&& 0x1f)
      else ctx.irq_enabled &&& (0xff ^^^ (v &&& 0x1f)) := by
  have hm : (13 : Nat) &&& 15 = 13 := by decide
  have h80 : v % 256 &&& 0x80 = v &&& 0x80 := mod_256_and v 0x80 (by decide)
  have h1f : v % 256 &&& 0x1f = v &&& 0x1f := mod_256_and v 0x1f (by decide)
  simp only [ciacore_store, CIA_ICR, hm, CIA_PRA, CIA_DDRA, CIA_PRB, CIA_DDRB, CIA_TAL, CIA_TAH,
    CIA_TBL, CIA_TBH, CIA_TOD_TEN, CIA_TOD_HR, CIA_SDR, CIA_IM_SET]
  norm_num [h80, h1f]

/-- C2: a store to the ICR with bit 7 set ORs the selected source bits into the
mask, with bit 7 clear it removes them (mask AND NOT selection); bits that the
byte does not select keep their value, and the mask stays a byte. -/
theorem ciacore_store_icr_mask (ctx : cia_context) (v : Nat) (hm : ctx.irq_enabled < 256) :
    (v &&& CIA_IM_SET ≠ 0 →
      (ciacore_store ctx CIA_ICR v).irq_enabled = ctx.irq_enabled ||| (v &&& 0x1f)) ∧
    (v &&& CIA_IM_SET = 0 → ∀ i,
      (ciacore_store ctx CIA_ICR v).irq_enabled.testBit i =
        (ctx.irq_enabled.testBit i && !(v &&& 0x1f).testBit i)) ∧
    (∀ i, (v &&& 0x1f).testBit i = false →
      (ciacore_store ctx CIA_ICR v).irq_enabled.testBit i = ctx.irq_enabled.testBit i) ∧
    (ciacore_store ctx CIA_ICR v).irq_enabled < 256 := by
  have hx : v &&& 0x1f < 2 ^ 8 :=
    lt_of_lt_of_le (Nat.and_lt_two_pow v (n := 5) (by norm_num)) (by norm_num)
  have hbit : ∀ i, (ctx.irq_enabled &&& (0xff ^^^ (v &&& 0x1f))).testBit i =
      (ctx.irq_enabled.testBit i && !(v &&& 0x1f).testBit i) := by
    intro i
    rw [Nat.testBit_and, Nat.testBit_xor]
    by_cases hi : i < 8
    · have : (0xff : Nat).testBit i = true := by interval_cases i <;> decide
      rw [this]; cases (v &&& 0x1f).testBit i <;> simp
    · have h1 : ctx.irq_enabled.testBit i = false :=
        Nat.testBit_lt_two_pow (lt_of_lt_of_le hm
          (Nat.pow_le_pow_right (by norm_num : 0 < 2) (by omega : 8 ≤ i)))
      rw [h1]; simp
  rw [ciacore_store_icr]
  refine ⟨?_, ?_, ?_, ?_⟩
  · intro h; rw [if_pos h]
  · intro h i; rw [if_neg (not_not.2 h)]; exact hbit i
  · intro i hi
    split
    · rw [Nat.testBit_or, hi]; simp
    · rw [hbit, hi]; simp
  · split
    · exact Nat.or_lt_two_pow (n := 8) hm hx
    · exact lt_of_le_of_lt Nat.and_le_left hm

theorem ciacore_store_icr_mask_witness :
    cia_ctx0.irq_enabled < 256 ∧ (0x81 &&& CIA_IM_SET ≠ 0) ∧
    (ciacore_store cia_ctx0 CIA_ICR 0x81).irq_enabled = cia_ctx0.irq_enabled ||| (0x81 &&& 0x1f) :=
  ⟨by decide, by decide, (ciacore_store_icr_mask cia_ctx0 0x81 (by decide)).1 (by decide)⟩

/-! ### Run mode (C7) and address masking (C4) -/

/-- C7: for every control-register byte the RUNMODE field is exactly one of
one-shot and continuous, and the two values differ. -/
theorem cia_cr_runmode_exclusive (cr : Nat) :
    (cia_cr_runmode cr = CIA_CR_RUNMODE_ONE_SHOT ∨ cia_cr_runmode cr = CIA_CR_RUNMODE_CONTINUOUS) ∧
    ¬ (cia_cr_runmode cr = CIA_CR_RUNMODE_ONE_SHOT ∧ cia_cr_runmode cr = CIA_CR_RUNMODE_CONTINUOUS) ∧
    CIA_CR_RUNMODE_ONE_SHOT ≠ CIA_CR_RUNMODE_CONTINUOUS := by
  have h := and_two_pow_cases cr 3
  simp only [cia_cr_runmode, CIA_CR_RUNMODE, CIA_CR_RUNMODE_ONE_SHOT, CIA_CR_RUNMODE_CONTINUOUS]
  norm_num at h ⊢
  omega

/-- C4: store, read and peek are total and act on an address as on its low four
bits; the masked address is below 16 and is exactly one of the sixteen register
constants, which are pairwise distinct. -/
theorem ciacore_addr_masked (ctx : cia_context) (a data : Nat) :
    ciacore_store ctx a data = ciacore_store ctx (a &&& 0x0f) data ∧
    ciacore_read ctx a = ciacore_read ctx (a &&& 0x0f) ∧
    ciacore_peek ctx a = ciacore_peek ctx (a &&& 0x0f) ∧
    (a &&& 0x0f) < 16 ∧
    (a &&& 0x0f) ∈ cia_registers ∧
    cia_registers.count (a &&& 0x0f) = 1 ∧
    cia_registers.Nodup ∧ cia_registers.length = 16 := by
  have hm : a &&& 0x0f &&& 0x0f = a &&& 0x0f := by
    rw [Nat.and_assoc]; rfl
  have hlt : a &&& 0x0f < 16 := Nat.and_lt_two_pow a (n := 4) (by norm_num)
  refine ⟨?_, ?_, ?_, hlt, ?_, ?_, by decide, by decide⟩
  · simp only [ciacore_store, hm]
  · simp only [ciacore_read, hm]
  · simp only [ciacore_peek, hm]
  · generalize a &&& 0x0f = b at hlt
    interval_cases b <;> decide
  · generalize a &&& 0x0f = b at hlt
    interval_cases b <;> decide

/-! ### Timer ticks and latch writes (C5) -/

theorem cia_set_int_irqflags (c : cia_context) (s : Nat) :
    (cia_set_int c s).irqflags = c.irqflags ||| s := rfl

theorem cia_sdr_shift_out_ta (c : cia_context) : (cia_sdr_shift_out c).ta = c.ta := by
  simp only [cia_sdr_shift_out]
  split_ifs <;> rfl

theorem cia_sdr_shift_out_c_cia (c : cia_context) :
    (cia_sdr_shift_out c).c_cia = c.c_cia := by
  simp only [cia_sdr_shift_out]
  split_ifs <;> rfl

theorem cia_tb_underflow_ta (c : cia_context) : (cia_tb_underflow c).ta = c.ta := by
  simp only [cia_tb_underflow]
  split_ifs <;> rfl

theorem cia_tb_underflow_tb (c : cia_context) : (cia_tb_underflow c).tb = c.tb := by
  simp only [cia_tb_underflow]
  split_ifs <;> rfl

theorem cia_tb_tick_ta (c : cia_context) : (cia_tb_tick c).ta = c.ta := by
  simp only [cia_tb_tick]
  split_ifs
  · rw [cia_tb_underflow_ta]
  · rfl
  · rfl

theorem cia_ta_underflow_ta (c : cia_context) : (cia_ta_underflow c).ta = c.ta := by
  simp only [cia_ta_underflow]
  split_ifs <;> (try simp only [cia_sdr_shift_out_ta, cia_tb_tick_ta]) <;> rfl

/-- A running timer A above 1 just counts down. -/
theorem cia_ta_tick_dec (c : cia_context) (h : cia_cr_started (reg c.c_cia CIA_CRA) = true)
    (hc : 1 < c.ta.cnt) :
    cia_ta_tick c = cia_with_ta c { cnt := c.ta.cnt - 1, latch := c.ta.latch } := by
  unfold cia_ta_tick ciat_tick
  rw [if_pos h]
  have : ¬ c.ta.cnt ≤ 1 := by omega
  simp [this, cia_with_ta]

/-- A running timer A at 1 or 0 underflows and reloads from the latch. -/
theorem cia_ta_tick_underflow (c : cia_context) (h : cia_cr_started (reg c.c_cia CIA_CRA) = true)
    (hc : c.ta.cnt ≤ 1) :
    cia_ta_tick c = cia_ta_underflow (cia_with_ta c { cnt := c.ta.latch, latch := c.ta.latch }) := by
  unfold cia_ta_tick ciat_tick
  rw [if_pos h]
  simp [hc, cia_with_ta]

theorem cia_ta_tick_stopped (c : cia_context) (h : cia_cr_started (reg c.c_cia CIA_CRA) = false) :
    cia_ta_tick c = c := by
  unfold cia_ta_tick
  simp [h]

theorem cia_iter_ta_tick_dec (k : Nat) (c : cia_context)
    (h : cia_cr_started (reg c.c_cia CIA_CRA) = true) (hk : k < max c.ta.cnt 1) :
    cia_iter cia_ta_tick k c = cia_with_ta c { cnt := c.ta.cnt - k, latch := c.ta.latch } := by
  induction k generalizing c with
  | zero => rfl
  | succ k ih =>
    have h1 : cia_cr_started
        (reg (cia_with_ta c { cnt := c.ta.cnt - 1, latch := c.ta.latch }).c_cia CIA_CRA) = true := h
    have h2 : k < max (cia_with_ta c { cnt := c.ta.cnt - 1, latch := c.ta.latch }).ta.cnt 1 := by
      show k < max (c.ta.cnt - 1) 1
      omega
    rw [cia_iter, cia_ta_tick_dec c h (by omega), ih _ h1 h2]
    show cia_with_ta c { cnt := c.ta.cnt - 1 - k, latch := c.ta.latch } = _
    rw [Nat.sub_sub, Nat.add_comm 1 k]

theorem cia_iter_succ_right (f : cia_context → cia_context) (k : Nat) (c : cia_context) :
    cia_iter f (k + 1) c = f (cia_iter f k c) := by
  induction k generalizing c with
  | zero => rfl
  | succ k ih => rw [cia_iter, ih]; rfl

theorem cia_iter_add (f : cia_context → cia_context) (m k : Nat) (c : cia_context) :
    cia_iter f (m + k) c = cia_iter f k (cia_iter f m c) := by
  induction m generalizing c with
  | zero => simp [cia_iter]
  | succ m ih => rw [Nat.add_right_comm, cia_iter, ih]; rfl

/-- The tick on which a running timer A underflows: tick `max cnt 1`. -/
theorem cia_iter_ta_tick_underflow (c : cia_context)
    (h : cia_cr_started (reg c.c_cia CIA_CRA) = true) :
    cia_iter cia_ta_tick (max c.ta.cnt 1) c =
      cia_ta_underflow (cia_with_ta c { cnt := c.ta.latch, latch := c.ta.latch }) := by
  have e : max c.ta.cnt 1 = (max c.ta.cnt 1 - 1) + 1 := by omega
  rw [e, cia_iter_succ_right]
  have h1 : cia_cr_started
      (reg (cia_with_ta c { cnt := c.ta.cnt - (max c.ta.cnt 1 - 1), latch := c.ta.latch }).c_cia
        CIA_CRA) = true := h
  rw [cia_iter_ta_tick_dec _ c h (by omega), cia_ta_tick_underflow _ h1 (by
    show c.ta.cnt - (max c.ta.cnt 1 - 1) ≤ 1
    omega)]
  rfl

theorem cia_tb_tick_dec (c : cia_context) (h : cia_cr_started (reg c.c_cia CIA_CRB) = true)
    (hc : 1 < c.tb.cnt) :
    cia_tb_tick c = cia_with_tb c { cnt := c.tb.cnt - 1, latch := c.tb.latch } := by
  unfold cia_tb_tick ciat_tick
  rw [if_pos h]
  have : ¬ c.tb.cnt ≤ 1 := by omega
  simp [this, cia_with_tb]

theorem cia_tb_tick_underflow (c : cia_context) (h : cia_cr_started (reg c.c_cia CIA_CRB) = true)
    (hc : c.tb.cnt ≤ 1) :
    cia_tb_tick c = cia_tb_underflow (cia_with_tb c { cnt := c.tb.latch, latch := c.tb.latch }) := by
  unfold cia_tb_tick ciat_tick
  rw [if_pos h]
  simp [hc, cia_with_tb]

theorem cia_iter_tb_tick_dec (k : Nat) (c : cia_context)
    (h : cia_cr_started (reg c.c_cia CIA_CRB) = true) (hk : k < max c.tb.cnt 1) :
    cia_iter cia_tb_tick k c = cia_with_tb c { cnt := c.tb.cnt - k, latch := c.tb.latch } := by
  induction k generalizing c with
  | zero => rfl
  | succ k ih =>
    have h1 : cia_cr_started
        (reg (cia_with_tb c { cnt := c.tb.cnt - 1, latch := c.tb.latch }).c_cia CIA_CRB) = true := h
    have h2 : k < max (cia_with_tb c { cnt := c.tb.cnt - 1, latch := c.tb.latch }).tb.cnt 1 := by
      show k < max (c.tb.cnt - 1) 1
      omega
    rw [cia_iter, cia_tb_tick_dec c h (by omega), ih _ h1 h2]
    show cia_with_tb c { cnt := c.tb.cnt - 1 - k, latch := c.tb.latch } = _
    rw [Nat.sub_sub, Nat.add_comm 1 k]

theorem cia_iter_tb_tick_underflow (c : cia_context)
    (h : cia_cr_started (reg c.c_cia CIA_CRB) = true) :
    cia_iter cia_tb_tick (max c.tb.cnt 1) c =
      cia_tb_underflow (cia_with_tb c { cnt := c.tb.latch, latch := c.tb.latch }) := by
  have e : max c.tb.cnt 1 = (max c.tb.cnt 1 - 1) + 1 := by omega
  rw [e, cia_iter_succ_right]
  have h1 : cia_cr_started
      (reg (cia_with_tb c { cnt := c.tb.cnt - (max c.tb.cnt 1 - 1), latch := c.tb.latch }).c_cia
        CIA_CRB) = true := h
  rw [cia_iter_tb_tick_dec _ c h (by omega), cia_tb_tick_underflow _ h1 (by
    show c.tb.cnt - (max c.tb.cnt 1 - 1) ≤ 1
    omega)]
  rfl

theorem shl8_or (h b : Nat) (hb : b < 256) : h <<< 8 ||| b = 256 * h + b := by
  rw [Nat.shiftLeft_eq, Nat.mul_comm h]
  exact (Nat.mul_add_lt_is_or (i := 8) hb h).symm

theorem or_shl8 (h b : Nat) (hb : b < 256) : b ||| h <<< 8 = 256 * h + b := by
  rw [Nat.lor_comm, shl8_or h b hb]

theorem ciat_store_latch_latch (t : ciat) (s high : Bool) (byte : Nat) (hb : byte < 256) :
    (ciat_store_latch t s high byte).latch =
      if high then 256 * byte + t.latch % 256 else 256 * (t.latch / 256 % 256) + byte := by
  unfold ciat_store_latch
  cases high
  · simp [shl8_or _ _ hb]
  · simp [or_shl8 _ _ (Nat.mod_lt t.latch (by norm_num : 0 < 256))]

theorem ciacore_read_timer (c : cia_context) :
    (ciacore_read c CIA_TAL).1 = c.ta.cnt % 256 ∧
    (ciacore_read c CIA_TAH).1 = c.ta.cnt / 256 % 256 ∧
    (ciacore_read c CIA_TBL).1 = c.tb.cnt % 256 ∧
    (ciacore_read c CIA_TBH).1 = c.tb.cnt / 256 % 256 := by
  have h4 : (4 : Nat) &&& 15 = 4 := by decide
  have h5 : (5 : Nat) &&& 15 = 5 := by decide
  have h6 : (6 : Nat) &&& 15 = 6 := by decide
  have h7 : (7 : Nat) &&& 15 = 7 := by decide
  refine ⟨?_, ?_, ?_, ?_⟩ <;>
    simp [ciacore_read, cia_reg_value, h4, h5, h6, h7, CIA_ICR, CIA_TOD_HR, CIA_TOD_TEN, CIA_PRA,
      CIA_PRB, CIA_TAL, CIA_TAH, CIA_TBL, CIA_TBH]

theorem ciacore_store_ta_latch (c : cia_context) (a v : Nat) (ha : a = CIA_TAL ∨ a = CIA_TAH) :
    ciacore_store c a v =
      { c with c_cia := c.c_cia.set a (v % 256),
               ta := ciat_store_latch c.ta (cia_cr_started (reg c.c_cia CIA_CRA))
                       (decide (a = CIA_TAH)) (v % 256) } := by
  have h4 : (4 : Nat) &&& 15 = 4 := by decide
  have h5 : (5 : Nat) &&& 15 = 5 := by decide
  rcases ha with rfl | rfl <;>
    simp [ciacore_store, h4, h5, CIA_PRA, CIA_DDRA, CIA_PRB, CIA_DDRB, CIA_TAL, CIA_TAH]

theorem ciacore_store_tb_latch (c : cia_context) (a v : Nat) (ha : a = CIA_TBL ∨ a = CIA_TBH) :
    ciacore_store c a v =
      { c with c_cia := c.c_cia.set a (v % 256),
               tb := ciat_store_latch c.tb (cia_cr_started (reg c.c_cia CIA_CRB))
                       (decide (a = CIA_TBH)) (v % 256) } := by
  have h6 : (6 : Nat) &&& 15 = 6 := by decide
  have h7 : (7 : Nat) &&& 15 = 7 := by decide
  rcases ha with rfl | rfl <;>
    simp [ciacore_store, h6, h7, CIA_PRA, CIA_DDRA, CIA_PRB, CIA_DDRB, CIA_TAL, CIA_TAH,
      CIA_TBL, CIA_TBH]

theorem ciacore_store_cra (c : cia_context) (v : Nat) :
    ciacore_store c CIA_CRA v =
      { c with c_cia := c.c_cia.set CIA_CRA (v % 256 &&& 0xef),
               ta := ciat_store_cr c.ta (v % 256),
               ta_alarm := cia_cr_started (v % 256) } := by
  have h : (14 : Nat) &&& 15 = 14 := by decide
  simp [ciacore_store, h, CIA_PRA, CIA_DDRA, CIA_PRB, CIA_DDRB, CIA_TAL, CIA_TAH,
      CIA_TBL, CIA_TBH, CIA_TOD_TEN, CIA_TOD_HR, CIA_SDR, CIA_ICR, CIA_CRA]

theorem ciacore_store_crb (c : cia_context) (v : Nat) :
    ciacore_store c CIA_CRB v =
      { c with c_cia := c.c_cia.set CIA_CRB (v % 256 &&& 0xef),
               tb := ciat_store_cr c.tb (v % 256),
               tb_alarm := cia_cr_started (v % 256) } := by
  have h : (15 : Nat) &&& 15 = 15 := by decide
  simp [ciacore_store, h, CIA_PRA, CIA_DDRA, CIA_PRB, CIA_DDRB, CIA_TAL, CIA_TAH,
      CIA_TBL, CIA_TBH, CIA_TOD_TEN, CIA_TOD_HR, CIA_SDR, CIA_ICR, CIA_CRA, CIA_CRB]

theorem ciat_store_cr_force (t : ciat) (cr : Nat) (h : cr &&& CIA_CR_FORCE_LOAD ≠ 0) :
    (ciat_store_cr t (cr % 256)).cnt = t.latch := by
  have e : cr % 256 &&& CIA_CR_FORCE_LOAD = cr &&& CIA_CR_FORCE_LOAD :=
    mod_256_and cr CIA_CR_FORCE_LOAD (by decide)
  unfold ciat_store_cr
  rw [e, if_pos h]

/-- C5: a store to a latch register of a running timer leaves the in-flight
count alone: for every tick before the next underflow the timer registers read
the same as without the store; the underflow reload (tick `max cnt 1`) is the
first use of the new latch value, which carries the written byte; a
control-register write with FORCE_LOAD loads it at once. -/
theorem ciacore_store_latch_running (ctx : cia_context) (v k cr : Nat) :
    (∀ a, cia_cr_started (reg ctx.c_cia CIA_CRA) = true → a = CIA_TAL ∨ a = CIA_TAH →
      (k < max ctx.ta.cnt 1 →
        (ciacore_read (cia_iter cia_ta_tick k (ciacore_store ctx a v)) CIA_TAL).1 =
          (ciacore_read (cia_iter cia_ta_tick k ctx) CIA_TAL).1 ∧
        (ciacore_read (cia_iter cia_ta_tick k (ciacore_store ctx a v)) CIA_TAH).1 =
          (ciacore_read (cia_iter cia_ta_tick k ctx) CIA_TAH).1) ∧
      (cia_iter cia_ta_tick (max ctx.ta.cnt 1) (ciacore_store ctx a v)).ta.cnt =
        (ciacore_store ctx a v).ta.latch ∧
      (ciacore_store ctx a v).ta.latch =
        (if a = CIA_TAH then 256 * (v % 256) + ctx.ta.latch % 256
         else 256 * (ctx.ta.latch / 256 % 256) + v % 256) ∧
      (cr &&& CIA_CR_FORCE_LOAD ≠ 0 →
        (ciacore_store (ciacore_store ctx a v) CIA_CRA cr).ta.cnt =
          (ciacore_store ctx a v).ta.latch)) ∧
    (∀ a, cia_cr_started (reg ctx.c_cia CIA_CRB) = true → a = CIA_TBL ∨ a = CIA_TBH →
      (k < max ctx.tb.cnt 1 →
        (ciacore_read (cia_iter cia_tb_tick k (ciacore_store ctx a v)) CIA_TBL).1 =
          (ciacore_read (cia_iter cia_tb_tick k ctx) CIA_TBL).1 ∧
        (ciacore_read (cia_iter cia_tb_tick k (ciacore_store ctx a v)) CIA_TBH).1 =
          (ciacore_read (cia_iter cia_tb_tick k ctx) CIA_TBH).1) ∧
      (cia_iter cia_tb_tick (max ctx.tb.cnt 1) (ciacore_store ctx a v)).tb.cnt =
        (ciacore_store ctx a v).tb.latch ∧
      (ciacore_store ctx a v).tb.latch =
        (if a = CIA_TBH then 256 * (v % 256) + ctx.tb.latch % 256
         else 256 * (ctx.tb.latch / 256 % 256) + v % 256) ∧
      (cr &&& CIA_CR_FORCE_LOAD ≠ 0 →
        (ciacore_store (ciacore_store ctx a v) CIA_CRB cr).tb.cnt =
          (ciacore_store ctx a v).tb.latch)) := by
  constructor
  · intro a hrun ha
    have hs := ciacore_store_ta_latch ctx a v ha
    have hne : a ≠ CIA_CRA := by rcases ha with rfl | rfl <;> decide
    have hrun' : cia_cr_started (reg (ciacore_store ctx a v).c_cia CIA_CRA) = true := by
      rw [hs]
      show cia_cr_started (reg (ctx.c_cia.set a (v % 256)) CIA_CRA) = true
      rw [reg_set_ne _ _ _ _ hne]; exact hrun
    have hcnt : (ciacore_store ctx a v).ta.cnt = ctx.ta.cnt := by
      rw [hs, hrun]; rfl
    refine ⟨?_, ?_, ?_, ?_⟩
    · intro hk
      have hk' : k < max (ciacore_store ctx a v).ta.cnt 1 := by rw [hcnt]; exact hk
      rw [(ciacore_read_timer _).1, (ciacore_read_timer _).1, (ciacore_read_timer _).2.1,
        (ciacore_read_timer _).2.1, cia_iter_ta_tick_dec k _ hrun' hk',
        cia_iter_ta_tick_dec k _ hrun hk]
      simp only [cia_with_ta, hcnt, and_self]
    · rw [← hcnt, cia_iter_ta_tick_underflow _ hrun', cia_ta_underflow_ta]
      rfl
    · rw [hs]
      show (ciat_store_latch ctx.ta _ _ (v % 256)).latch = _
      rw [ciat_store_latch_latch _ _ _ _ (Nat.mod_lt v (by norm_num))]
      simp
    · intro hf
      rw [ciacore_store_cra]
      exact ciat_store_cr_force _ cr hf
  · intro a hrun ha
    have hs := ciacore_store_tb_latch ctx a v ha
    have hne : a ≠ CIA_CRB := by rcases ha with rfl | rfl <;> decide
    have hrun' : cia_cr_started (reg (ciacore_store ctx a v).c_cia CIA_CRB) = true := by
      rw [hs]
      show cia_cr_started (reg (ctx.c_cia.set a (v % 256)) CIA_CRB) = true
      rw [reg_set_ne _ _ _ _ hne]; exact hrun
    have hcnt : (ciacore_store ctx a v).tb.cnt = ctx.tb.cnt := by
      rw [hs, hrun]; rfl
    refine ⟨?_, ?_, ?_, ?_⟩
    · intro hk
      have hk' : k < max (ciacore_store ctx a v).tb.cnt 1 := by rw [hcnt]; exact hk
      rw [(ciacore_read_timer _).2.2.1, (ciacore_read_timer _).2.2.1, (ciacore_read_timer _).2.2.2,
        (ciacore_read_timer _).2.2.2, cia_iter_tb_tick_dec k _ hrun' hk',
        cia_iter_tb_tick_dec k _ hrun hk]
      simp only [cia_with_tb, hcnt, and_self]
    · rw [← hcnt, cia_iter_tb_tick_underflow _ hrun', cia_tb_underflow_tb]
      rfl
    · rw [hs]
      show (ciat_store_latch ctx.tb _ _ (v % 256)).latch = _
      rw [ciat_store_latch_latch _ _ _ _ (Nat.mod_lt v (by norm_num))]
      simp
    · intro hf
      rw [ciacore_store_crb]
      exact ciat_store_cr_force _ cr hf

/-- Witness for C5: on a context whose Timer A was started, a store of 0x34 to
the low latch byte does not show in the count read back three ticks later. -/
theorem ciacore_store_latch_running_witness :
    cia_cr_started (reg (ciacore_store cia_ctx0 CIA_CRA 1).c_cia CIA_CRA) = true ∧
    3 < max (ciacore_store cia_ctx0 CIA_CRA 1).ta.cnt 1 ∧
    (ciacore_read (cia_iter cia_ta_tick 3
        (ciacore_store (ciacore_store cia_ctx0 CIA_CRA 1) CIA_TAL 0x34)) CIA_TAL).1 =
      (ciacore_read (cia_iter cia_ta_tick 3 (ciacore_store cia_ctx0 CIA_CRA 1)) CIA_TAL).1 :=
  ⟨by decide, by decide,
   (((ciacore_store_latch_running (ciacore_store cia_ctx0 CIA_CRA 1) 0x34 3 0).1 CIA_TAL
      (by decide) (Or.inl rfl)).1 (by decide)).1⟩

/-! ### One-shot timer (C6) -/

theorem cia_set_int_mono (c : cia_context) (s i : Nat) (h : c.irqflags.testBit i = true) :
    (cia_set_int c s).irqflags.testBit i = true := by
  rw [cia_set_int_irqflags, Nat.testBit_or, h]; rfl

theorem cia_tb_underflow_mono (c : cia_context) (i : Nat) (h : c.irqflags.testBit i = true) :
    (cia_tb_underflow c).irqflags.testBit i = true := by
  have := cia_set_int_mono c CIA_IM_TB i h
  simp only [cia_tb_underflow]
  split_ifs <;> exact this

theorem cia_tb_tick_mono (c : cia_context) (i : Nat) (h : c.irqflags.testBit i = true) :
    (cia_tb_tick c).irqflags.testBit i = true := by
  simp only [cia_tb_tick]
  split_ifs
  · exact cia_tb_underflow_mono _ i h
  · exact h
  · exact h

theorem cia_tb_underflow_reg_cra (c : cia_context) :
    reg (cia_tb_underflow c).c_cia CIA_CRA = reg c.c_cia CIA_CRA := by
  simp only [cia_tb_underflow]
  split_ifs <;> first | rfl | exact reg_set_ne _ _ _ _ (by decide)

theorem cia_tb_tick_reg_cra (c : cia_context) :
    reg (cia_tb_tick c).c_cia CIA_CRA = reg c.c_cia CIA_CRA := by
  simp only [cia_tb_tick]
  split_ifs
  · rw [cia_tb_underflow_reg_cra]
  · rfl
  · rfl

/-- A one-shot Timer A underflow with the port-B output off and the serial port
in input mode: the TA bit is latched and START is cleared. -/
theorem cia_ta_underflow_one_shot (c : cia_context) (hlen : CIA_CRA < c.c_cia.length)
    (hos : reg c.c_cia CIA_CRA &&& CIA_CR_RUNMODE = CIA_CR_RUNMODE_ONE_SHOT)
    (hsp : reg c.c_cia CIA_CRA &&& CIA_CRA_SPMODE ≠ CIA_CRA_SPMODE_OUT) :
    (cia_ta_underflow c).ta = c.ta ∧
    reg (cia_ta_underflow c).c_cia CIA_CRA = reg c.c_cia CIA_CRA &&& 0xfe ∧
    (cia_ta_underflow c).irqflags.testBit 0 = true := by
  refine ⟨cia_ta_underflow_ta c, ?_, ?_⟩
  · simp only [cia_ta_underflow, if_pos hos, if_neg hsp]
    split_ifs <;> (try rw [cia_tb_tick_reg_cra]) <;> exact reg_set_eq _ _ _ hlen
  · have h0 : (cia_set_int c CIA_IM_TA).irqflags.testBit 0 = true := by
      rw [cia_set_int_irqflags, Nat.testBit_or]
      simp [CIA_IM_TA]
    simp only [cia_ta_underflow, if_pos hos, if_neg hsp]
    split_ifs <;> (try apply cia_tb_tick_mono) <;> exact h0

theorem cia_ta_underflows_add (m k : Nat) (c : cia_context) :
    cia_ta_underflows (m + k) c =
      cia_ta_underflows m c + cia_ta_underflows k (cia_iter cia_ta_tick m c) := by
  induction m generalizing c with
  | zero => simp [cia_ta_underflows, cia_iter]
  | succ m ih =>
    rw [Nat.add_right_comm, cia_ta_underflows, ih, cia_ta_underflows, cia_iter, Nat.add_assoc]

theorem cia_ta_underflows_dec (k : Nat) (c : cia_context)
    (h : cia_cr_started (reg c.c_cia CIA_CRA) = true) (hk : k < max c.ta.cnt 1) :
    cia_ta_underflows k c = 0 := by
  induction k generalizing c with
  | zero => rfl
  | succ k ih =>
    have h1 : cia_cr_started
        (reg (cia_with_ta c { cnt := c.ta.cnt - 1, latch := c.ta.latch }).c_cia CIA_CRA) = true := h
    have h2 : k < max (cia_with_ta c { cnt := c.ta.cnt - 1, latch := c.ta.latch }).ta.cnt 1 := by
      show k < max (c.ta.cnt - 1) 1
      omega
    have hn : cia_ta_underflows_next c = false := by
      have : ¬ c.ta.cnt ≤ 1 := by omega
      simp [cia_ta_underflows_next, ciat_tick, this]
    rw [cia_ta_underflows, hn, cia_ta_tick_dec c h (by omega), ih _ h1 h2]
    rfl

theorem cia_iter_ta_tick_stopped (n : Nat) (c : cia_context)
    (h : cia_cr_started (reg c.c_cia CIA_CRA) = false) :
    cia_iter cia_ta_tick n c = c := by
  induction n with
  | zero => rfl
  | succ n ih => rw [cia_iter, cia_ta_tick_stopped c h, ih]

theorem cia_ta_underflows_stopped (n : Nat) (c : cia_context)
    (h : cia_cr_started (reg c.c_cia CIA_CRA) = false) :
    cia_ta_underflows n c = 0 := by
  induction n with
  | zero => rfl
  | succ n ih =>
    rw [cia_ta_underflows, cia_ta_tick_stopped c h, ih]
    simp [cia_ta_underflows_next, h]

/-- The number of underflows on the way to, and including, the underflow tick. -/
theorem cia_ta_underflows_first (c : cia_context)
    (h : cia_cr_started (reg c.c_cia CIA_CRA) = true) :
    cia_ta_underflows (max c.ta.cnt 1) c = 1 := by
  have e : max c.ta.cnt 1 = (max c.ta.cnt 1 - 1) + 1 := by omega
  rw [e, cia_ta_underflows_add, cia_ta_underflows_dec _ c h (by omega),
    cia_iter_ta_tick_dec _ c h (by omega)]
  have h1 : cia_cr_started
      (reg (cia_with_ta c { cnt := c.ta.cnt - (max c.ta.cnt 1 - 1), latch := c.ta.latch }).c_cia
        CIA_CRA) = true := h
  have hle : c.ta.cnt - (max c.ta.cnt 1 - 1) ≤ 1 := by omega
  simp [cia_ta_underflows, cia_ta_underflows_next, h, ciat_tick, cia_with_ta, hle]

theorem ciacore_read_cra (c : cia_context) : (ciacore_read c CIA_CRA).1 = reg c.c_cia CIA_CRA := by
  have h : (14 : Nat) &&& 15 = 14 := by decide
  simp [ciacore_read, cia_reg_value, h, CIA_ICR, CIA_TOD_HR, CIA_TOD_TEN, CIA_PRA,
      CIA_PRB, CIA_TAL, CIA_TAH, CIA_TBL, CIA_TBH, CIA_CRA]

/-- The context that the one-shot set-up leaves: latch and count 5, CRA = 0x09. -/
theorem cia_one_shot_5_eq (ctx : cia_context) (hwf : ctx.c_cia.length = 16)
    (hstop : cia_cr_started (reg ctx.c_cia CIA_CRA) = false) :
    (cia_one_shot_5 ctx).ta = { cnt := 5, latch := 5 } ∧
    reg (cia_one_shot_5 ctx).c_cia CIA_CRA = 0x09 ∧
    (cia_one_shot_5 ctx).c_cia.length = 16 ∧
    (cia_one_shot_5 ctx).irqflags = ctx.irqflags := by
  unfold cia_one_shot_5
  rw [ciacore_store_cra, ciacore_store_ta_latch _ CIA_TAH 0 (Or.inr rfl),
    ciacore_store_ta_latch _ CIA_TAL 5 (Or.inl rfl)]
  have h1 : reg (ctx.c_cia.set CIA_TAL (5 % 256)) CIA_CRA = reg ctx.c_cia CIA_CRA :=
    reg_set_ne _ _ _ _ (by decide)
  refine ⟨?_, ?_, ?_, rfl⟩
  · simp only [h1, hstop]
    have e9 : ∀ t : ciat, ciat_store_cr t ((CIA_CR_RUNMODE_ONE_SHOT ||| CIA_CR_START) % 256) = t := by
      intro t
      have : (CIA_CR_RUNMODE_ONE_SHOT ||| CIA_CR_START) % 256 &&& CIA_CR_FORCE_LOAD = 0 := by decide
      simp [ciat_store_cr, this]
    rw [e9]
    have hl := ciat_store_latch_latch ctx.ta false (decide (CIA_TAL = CIA_TAH)) (5 % 256) (by norm_num)
    have hd : decide (CIA_TAL = CIA_TAH) = false := by decide
    rw [hd] at hl ⊢
    have hl2 := ciat_store_latch_latch (ciat_store_latch ctx.ta false false (5 % 256)) false
      (decide (CIA_TAH = CIA_TAH)) (0 % 256) (by norm_num)
    have hd2 : decide (CIA_TAH = CIA_TAH) = true := by decide
    rw [hd2] at hl2
    simp only [decide_True]
    have hc : ∀ (t : ciat) (hi : Bool) (b : Nat),
        ciat_store_latch t false hi b =
          { cnt := (ciat_store_latch t false hi b).latch,
            latch := (ciat_store_latch t false hi b).latch } := fun _ _ _ => rfl
    rw [hc, hl2, hl]
    simp
    omega
  · show reg (List.set _ CIA_CRA _) CIA_CRA = 9
    rw [reg_set_eq _ _ _ (by simp [hwf, CIA_CRA])]
    decide
  · simp [hwf]

theorem cia_tb_tick_length (c : cia_context) :
    (cia_tb_tick c).c_cia.length = c.c_cia.length := by
  simp only [cia_tb_tick, cia_tb_underflow]
  split_ifs <;> simp [cia_set_int]

theorem cia_ta_underflow_length (c : cia_context) :
    (cia_ta_underflow c).c_cia.length = c.c_cia.length := by
  simp only [cia_ta_underflow]
  split_ifs <;> simp [cia_sdr_shift_out_c_cia, cia_tb_tick_length, cia_set_int]

theorem and_one_of_testBit (x : Nat) (h : x.testBit 0 = true) : x &&& 1 = 1 := by
  have h1 := and_two_pow_cases x 0
  have h2 := (and_two_pow_ne_zero_iff x 0).2 h
  simp only [pow_zero] at h1 h2
  rcases h1 with h1 | h1
  · exact absurd h1 h2
  · exact h1

/-- C6: one-shot Timer A with latch 5: no underflow during the first four ticks
(START still reads 1, the flags are untouched), exactly one underflow on tick 5,
after which START reads 0 and the TA bit is latched; however many further
ticks arrive, the underflow count stays 1 and the context does not change,
until START is written again, which arms one more underflow on tick 5. -/
theorem cia_one_shot_underflows_once (ctx : cia_context) (k n : Nat)
    (hwf : ctx.c_cia.length = 16)
    (hstop : cia_cr_started (reg ctx.c_cia CIA_CRA) = false) :
    (cia_one_shot_5 ctx).ta.latch = 5 ∧
    (k < 5 →
      cia_ta_underflows k (cia_one_shot_5 ctx) = 0 ∧
      (ciacore_read (cia_iter cia_ta_tick k (cia_one_shot_5 ctx)) CIA_CRA).1 &&& CIA_CR_START =
        CIA_CR_START ∧
      (cia_iter cia_ta_tick k (cia_one_shot_5 ctx)).irqflags = ctx.irqflags) ∧
    cia_ta_underflows 5 (cia_one_shot_5 ctx) = 1 ∧
    (ciacore_read (cia_iter cia_ta_tick 5 (cia_one_shot_5 ctx)) CIA_CRA).1 &&& CIA_CR_START = 0 ∧
    (cia_iter cia_ta_tick 5 (cia_one_shot_5 ctx)).irqflags &&& CIA_IM_TA = CIA_IM_TA ∧
    cia_ta_underflows (5 + n) (cia_one_shot_5 ctx) = 1 ∧
    cia_iter cia_ta_tick (5 + n) (cia_one_shot_5 ctx) =
      cia_iter cia_ta_tick 5 (cia_one_shot_5 ctx) ∧
    cia_ta_underflows 5
      (ciacore_store (cia_iter cia_ta_tick 5 (cia_one_shot_5 ctx)) CIA_CRA
        (CIA_CR_RUNMODE_ONE_SHOT ||| CIA_CR_START)) = 1 := by
  obtain ⟨hta, hcra, hlen, hirq⟩ := cia_one_shot_5_eq ctx hwf hstop
  generalize cia_one_shot_5 ctx = s0 at hta hcra hlen hirq ⊢
  have hrun : cia_cr_started (reg s0.c_cia CIA_CRA) = true := by rw [hcra]; decide
  have hmax : max s0.ta.cnt 1 = 5 := by rw [hta]; rfl
  -- the underflow tick
  have h5 : cia_iter cia_ta_tick 5 s0 =
      cia_ta_underflow (cia_with_ta s0 { cnt := s0.ta.latch, latch := s0.ta.latch }) := by
    rw [← hmax]; exact cia_iter_ta_tick_underflow s0 hrun
  have hX : reg (cia_with_ta s0 { cnt := s0.ta.latch, latch := s0.ta.latch }).c_cia CIA_CRA = 9 :=
    hcra
  obtain ⟨u1, u2, u3⟩ := cia_ta_underflow_one_shot
    (cia_with_ta s0 { cnt := s0.ta.latch, latch := s0.ta.latch })
    (by show CIA_CRA < s0.c_cia.length; rw [hlen]; decide)
    (by rw [hX]; decide) (by rw [hX]; decide)
  rw [← h5] at u1 u2 u3
  rw [hX] at u2
  have hstop5 : cia_cr_started (reg (cia_iter cia_ta_tick 5 s0).c_cia CIA_CRA) = false := by
    rw [u2]; decide
  have hu5 : cia_ta_underflows 5 s0 = 1 := by
    rw [← hmax]; exact cia_ta_underflows_first s0 hrun
  refine ⟨by rw [hta], ?_, hu5, ?_, ?_, ?_, ?_, ?_⟩
  · intro hk
    have hk' : k < max s0.ta.cnt 1 := by rw [hmax]; exact hk
    rw [cia_ta_underflows_dec k s0 hrun hk', ciacore_read_cra,
      cia_iter_ta_tick_dec k s0 hrun hk']
    refine ⟨rfl, ?_, hirq⟩
    show reg s0.c_cia CIA_CRA &&& CIA_CR_START = CIA_CR_START
    rw [hcra]; decide
  · rw [ciacore_read_cra, u2]; decide
  · exact and_one_of_testBit _ u3
  · rw [cia_ta_underflows_add, hu5, cia_ta_underflows_stopped n _ hstop5]
  · rw [cia_iter_add, cia_iter_ta_tick_stopped n _ hstop5]
  · have hl5 : (cia_iter cia_ta_tick 5 s0).c_cia.length = 16 := by
      rw [h5, cia_ta_underflow_length]; exact hlen
    have hta5 : (cia_iter cia_ta_tick 5 s0).ta = { cnt := 5, latch := 5 } := by
      rw [u1]; show ({ cnt := s0.ta.latch, latch := s0.ta.latch } : ciat) = _
      rw [hta]
    generalize cia_iter cia_ta_tick 5 s0 = s5 at hl5 hta5
    have hrun5 : cia_cr_started
        (reg (ciacore_store s5 CIA_CRA (CIA_CR_RUNMODE_ONE_SHOT ||| CIA_CR_START)).c_cia CIA_CRA)
          = true := by
      rw [ciacore_store_cra]
      show cia_cr_started (reg (List.set _ CIA_CRA _) CIA_CRA) = true
      rw [reg_set_eq _ _ _ (by rw [hl5]; decide)]
      decide
    have hmax5 : max (ciacore_store s5 CIA_CRA
        (CIA_CR_RUNMODE_ONE_SHOT ||| CIA_CR_START)).ta.cnt 1 = 5 := by
      rw [ciacore_store_cra]
      show max (ciat_store_cr s5.ta _).cnt 1 = 5
      rw [hta5]
      rfl
    rw [← hmax5]
    exact cia_ta_underflows_first _ hrun5

/-- Witness for C6 on the all-zero context with both timers stopped. -/
theorem cia_one_shot_underflows_once_witness :
    cia_ctx0.c_cia.length = 16 ∧ cia_cr_started (reg cia_ctx0.c_cia CIA_CRA) = false ∧
    cia_ta_underflows 4 (cia_one_shot_5 cia_ctx0) = 0 ∧
    cia_ta_underflows 5 (cia_one_shot_5 cia_ctx0) = 1 ∧
    cia_ta_underflows (5 + 1000) (cia_one_shot_5 cia_ctx0) = 1 :=
  ⟨by decide, by decide,
   ((cia_one_shot_underflows_once cia_ctx0 4 1000 (by decide) (by decide)).2.1 (by decide)).1,
   (cia_one_shot_underflows_once cia_ctx0 4 1000 (by decide) (by decide)).2.2.1,
   (cia_one_shot_underflows_once cia_ctx0 4 1000 (by decide) (by decide)).2.2.2.2.2.1⟩

/-! ### TOD alarm (C8) -/

theorem ciacore_store_tod_alarm (c : cia_context) (a v : Nat)
    (ha : a = CIA_TOD_TEN ∨ a = CIA_TOD_SEC ∨ a = CIA_TOD_MIN ∨ a = CIA_TOD_HR)
    (h : reg c.c_cia CIA_CRB &&& CIA_CRB_ALARM ≠ 0) :
    ciacore_store c a v = { c with todalarm := c.todalarm.set (a - CIA_TOD_TEN) (v % 256) } := by
  have h8 : (8 : Nat) &&& 15 = 8 := by decide
  have h9 : (9 : Nat) &&& 15 = 9 := by decide
  have h10 : (10 : Nat) &&& 15 = 10 := by decide
  have h11 : (11 : Nat) &&& 15 = 11 := by decide
  rcases ha with rfl | rfl | rfl | rfl <;>
    simp [ciacore_store, h8, h9, h10, h11, h, CIA_PRA, CIA_DDRA, CIA_PRB, CIA_DDRB, CIA_TAL,
      CIA_TAH, CIA_TBL, CIA_TBH, CIA_TOD_TEN, CIA_TOD_SEC, CIA_TOD_MIN, CIA_TOD_HR]

theorem ciacore_store_tod_clock (c : cia_context) (a v : Nat)
    (ha : a = CIA_TOD_TEN ∨ a = CIA_TOD_SEC ∨ a = CIA_TOD_MIN ∨ a = CIA_TOD_HR)
    (h : reg c.c_cia CIA_CRB &&& CIA_CRB_ALARM = 0) (hl : c.todlatched = false) :
    ciacore_store c a v = { c with c_cia := c.c_cia.set a (v % 256) } := by
  have h8 : (8 : Nat) &&& 15 = 8 := by decide
  have h9 : (9 : Nat) &&& 15 = 9 := by decide
  have h10 : (10 : Nat) &&& 15 = 10 := by decide
  have h11 : (11 : Nat) &&& 15 = 11 := by decide
  rcases ha with rfl | rfl | rfl | rfl <;>
    simp [ciacore_store, h8, h9, h10, h11, h, hl, CIA_PRA, CIA_DDRA, CIA_PRB, CIA_DDRB, CIA_TAL,
      CIA_TAH, CIA_TBL, CIA_TBH, CIA_TOD_TEN, CIA_TOD_SEC, CIA_TOD_MIN, CIA_TOD_HR]

/-- What setting the alarm leaves behind. -/
theorem cia_tod_set_alarm_eq (ctx : cia_context) (hr min sec ten : Nat)
    (hwf : ctx.c_cia.length = 16) :
    cia_tod_set_alarm ctx hr min sec ten =
      { ctx with
        c_cia := ctx.c_cia.set CIA_CRB 0x80,
        tb := ciat_store_cr ctx.tb 0x80,
        tb_alarm := false,
        todalarm := (((ctx.todalarm.set 3 (hr % 256)).set 2 (min % 256)).set 1 (sec % 256)).set 0
          (ten % 256) } := by
  unfold cia_tod_set_alarm
  rw [ciacore_store_crb]
  have hb : reg (ctx.c_cia.set CIA_CRB (CIA_CRB_ALARM % 256 &&& 0xef)) CIA_CRB &&& CIA_CRB_ALARM
      ≠ 0 := by
    rw [reg_set_eq _ _ _ (by rw [hwf]; decide)]; decide
  rw [ciacore_store_tod_alarm _ CIA_TOD_HR hr (by simp) hb,
    ciacore_store_tod_alarm _ CIA_TOD_MIN min (by simp) hb,
    ciacore_store_tod_alarm _ CIA_TOD_SEC sec (by simp) hb,
    ciacore_store_tod_alarm _ CIA_TOD_TEN ten (by simp) hb]
  rfl

/-- What setting the clock leaves behind, when no hold is active. -/
theorem cia_tod_set_clock_eq (ctx : cia_context) (hr min sec ten : Nat)
    (hwf : ctx.c_cia.length = 16) (hl : ctx.todlatched = false) :
    cia_tod_set_clock ctx hr min sec ten =
      { ctx with
        c_cia := ((((ctx.c_cia.set CIA_CRB 0).set CIA_TOD_HR (hr % 256)).set CIA_TOD_MIN
          (min % 256)).set CIA_TOD_SEC (sec % 256)).set CIA_TOD_TEN (ten % 256),
        tb := ciat_store_cr ctx.tb 0,
        tb_alarm := false } := by
  unfold cia_tod_set_clock
  rw [ciacore_store_crb]
  have hb : ∀ c : List Nat, c.length = 16 →
      reg (c.set CIA_CRB (CIA_CRB_ALARM_TOD % 256 &&& 0xef)) CIA_CRB &&& CIA_CRB_ALARM = 0 := by
    intro c hc
    rw [reg_set_eq _ _ _ (by rw [hc]; decide)]; decide
  rw [ciacore_store_tod_clock _ CIA_TOD_HR hr (by simp) (hb _ hwf) (by exact hl),
    ciacore_store_tod_clock _ CIA_TOD_MIN min (by simp)
      (by show reg (List.set _ CIA_TOD_HR _) CIA_CRB &&& CIA_CRB_ALARM = 0
          rw [reg_set_ne _ _ _ _ (by decide)]; exact hb _ hwf) (by exact hl),
    ciacore_store_tod_clock _ CIA_TOD_SEC sec (by simp)
      (by show reg (List.set (List.set _ CIA_TOD_HR _) CIA_TOD_MIN _) CIA_CRB &&& CIA_CRB_ALARM = 0
          rw [reg_set_ne _ _ _ _ (by decide), reg_set_ne _ _ _ _ (by decide)]; exact hb _ hwf) (by exact hl),
    ciacore_store_tod_clock _ CIA_TOD_TEN ten (by simp)
      (by show reg (List.set (List.set (List.set _ CIA_TOD_HR _) CIA_TOD_MIN _) CIA_TOD_SEC _)
            CIA_CRB &&& CIA_CRB_ALARM = 0
          rw [reg_set_ne _ _ _ _ (by decide), reg_set_ne _ _ _ _ (by decide),
            reg_set_ne _ _ _ _ (by decide)]; exact hb _ hwf) (by exact hl)]
  rfl

theorem tod_wrbuf_apply_none (buf : List (Option Nat)) (i : Nat) (c : List Nat)
    (h : ∀ x ∈ buf, x = none) : tod_wrbuf_apply buf i c = c := by
  induction buf generalizing i with
  | nil => rfl
  | cons x r ih =>
    have hx : x = none := h x (List.mem_cons_self _ _)
    subst hx
    rw [tod_wrbuf_apply]
    exact ih (i + 1) (fun y hy => h y (List.mem_cons_of_mem _ hy))

theorem tod_increment_length (c : List Nat) : (tod_increment c).length = c.length := by
  simp only [tod_increment]
  split_ifs <;> simp

theorem tod_increment_regs (c : List Nat) (hlen : c.length = 16) :
    reg (tod_increment c) CIA_TOD_TEN = (tod_inc_ten (reg c CIA_TOD_TEN)).1 ∧
    reg (tod_increment c) CIA_TOD_SEC =
      (if (tod_inc_ten (reg c CIA_TOD_TEN)).2 then (tod_inc_60 (reg c CIA_TOD_SEC)).1
       else reg c CIA_TOD_SEC) ∧
    reg (tod_increment c) CIA_TOD_MIN =
      (if (tod_inc_ten (reg c CIA_TOD_TEN)).2 ∧ (tod_inc_60 (reg c CIA_TOD_SEC)).2 then
        (tod_inc_60 (reg c CIA_TOD_MIN)).1
       else reg c CIA_TOD_MIN) ∧
    reg (tod_increment c) CIA_TOD_HR =
      (if (tod_inc_ten (reg c CIA_TOD_TEN)).2 ∧ (tod_inc_60 (reg c CIA_TOD_SEC)).2 ∧
          (tod_inc_60 (reg c CIA_TOD_MIN)).2 then
        tod_inc_hr (reg c CIA_TOD_HR)
       else reg c CIA_TOD_HR) := by
  simp only [CIA_TOD_TEN, CIA_TOD_SEC, CIA_TOD_MIN, CIA_TOD_HR]
  cases h1 : (tod_inc_ten (reg c 8)).2 <;>
  cases h2 : (tod_inc_60 (reg c 9)).2 <;>
  cases h3 : (tod_inc_60 (reg c 10)).2 <;>
  simp [tod_increment, h1, h2, h3, reg_set_eq, reg_set_ne, hlen, CIA_TOD_TEN, CIA_TOD_SEC,
    CIA_TOD_MIN, CIA_TOD_HR]

theorem cia_tod_match_set_int (c : cia_context) (s : Nat) :
    cia_tod_match (cia_set_int c s) = cia_tod_match c := rfl

theorem cia_tod_match_iff (c : cia_context) :
    cia_tod_match c = true ↔
      (reg c.c_cia CIA_TOD_TEN = reg c.todalarm 0 ∧ reg c.c_cia CIA_TOD_SEC = reg c.todalarm 1 ∧
       reg c.c_cia CIA_TOD_MIN = reg c.todalarm 2 ∧ reg c.c_cia CIA_TOD_HR = reg c.todalarm 3) := by
  unfold cia_tod_match
  rw [decide_eq_true_iff]

/-- A tick of a running clock: what stays, and when the TOD bit is latched. -/
theorem cia_tod_tick_running (c : cia_context) (hs : c.todstopped = false) :
    (cia_tod_tick c).c_cia = tod_increment (tod_wrbuf_apply c.todwrbuf CIA_TOD_TEN c.c_cia) ∧
    (cia_tod_tick c).todalarm = c.todalarm ∧
    (cia_tod_tick c).todstopped = false ∧
    (cia_tod_tick c).todlatched = c.todlatched ∧
    (cia_tod_tick c).todlatch = c.todlatch ∧
    (cia_tod_tick c).todwrbuf = c.todwrbuf.map (fun _ => none) ∧
    (cia_tod_tick c).irqflags =
      (if cia_tod_match (cia_tod_tick c) then c.irqflags ||| CIA_IM_TOD else c.irqflags) := by
  simp only [cia_tod_tick, hs, Bool.false_eq_true, if_false]
  split_ifs <;>
    first
    | exact ⟨rfl, rfl, rfl, rfl, rfl, rfl, rfl⟩
    | (rename_i h1 h2; rw [cia_tod_match_set_int] at h2; exact absurd h1 h2)

theorem ciacore_peek_tod (c : cia_context) (hl : c.todlatched = false) :
    (ciacore_peek c CIA_TOD_TEN).1 = reg c.c_cia CIA_TOD_TEN ∧
    (ciacore_peek c CIA_TOD_SEC).1 = reg c.c_cia CIA_TOD_SEC ∧
    (ciacore_peek c CIA_TOD_MIN).1 = reg c.c_cia CIA_TOD_MIN ∧
    (ciacore_peek c CIA_TOD_HR).1 = reg c.c_cia CIA_TOD_HR := by
  have h8 : (8 : Nat) &&& 15 = 8 := by decide
  have h9 : (9 : Nat) &&& 15 = 9 := by decide
  have h10 : (10 : Nat) &&& 15 = 10 := by decide
  have h11 : (11 : Nat) &&& 15 = 11 := by decide
  refine ⟨?_, ?_, ?_, ?_⟩ <;>
    simp [ciacore_peek, cia_reg_value, h8, h9, h10, h11, hl, CIA_PRA, CIA_PRB, CIA_TAL, CIA_TAH,
      CIA_TBL, CIA_TBH, CIA_TOD_TEN, CIA_TOD_SEC, CIA_TOD_MIN, CIA_TOD_HR]

/-- The registers and the alarm after the scenario's stores. -/
theorem cia_tod_alarm_scenario_eq (ctx : cia_context) (hwf : ctx.c_cia.length = 16)
    (hal : ctx.todalarm.length = 4) (hl : ctx.todlatched = false) :
    (reg (cia_tod_alarm_scenario ctx).c_cia CIA_TOD_TEN = 0x09 ∧
     reg (cia_tod_alarm_scenario ctx).c_cia CIA_TOD_SEC = 0x59 ∧
     reg (cia_tod_alarm_scenario ctx).c_cia CIA_TOD_MIN = 0x59 ∧
     reg (cia_tod_alarm_scenario ctx).c_cia CIA_TOD_HR = 0x09) ∧
    (reg (cia_tod_alarm_scenario ctx).todalarm 0 = 0x00 ∧
     reg (cia_tod_alarm_scenario ctx).todalarm 1 = 0x00 ∧
     reg (cia_tod_alarm_scenario ctx).todalarm 2 = 0x00 ∧
     reg (cia_tod_alarm_scenario ctx).todalarm 3 = 0x10) ∧
    (cia_tod_alarm_scenario ctx).c_cia.length = 16 ∧
    (cia_tod_alarm_scenario ctx).todlatched = false ∧
    (cia_tod_alarm_scenario ctx).todstopped = ctx.todstopped ∧
    (cia_tod_alarm_scenario ctx).todwrbuf = ctx.todwrbuf ∧
    (cia_tod_alarm_scenario ctx).irqflags = ctx.irqflags := by
  have hA := cia_tod_set_alarm_eq ctx 0x10 0x00 0x00 0x00 hwf
  have hAlen : (cia_tod_set_alarm ctx 0x10 0x00 0x00 0x00).c_cia.length = 16 := by
    rw [hA]; simp [hwf]
  have hAl : (cia_tod_set_alarm ctx 0x10 0x00 0x00 0x00).todlatched = false := by
    rw [hA]; exact hl
  unfold cia_tod_alarm_scenario
  rw [cia_tod_set_clock_eq _ _ _ _ _ hAlen hAl, hA]
  simp [reg_set_eq, reg_set_ne, hwf, hal, hl, CIA_TOD_TEN, CIA_TOD_SEC, CIA_TOD_MIN, CIA_TOD_HR,
    CIA_CRB]

theorem ciacore_read_icr_eq (c : cia_context) :
    ciacore_read c CIA_ICR = (cia_icr_value c, { c with irqflags := 0, int_line := false }) := by
  have hm : (13 : Nat) &&& 15 = 13 := by decide
  simp [ciacore_read, cia_reg_value, hm, CIA_ICR, CIA_TOD_HR, CIA_TOD_TEN, CIA_PRA, CIA_PRB,
    CIA_TAL, CIA_TAH, CIA_TBL, CIA_TBH]

/-- C8: with the alarm written as 10:00:00.0 and the clock as 09:59:59.9, one
tenth-of-a-second tick makes the clock read 10:00:00.0 and latches the TOD bit;
the next tick does not latch it again, also after the flags were acknowledged by
an ICR read.  In general a tick of a running clock latches the TOD bit exactly
when the four clock fields equal the four alarm fields after the increment. -/
theorem cia_tod_alarm_match (ctx c : cia_context)
    (hwf : ctx.c_cia.length = 16) (hal : ctx.todalarm.length = 4)
    (hl : ctx.todlatched = false) (hs : ctx.todstopped = false)
    (hbuf : ∀ x ∈ ctx.todwrbuf, x = none) (hc : c.todstopped = false) :
    ((ciacore_peek (cia_tod_alarm_scenario ctx) CIA_TOD_HR).1 = 0x09 ∧
     (ciacore_peek (cia_tod_alarm_scenario ctx) CIA_TOD_MIN).1 = 0x59 ∧
     (ciacore_peek (cia_tod_alarm_scenario ctx) CIA_TOD_SEC).1 = 0x59 ∧
     (ciacore_peek (cia_tod_alarm_scenario ctx) CIA_TOD_TEN).1 = 0x09) ∧
    ((ciacore_peek (cia_tod_tick (cia_tod_alarm_scenario ctx)) CIA_TOD_HR).1 = 0x10 ∧
     (ciacore_peek (cia_tod_tick (cia_tod_alarm_scenario ctx)) CIA_TOD_MIN).1 = 0x00 ∧
     (ciacore_peek (cia_tod_tick (cia_tod_alarm_scenario ctx)) CIA_TOD_SEC).1 = 0x00 ∧
     (ciacore_peek (cia_tod_tick (cia_tod_alarm_scenario ctx)) CIA_TOD_TEN).1 = 0x00) ∧
    (cia_tod_alarm_scenario ctx).irqflags = ctx.irqflags ∧
    (cia_tod_tick (cia_tod_alarm_scenario ctx)).irqflags = ctx.irqflags ||| CIA_IM_TOD ∧
    (cia_tod_tick (cia_tod_tick (cia_tod_alarm_scenario ctx))).irqflags =
      (cia_tod_tick (cia_tod_alarm_scenario ctx)).irqflags ∧
    (cia_tod_tick (ciacore_read (cia_tod_tick (cia_tod_alarm_scenario ctx)) CIA_ICR).2).irqflags
      = 0 ∧
    ((reg (cia_tod_tick c).c_cia CIA_TOD_TEN = reg c.todalarm 0 ∧
      reg (cia_tod_tick c).c_cia CIA_TOD_SEC = reg c.todalarm 1 ∧
      reg (cia_tod_tick c).c_cia CIA_TOD_MIN = reg c.todalarm 2 ∧
      reg (cia_tod_tick c).c_cia CIA_TOD_HR = reg c.todalarm 3) →
        (cia_tod_tick c).irqflags = c.irqflags ||| CIA_IM_TOD) ∧
    (¬ (reg (cia_tod_tick c).c_cia CIA_TOD_TEN = reg c.todalarm 0 ∧
        reg (cia_tod_tick c).c_cia CIA_TOD_SEC = reg c.todalarm 1 ∧
        reg (cia_tod_tick c).c_cia CIA_TOD_MIN = reg c.todalarm 2 ∧
        reg (cia_tod_tick c).c_cia CIA_TOD_HR = reg c.todalarm 3) →
        (cia_tod_tick c).irqflags = c.irqflags) := by
  obtain ⟨⟨r8, r9, r10, r11⟩, ⟨a0, a1, a2, a3⟩, slen, sl, ss, sbuf, sirq⟩ :=
    cia_tod_alarm_scenario_eq ctx hwf hal hl
  generalize cia_tod_alarm_scenario ctx = s at r8 r9 r10 r11 a0 a1 a2 a3 slen sl ss sbuf sirq ⊢
  rw [hs] at ss
  have sbuf' : ∀ x ∈ s.todwrbuf, x = none := by rw [sbuf]; exact hbuf
  -- first tick
  obtain ⟨t1, t2, t3, t4, _, t6, t7⟩ := cia_tod_tick_running s ss
  rw [tod_wrbuf_apply_none _ _ _ sbuf'] at t1
  obtain ⟨i8, i9, i10, i11⟩ := tod_increment_regs s.c_cia slen
  rw [← t1] at i8 i9 i10 i11
  simp only [r8, r9, r10, r11] at i8 i9 i10 i11
  have e8 : reg (cia_tod_tick s).c_cia CIA_TOD_TEN = 0x00 := by rw [i8]; decide
  have e9 : reg (cia_tod_tick s).c_cia CIA_TOD_SEC = 0x00 := by rw [i9]; decide
  have e10 : reg (cia_tod_tick s).c_cia CIA_TOD_MIN = 0x00 := by rw [i10]; decide
  have e11 : reg (cia_tod_tick s).c_cia CIA_TOD_HR = 0x10 := by rw [i11]; decide
  have hm1 : cia_tod_match (cia_tod_tick s) = true := by
    rw [cia_tod_match_iff, t2, e8, e9, e10, e11, a0, a1, a2, a3]
    exact ⟨rfl, rfl, rfl, rfl⟩
  rw [hm1, if_pos rfl, sirq] at t7
  have tlen : (cia_tod_tick s).c_cia.length = 16 := by
    rw [t1, tod_increment_length]; exact slen
  have tbuf : ∀ x ∈ (cia_tod_tick s).todwrbuf, x = none := by
    rw [t6]; intro x hx; simp at hx; exact hx.2
  -- a further tick, from any context with these registers
  have next : ∀ u : cia_context, u.c_cia = (cia_tod_tick s).c_cia →
      u.todalarm = (cia_tod_tick s).todalarm → u.todstopped = false →
      u.todwrbuf = (cia_tod_tick s).todwrbuf → (cia_tod_tick u).irqflags = u.irqflags := by
    intro u hu1 hu2 hu3 hu4
    obtain ⟨v1, v2, _, _, _, _, v7⟩ := cia_tod_tick_running u hu3
    rw [tod_wrbuf_apply_none _ _ _ (by rw [hu4]; exact tbuf), hu1] at v1
    obtain ⟨j8, _, _, _⟩ := tod_increment_regs (cia_tod_tick s).c_cia tlen
    rw [← v1, e8] at j8
    have hm2 : cia_tod_match (cia_tod_tick u) = false := by
      rw [Bool.eq_false_iff]
      intro h
      rw [cia_tod_match_iff, v2, hu2, t2, a0, j8] at h
      exact absurd h.1 (by decide)
    rw [v7, hm2]; rfl
  refine ⟨?_, ?_, sirq, t7, ?_, ?_, ?_, ?_⟩
  · obtain ⟨p8, p9, p10, p11⟩ := ciacore_peek_tod s sl
    rw [p8, p9, p10, p11, r8, r9, r10, r11]
    exact ⟨rfl, rfl, rfl, rfl⟩
  · obtain ⟨p8, p9, p10, p11⟩ := ciacore_peek_tod (cia_tod_tick s) (by rw [t4]; exact sl)
    rw [p8, p9, p10, p11, e8, e9, e10, e11]
    exact ⟨rfl, rfl, rfl, rfl⟩
  · exact next _ rfl rfl t3 rfl
  · rw [ciacore_read_icr_eq]
    exact next _ rfl rfl t3 rfl
  · intro h
    obtain ⟨_, v2, _, _, _, _, v7⟩ := cia_tod_tick_running c hc
    rw [v7, (cia_tod_match_iff _).2 (by rw [v2]; exact h), if_pos rfl]
  · intro h
    obtain ⟨_, v2, _, _, _, _, v7⟩ := cia_tod_tick_running c hc
    have hm : cia_tod_match (cia_tod_tick c) = false := by
      rw [Bool.eq_false_iff]
      intro h'
      exact h (by rw [← v2]; exact (cia_tod_match_iff _).1 h')
    rw [v7, hm]; rfl

/-- Witness for C8 on the all-zero context: the tick to 10:00:00.0 latches the TOD
bit. -/
theorem cia_tod_alarm_match_witness :
    cia_ctx0.c_cia.length = 16 ∧ cia_ctx0.todalarm.length = 4 ∧
    cia_ctx0.todlatched = false ∧ cia_ctx0.todstopped = false ∧
    (∀ x ∈ cia_ctx0.todwrbuf, x = none) ∧
    (cia_tod_alarm_scenario cia_ctx0).todstopped = false ∧
    (cia_tod_tick (cia_tod_alarm_scenario cia_ctx0)).irqflags =
      cia_ctx0.irqflags ||| CIA_IM_TOD :=
  ⟨by decide, by decide, by decide, by decide, by decide, by decide,
   (cia_tod_alarm_match cia_ctx0 (cia_tod_alarm_scenario cia_ctx0) (by decide) (by decide)
      (by decide) (by decide) (by decide) (by decide)).2.2.2.1⟩

/-! ### TOD hold (C9) -/

theorem cia_tod_hold_ite (p : Prop) [Decidable p] (x y : cia_context) (h : Bool × List Nat)
    (hx : cia_tod_hold x = h) (hy : cia_tod_hold y = h) :
    cia_tod_hold (if p then x else y) = h := by
  split <;> assumption

theorem cia_sdr_shift_out_hold (c : cia_context) :
    cia_tod_hold (cia_sdr_shift_out c) = cia_tod_hold c := by
  simp only [cia_sdr_shift_out]
  split_ifs <;> rfl

theorem cia_sdr_shift_in_hold (c : cia_context) :
    cia_tod_hold (cia_sdr_shift_in c) = cia_tod_hold c := by
  simp only [cia_sdr_shift_in]
  split_ifs <;> rfl

theorem cia_tb_underflow_hold (c : cia_context) :
    cia_tod_hold (cia_tb_underflow c) = cia_tod_hold c := by
  simp only [cia_tb_underflow]
  split_ifs <;> rfl

theorem cia_tb_tick_hold (c : cia_context) :
    cia_tod_hold (cia_tb_tick c) = cia_tod_hold c := by
  simp only [cia_tb_tick]
  split_ifs
  · rw [cia_tb_underflow_hold]; rfl
  · rfl
  · rfl

theorem cia_ta_underflow_hold (c : cia_context) :
    cia_tod_hold (cia_ta_underflow c) = cia_tod_hold c := by
  simp only [cia_ta_underflow]
  split_ifs <;> (try simp only [cia_sdr_shift_out_hold, cia_tb_tick_hold]) <;> rfl

theorem cia_ta_tick_hold (c : cia_context) :
    cia_tod_hold (cia_ta_tick c) = cia_tod_hold c := by
  simp only [cia_ta_tick]
  split_ifs
  · rw [cia_ta_underflow_hold]; rfl
  · rfl
  · rfl

theorem cia_phi2_hold (c : cia_context) : cia_tod_hold (cia_phi2 c) = cia_tod_hold c := by
  simp only [cia_phi2]
  split_ifs <;> simp only [cia_tb_tick_hold, cia_ta_tick_hold]

theorem ciacore_set_cnt_hold (c : cia_context) (d : Bool) :
    cia_tod_hold (ciacore_set_cnt c d) = cia_tod_hold c := by
  simp only [ciacore_set_cnt]
  split_ifs <;>
    (try simp only [cia_sdr_shift_in_hold, cia_tb_tick_hold, cia_ta_tick_hold]) <;> rfl

theorem cia_tod_tick_hold (c : cia_context) : cia_tod_hold (cia_tod_tick c) = cia_tod_hold c := by
  simp only [cia_tod_tick]
  split_ifs <;> rfl

theorem cia_tod_subtick_hold (c : cia_context) :
    cia_tod_hold (cia_tod_subtick c) = cia_tod_hold c := by
  simp only [cia_tod_subtick]
  split_ifs <;> (try rw [cia_tod_tick_hold]) <;> rfl

theorem ciacore_store_hold (c : cia_context) (a v : Nat) :
    cia_tod_hold (ciacore_store c a v) = cia_tod_hold c := by
  unfold ciacore_store
  dsimp only
  repeat' (first | rfl | apply cia_tod_hold_ite)

theorem ciacore_read_hold (c : cia_context) (a : Nat) (h : a &&& 0x0f ≠ CIA_TOD_TEN)
    (hl : c.todlatched = true) :
    cia_tod_hold (ciacore_read c a).2 = cia_tod_hold c := by
  simp only [ciacore_read, if_neg h, hl, if_true]
  split_ifs <;> simp [cia_tod_hold, hl]

theorem cia_step_hold (c : cia_context) (op : cia_op) (h : op.reads_ten = false)
    (hl : c.todlatched = true) :
    cia_tod_hold (cia_step c op).2 = cia_tod_hold c := by
  cases op with
  | store a v => exact ciacore_store_hold c a v
  | read a =>
    have : a &&& 0x0f ≠ CIA_TOD_TEN := by simpa [cia_op.reads_ten] using h
    exact ciacore_read_hold c a this hl
  | peek a => rfl
  | ta_tick => exact cia_ta_tick_hold c
  | tb_tick => exact cia_tb_tick_hold c
  | phi2 => exact cia_phi2_hold c
  | tod_tick => exact cia_tod_tick_hold c
  | tod_subtick => exact cia_tod_subtick_hold c
  | set_cnt d => exact ciacore_set_cnt_hold c d
  | set_sp d => rfl
  | set_flag => rfl

theorem cia_run_hold (ops : List cia_op) (c : cia_context)
    (h : ∀ op ∈ ops, op.reads_ten = false) (hl : c.todlatched = true) :
    cia_tod_hold (cia_run ops c).2 = cia_tod_hold c := by
  induction ops generalizing c with
  | nil => rfl
  | cons op ops ih =>
    have h1 := cia_step_hold c op (h op (List.mem_cons_self _ _)) hl
    have hl1 : (cia_step c op).2.todlatched = true := by
      have := congrArg Prod.fst h1
      simp only [cia_tod_hold] at this
      rw [this]; exact hl
    have := ih (cia_step c op).2 (fun o ho => h o (List.mem_cons_of_mem _ ho)) hl1
    simp only [cia_run]
    rw [this, h1]

theorem cia_iter_tod_tick_hold (n : Nat) (c : cia_context) :
    cia_tod_hold (cia_iter cia_tod_tick n c) = cia_tod_hold c := by
  induction n generalizing c with
  | zero => rfl
  | succ n ih => rw [cia_iter, ih, cia_tod_tick_hold]

theorem ciacore_read_tod_latched (c : cia_context) (hl : c.todlatched = true) :
    (ciacore_read c CIA_TOD_TEN).1 = reg c.todlatch 0 ∧
    (ciacore_read c CIA_TOD_SEC).1 = reg c.todlatch 1 ∧
    (ciacore_read c CIA_TOD_MIN).1 = reg c.todlatch 2 ∧
    (ciacore_read c CIA_TOD_HR).1 = reg c.todlatch 3 := by
  have h8 : (8 : Nat) &&& 15 = 8 := by decide
  have h9 : (9 : Nat) &&& 15 = 9 := by decide
  have h10 : (10 : Nat) &&& 15 = 10 := by decide
  have h11 : (11 : Nat) &&& 15 = 11 := by decide
  refine ⟨?_, ?_, ?_, ?_⟩ <;>
    simp [ciacore_read, cia_reg_value, h8, h9, h10, h11, hl, CIA_PRA, CIA_PRB, CIA_TAL, CIA_TAH,
      CIA_TBL, CIA_TBH, CIA_TOD_TEN, CIA_TOD_SEC, CIA_TOD_MIN, CIA_TOD_HR, CIA_ICR]

theorem ciacore_read_tod_live (c : cia_context) (hl : c.todlatched = false) :
    (ciacore_read c CIA_TOD_TEN).1 = reg c.c_cia CIA_TOD_TEN ∧
    (ciacore_read c CIA_TOD_SEC).1 = reg c.c_cia CIA_TOD_SEC ∧
    (ciacore_read c CIA_TOD_MIN).1 = reg c.c_cia CIA_TOD_MIN ∧
    (ciacore_read c CIA_TOD_HR).1 = reg c.c_cia CIA_TOD_HR := by
  have h8 : (8 : Nat) &&& 15 = 8 := by decide
  have h9 : (9 : Nat) &&& 15 = 9 := by decide
  have h10 : (10 : Nat) &&& 15 = 10 := by decide
  have h11 : (11 : Nat) &&& 15 = 11 := by decide
  refine ⟨?_, ?_, ?_, ?_⟩ <;>
    simp [ciacore_read, cia_reg_value, h8, h9, h10, h11, hl, CIA_PRA, CIA_PRB, CIA_TAL, CIA_TAH,
      CIA_TBL, CIA_TBH, CIA_TOD_TEN, CIA_TOD_SEC, CIA_TOD_MIN, CIA_TOD_HR, CIA_ICR]

theorem ciacore_read_hr_latches (c : cia_context) (hl : c.todlatched = false) :
    cia_tod_hold (ciacore_read c CIA_TOD_HR).2 =
      (true, [reg c.c_cia CIA_TOD_TEN, reg c.c_cia CIA_TOD_SEC, reg c.c_cia CIA_TOD_MIN,
              reg c.c_cia CIA_TOD_HR]) := by
  have h11 : (11 : Nat) &&& 15 = 11 := by decide
  simp [ciacore_read, h11, hl, cia_tod_hold, CIA_TOD_HR]

theorem ciacore_read_ten_releases (c : cia_context) :
    (ciacore_read c CIA_TOD_TEN).2 = { c with todlatched := false } := by
  have h8 : (8 : Nat) &&& 15 = 8 := by decide
  simp [ciacore_read, h8, CIA_TOD_HR, CIA_TOD_TEN]

/-- C9: after a read of the hours register (no hold active before), a read of the
minutes or seconds returns the value the clock had at the hours read, after any
number of TOD ticks and after any sequence of operations that does not read the
tenths; the read of the tenths returns the latched tenths and releases the hold,
after which minutes and seconds show the running clock again. -/
theorem ciacore_tod_hold (ctx : cia_context) (ops : List cia_op) (n : Nat)
    (hl : ctx.todlatched = false) (hops : ∀ op ∈ ops, op.reads_ten = false) :
    (ciacore_read ctx CIA_TOD_HR).1 = reg ctx.c_cia CIA_TOD_HR ∧
    ((ciacore_read (cia_iter cia_tod_tick n (ciacore_read ctx CIA_TOD_HR).2) CIA_TOD_MIN).1 =
        reg ctx.c_cia CIA_TOD_MIN ∧
     (ciacore_read (cia_iter cia_tod_tick n (ciacore_read ctx CIA_TOD_HR).2) CIA_TOD_SEC).1 =
        reg ctx.c_cia CIA_TOD_SEC) ∧
    ((ciacore_read (cia_run ops (ciacore_read ctx CIA_TOD_HR).2).2 CIA_TOD_MIN).1 =
        reg ctx.c_cia CIA_TOD_MIN ∧
     (ciacore_read (cia_run ops (ciacore_read ctx CIA_TOD_HR).2).2 CIA_TOD_SEC).1 =
        reg ctx.c_cia CIA_TOD_SEC) ∧
    (ciacore_read (cia_run ops (ciacore_read ctx CIA_TOD_HR).2).2 CIA_TOD_TEN).1 =
      reg ctx.c_cia CIA_TOD_TEN ∧
    (ciacore_read (cia_run ops (ciacore_read ctx CIA_TOD_HR).2).2 CIA_TOD_TEN).2.todlatched =
      false ∧
    ((ciacore_read (ciacore_read (cia_run ops (ciacore_read ctx CIA_TOD_HR).2).2 CIA_TOD_TEN).2
        CIA_TOD_MIN).1 =
        reg (cia_run ops (ciacore_read ctx CIA_TOD_HR).2).2.c_cia CIA_TOD_MIN ∧
     (ciacore_read (ciacore_read (cia_run ops (ciacore_read ctx CIA_TOD_HR).2).2 CIA_TOD_TEN).2
        CIA_TOD_SEC).1 =
        reg (cia_run ops (ciacore_read ctx CIA_TOD_HR).2).2.c_cia CIA_TOD_SEC) := by
  have h0 := ciacore_read_hr_latches ctx hl
  have hv := (ciacore_read_tod_live ctx hl).2.2.2
  generalize (ciacore_read ctx CIA_TOD_HR).2 = s at h0 ⊢
  -- the hold, as a fact about any context that carries it
  have key : ∀ u : cia_context, cia_tod_hold u = cia_tod_hold s →
      (ciacore_read u CIA_TOD_TEN).1 = reg ctx.c_cia CIA_TOD_TEN ∧
      (ciacore_read u CIA_TOD_SEC).1 = reg ctx.c_cia CIA_TOD_SEC ∧
      (ciacore_read u CIA_TOD_MIN).1 = reg ctx.c_cia CIA_TOD_MIN := by
    intro u hu
    rw [h0] at hu
    have hul : u.todlatched = true := congrArg Prod.fst hu
    have hut : u.todlatch = _ := congrArg Prod.snd hu
    obtain ⟨r0, r1, r2, _⟩ := ciacore_read_tod_latched u hul
    rw [r0, r1, r2, hut]
    exact ⟨rfl, rfl, rfl⟩
  have hsl : s.todlatched = true := congrArg Prod.fst h0
  have hrun := cia_run_hold ops s hops hsl
  have hit := cia_iter_tod_tick_hold n s
  refine ⟨hv, ⟨(key _ hit).2.2, (key _ hit).2.1⟩, ⟨(key _ hrun).2.2, (key _ hrun).2.1⟩,
    (key _ hrun).1, ?_, ?_⟩
  · rw [ciacore_read_ten_releases]
  · have hrel : (ciacore_read (cia_run ops s).2 CIA_TOD_TEN).2.todlatched = false := by
      rw [ciacore_read_ten_releases]
    obtain ⟨_, l1, l2, _⟩ := ciacore_read_tod_live _ hrel
    rw [l1, l2, ciacore_read_ten_releases]
    exact ⟨rfl, rfl⟩

/-- Witness for C9: the clock is set to 09:59:59.9 and the hours are read; after
25 ticks the minutes still read as at the hours read. -/
theorem ciacore_tod_hold_witness :
    (cia_tod_alarm_scenario cia_ctx0).todlatched = false ∧
    (∀ op ∈ [cia_op.tod_tick, cia_op.read CIA_TOD_MIN, cia_op.store CIA_TOD_SEC 0x30,
        cia_op.tod_tick], op.reads_ten = false) ∧
    (ciacore_read (cia_iter cia_tod_tick 25
        (ciacore_read (cia_tod_alarm_scenario cia_ctx0) CIA_TOD_HR).2) CIA_TOD_MIN).1 =
      reg (cia_tod_alarm_scenario cia_ctx0).c_cia CIA_TOD_MIN :=
  ⟨by decide, by decide,
   (ciacore_tod_hold (cia_tod_alarm_scenario cia_ctx0)
      [cia_op.tod_tick, cia_op.read CIA_TOD_MIN, cia_op.store CIA_TOD_SEC 0x30,
        cia_op.tod_tick] 25 (by decide) (by decide)).2.1.1⟩

/-! ### Shift register deferral (C10) -/

theorem shl_mod_shl (s j : Nat) : ((s <<< j) % 65536) <<< 1 % 65536 = (s <<< (j + 1)) % 65536 := by
  rw [Nat.shiftLeft_eq, Nat.shiftLeft_eq, Nat.shiftLeft_eq, Nat.mod_mul_mod]
  congr 1
  ring

theorem bit7_shl (s j : Nat) (hj : j ≤ 7) :
    decide ((s <<< j) % 65536 &&& 0x80 ≠ 0) = s.testBit (7 - j) := by
  have h : ((s <<< j) % 65536 &&& 0x80 ≠ 0) ↔ ((s <<< j) % 65536).testBit 7 = true :=
    and_two_pow_ne_zero_iff _ 7
  have e : ((s <<< j) % 65536).testBit 7 = s.testBit (7 - j) := by
    have e16 : (65536 : Nat) = 2 ^ 16 := by norm_num
    rw [e16, Nat.testBit_mod_two_pow, Nat.testBit_shiftLeft]
    simp [hj]
  have hd : decide ((s <<< j) % 65536 &&& 0x80 ≠ 0) =
      decide (((s <<< j) % 65536).testBit 7 = true) := decide_eq_decide.2 h
  rw [hd]
  simp [e]

theorem cia_sdr_shift_out_mid (c : cia_context) (hfl : c.sdr_alarm = true)
    (hk : c.sr_bits + 1 < 8) :
    cia_sdr_shift_out c =
      { c with
        sp_out_state := decide (c.shifter &&& 0x80 ≠ 0),
        shifter := (c.shifter <<< 1) % 65536,
        sr_bits := c.sr_bits + 1,
        sdr_delay := c.sdr_delay - 1 } := by
  simp [cia_sdr_shift_out, hfl, hk]

theorem cia_sdr_shift_out_sp (c : cia_context) (hfl : c.sdr_alarm = true) :
    (cia_sdr_shift_out c).sp_out_state = decide (c.shifter &&& 0x80 ≠ 0) := by
  simp only [cia_sdr_shift_out, hfl]
  split_ifs <;> first | rfl | contradiction

theorem cia_iter_sdr_shift_mid (j : Nat) (c : cia_context) (hfl : c.sdr_alarm = true)
    (hsh : c.shifter < 65536) (hk : c.sr_bits + j < 8) :
    cia_iter cia_sdr_shift_out j c = cia_sdr_shifted c j := by
  induction j with
  | zero =>
    simp [cia_iter, cia_sdr_shifted, Nat.mod_eq_of_lt hsh]
  | succ j ih =>
    rw [cia_iter_succ_right, ih (by omega)]
    have hfl' : (cia_sdr_shifted c j).sdr_alarm = true := hfl
    have hk' : (cia_sdr_shifted c j).sr_bits + 1 < 8 := by
      show c.sr_bits + j + 1 < 8
      omega
    rw [cia_sdr_shift_out_mid _ hfl' hk']
    simp only [cia_sdr_shifted]
    have hb := bit7_shl c.shifter j (by omega)
    have e7 : 8 - (j + 1) = 7 - j := by omega
    simp only [shl_mod_shl, hb, e7, Nat.add_assoc, Nat.sub_sub, Nat.succ_ne_zero, if_false]

theorem cia_sdr_shift_out_last (c : cia_context) (hfl : c.sdr_alarm = true)
    (hk : c.sr_bits + 1 = 8) (hv : c.sdr_valid = true) (hff : c.sdr_force_finish = false) :
    (cia_sdr_shift_out c).shifter = reg c.c_cia CIA_SDR ∧
    (cia_sdr_shift_out c).sr_bits = 0 ∧
    (cia_sdr_shift_out c).sdr_valid = false ∧
    (cia_sdr_shift_out c).sdr_delay = c.sdr_delay - 1 ∧
    (cia_sdr_shift_out c).irqflags = c.irqflags ||| CIA_IM_SDR ∧
    (cia_sdr_shift_out c).sdr_alarm = true := by
  simp [cia_sdr_shift_out, hfl, hk, hv, hff, cia_set_int]

theorem cia_sdr_sp_after (c : cia_context) (i : Nat) (hfl : c.sdr_alarm = true)
    (hsh : c.shifter < 65536) (hk : c.sr_bits + i < 8) :
    (cia_iter cia_sdr_shift_out (i + 1) c).sp_out_state = c.shifter.testBit (7 - i) := by
  rw [cia_iter_succ_right, cia_iter_sdr_shift_mid i c hfl hsh hk,
    cia_sdr_shift_out_sp _ (by exact hfl)]
  exact bit7_shl c.shifter i (by omega)

theorem cia_sdr_out_bits_eq (n : Nat) (c : cia_context) :
    cia_sdr_out_bits n c =
      (List.range n).map (fun i => (cia_iter cia_sdr_shift_out (i + 1) c).sp_out_state) := by
  induction n generalizing c with
  | zero => rfl
  | succ n ih =>
    rw [cia_sdr_out_bits, ih, List.range_succ_eq_map, List.map_cons, List.map_map]
    rfl

theorem cia_sdr_out_bits_shifter (n : Nat) (c : cia_context) (hfl : c.sdr_alarm = true)
    (hsh : c.shifter < 65536) (hk : c.sr_bits + n ≤ 8) :
    cia_sdr_out_bits n c = (List.range n).map (fun i => c.shifter.testBit (7 - i)) := by
  rw [cia_sdr_out_bits_eq]
  apply List.map_congr_left
  intro i hi
  rw [List.mem_range] at hi
  exact cia_sdr_sp_after c i hfl hsh (by omega)

theorem and_two_pow_of_testBit (x k : Nat) (h : x.testBit k = true) : x &&& 2 ^ k = 2 ^ k := by
  rcases and_two_pow_cases x k with h1 | h1
  · exact absurd h1 ((and_two_pow_ne_zero_iff x k).2 h)
  · exact h1

theorem ciacore_store_sdr_in_flight (c : cia_context) (b : Nat)
    (hout : reg c.c_cia CIA_CRA &&& CIA_CRA_SPMODE = CIA_CRA_SPMODE_OUT)
    (hfl : c.sdr_alarm = true) :
    ciacore_store c CIA_SDR b =
      { c with c_cia := c.c_cia.set CIA_SDR (b % 256), sdr_valid := true,
               sdr_delay := 8 - c.sr_bits } := by
  have h : (12 : Nat) &&& 15 = 12 := by decide
  simp [ciacore_store, h, hout, hfl, CIA_PRA, CIA_DDRA, CIA_PRB, CIA_DDRB, CIA_TAL, CIA_TAH,
      CIA_TBL, CIA_TBH, CIA_TOD_TEN, CIA_TOD_HR, CIA_SDR]

theorem ciacore_read_sdr (c : cia_context) : (ciacore_read c CIA_SDR).1 = reg c.c_cia CIA_SDR := by
  have h : (12 : Nat) &&& 15 = 12 := by decide
  simp [ciacore_read, cia_reg_value, h, CIA_ICR, CIA_TOD_HR, CIA_TOD_TEN, CIA_PRA,
      CIA_PRB, CIA_TAL, CIA_TAH, CIA_TBL, CIA_TBH, CIA_SDR]

/-- C10: a store of a byte `b` to the SDR while a serial-out shift is in flight
leaves the shifter and the bit counter as they are, queues `b` and sets
`sdr_delay` to the number of shift events left.  Until the shift completes the
shifter is the same as without the store; the bits driven on SP by the remaining
events are the same as without the store, namely the remaining bits of the byte
in the shifter; and `sdr_delay` events after the store, when the shift
completes, `b` is in the shifter (if not force-finish), the bit counter is 0
and the SDR bit is latched. -/
theorem ciacore_store_sdr_deferred (ctx : cia_context) (b j : Nat)
    (hout : reg ctx.c_cia CIA_CRA &&& CIA_CRA_SPMODE = CIA_CRA_SPMODE_OUT)
    (hfl : ctx.sdr_alarm = true) (hk : ctx.sr_bits < 8) (hsh : ctx.shifter < 65536)
    (hlen : ctx.c_cia.length = 16) :
    ((ciacore_store ctx CIA_SDR b).shifter = ctx.shifter ∧
     (ciacore_store ctx CIA_SDR b).sr_bits = ctx.sr_bits ∧
     (ciacore_store ctx CIA_SDR b).sdr_valid = true ∧
     (ciacore_store ctx CIA_SDR b).sdr_delay = 8 - ctx.sr_bits ∧
     (ciacore_read (ciacore_store ctx CIA_SDR b) CIA_SDR).1 = b % 256) ∧
    (j < 8 - ctx.sr_bits →
      (cia_iter cia_sdr_shift_out j (ciacore_store ctx CIA_SDR b)).shifter =
        (cia_iter cia_sdr_shift_out j ctx).shifter ∧
      (cia_iter cia_sdr_shift_out j (ciacore_store ctx CIA_SDR b)).shifter =
        (ctx.shifter <<< j) % 65536 ∧
      (cia_iter cia_sdr_shift_out j (ciacore_store ctx CIA_SDR b)).sr_bits = ctx.sr_bits + j ∧
      (cia_iter cia_sdr_shift_out j (ciacore_store ctx CIA_SDR b)).sdr_delay =
        8 - ctx.sr_bits - j) ∧
    cia_sdr_out_bits (8 - ctx.sr_bits) (ciacore_store ctx CIA_SDR b) =
      cia_sdr_out_bits (8 - ctx.sr_bits) ctx ∧
    cia_sdr_out_bits (8 - ctx.sr_bits) (ciacore_store ctx CIA_SDR b) =
      (List.range (8 - ctx.sr_bits)).map (fun i => ctx.shifter.testBit (7 - i)) ∧
    (ctx.sdr_force_finish = false →
      (cia_iter cia_sdr_shift_out (ciacore_store ctx CIA_SDR b).sdr_delay
          (ciacore_store ctx CIA_SDR b)).shifter = b % 256 ∧
      (cia_iter cia_sdr_shift_out (ciacore_store ctx CIA_SDR b).sdr_delay
          (ciacore_store ctx CIA_SDR b)).sr_bits = 0 ∧
      (cia_iter cia_sdr_shift_out (ciacore_store ctx CIA_SDR b).sdr_delay
          (ciacore_store ctx CIA_SDR b)).sdr_valid = false ∧
      (cia_iter cia_sdr_shift_out (ciacore_store ctx CIA_SDR b).sdr_delay
          (ciacore_store ctx CIA_SDR b)).sdr_delay = 0 ∧
      (cia_iter cia_sdr_shift_out (ciacore_store ctx CIA_SDR b).sdr_delay
          (ciacore_store ctx CIA_SDR b)).irqflags &&& CIA_IM_SDR = CIA_IM_SDR) := by
  have hs := ciacore_store_sdr_in_flight ctx b hout hfl
  have s1 : (ciacore_store ctx CIA_SDR b).shifter = ctx.shifter := by rw [hs]
  have s2 : (ciacore_store ctx CIA_SDR b).sr_bits = ctx.sr_bits := by rw [hs]
  have s3 : (ciacore_store ctx CIA_SDR b).sdr_valid = true := by rw [hs]
  have s4 : (ciacore_store ctx CIA_SDR b).sdr_delay = 8 - ctx.sr_bits := by rw [hs]
  have s5 : (ciacore_store ctx CIA_SDR b).sdr_alarm = true := by rw [hs]; exact hfl
  have s6 : reg (ciacore_store ctx CIA_SDR b).c_cia CIA_SDR = b % 256 := by
    rw [hs]
    exact reg_set_eq _ _ _ (by rw [hlen]; decide)
  have s7 : (ciacore_store ctx CIA_SDR b).sdr_force_finish = ctx.sdr_force_finish := by rw [hs]
  have s8 : (ciacore_store ctx CIA_SDR b).irqflags = ctx.irqflags := by rw [hs]
  generalize ciacore_store ctx CIA_SDR b = ctx' at s1 s2 s3 s4 s5 s6 s7 s8 ⊢
  have hsh' : ctx'.shifter < 65536 := by rw [s1]; exact hsh
  refine ⟨⟨s1, s2, s3, s4, by rw [ciacore_read_sdr, s6]⟩, ?_, ?_, ?_, ?_⟩
  · intro hj
    rw [cia_iter_sdr_shift_mid j ctx' s5 hsh' (by rw [s2]; omega),
      cia_iter_sdr_shift_mid j ctx hfl hsh (by omega)]
    simp only [cia_sdr_shifted, s1, s2, s4, and_self]
  · rw [cia_sdr_out_bits_shifter _ ctx' s5 hsh' (by rw [s2]; omega),
      cia_sdr_out_bits_shifter _ ctx hfl hsh (by omega), s1]
  · rw [cia_sdr_out_bits_shifter _ ctx' s5 hsh' (by rw [s2]; omega), s1]
  · intro hff
    have e : ctx'.sdr_delay = (7 - ctx.sr_bits) + 1 := by rw [s4]; omega
    rw [e, cia_iter_succ_right, cia_iter_sdr_shift_mid _ ctx' s5 hsh' (by rw [s2]; omega)]
    obtain ⟨l1, l2, l3, l4, l5, _⟩ := cia_sdr_shift_out_last
      (cia_sdr_shifted ctx' (7 - ctx.sr_bits)) (by exact s5)
      (by show ctx'.sr_bits + (7 - ctx.sr_bits) + 1 = 8
          rw [s2]; omega)
      (by exact s3) (by show ctx'.sdr_force_finish = false
                        rw [s7]; exact hff)
    rw [l1, l2, l3, l4, l5]
    refine ⟨s6, rfl, rfl, ?_, ?_⟩
    · show ctx'.sdr_delay - (7 - ctx.sr_bits) - 1 = 0
      rw [s4]; omega
    · apply and_two_pow_of_testBit _ 3
      show (ctx'.irqflags ||| CIA_IM_SDR).testBit 3 = true
      have h8 : CIA_IM_SDR.testBit 3 = true := by decide
      rw [Nat.testBit_or, h8, Bool.or_true]

/-- Witness for C10: 0xA5 is stored while 0x3C is being shifted out; it reaches
the shifter when the shift completes. -/
theorem ciacore_store_sdr_deferred_witness :
    reg cia_sdr_in_flight_example.c_cia CIA_CRA &&& CIA_CRA_SPMODE = CIA_CRA_SPMODE_OUT ∧
    cia_sdr_in_flight_example.sdr_alarm = true ∧
    cia_sdr_in_flight_example.sr_bits < 8 ∧
    cia_sdr_in_flight_example.shifter < 65536 ∧
    cia_sdr_in_flight_example.c_cia.length = 16 ∧
    cia_sdr_in_flight_example.sdr_force_finish = false ∧
    (cia_iter cia_sdr_shift_out (ciacore_store cia_sdr_in_flight_example CIA_SDR 0xA5).sdr_delay
        (ciacore_store cia_sdr_in_flight_example CIA_SDR 0xA5)).shifter = 0xA5 % 256 :=
  ⟨by decide, by decide, by decide, by decide, by decide, by decide,
   ((ciacore_store_sdr_deferred cia_sdr_in_flight_example 0xA5 0 (by decide) (by decide)
      (by decide) (by decide) (by decide)).2.2.2.2 (by decide)).1⟩

/-! ### Control-register fields (C13) and the Timer B bug marker (C14) -/

theorem cia_or_all_decode (fields : List Nat) (cr : Nat) :
    cia_or_all (cia_cr_decode fields cr) = cr &&& cia_or_all fields := by
  induction fields with
  | nil => simp [cia_or_all, cia_cr_decode]
  | cons m r ih =>
    simp only [cia_or_all, cia_cr_decode, List.map_cons, List.foldr_cons] at ih ⊢
    rw [ih, Nat.and_or_distrib_left]

/-- C13: the bit fields of each control register are pairwise disjoint and OR to
0xFF, so every byte is the OR of its fields (no overlap, no gap); every named
field value lies inside the mask of its field; the four Timer B input modes are
pairwise distinct. -/
theorem cia_cr_fields_partition (cr : Nat) :
    cia_cra_fields.Pairwise (fun a b => a &&& b = 0) ∧
    cia_or_all cia_cra_fields = 0xff ∧
    cia_crb_fields.Pairwise (fun a b => a &&& b = 0) ∧
    cia_or_all cia_crb_fields = 0xff ∧
    cia_or_all (cia_cr_decode cia_cra_fields cr) = cr % 256 ∧
    cia_or_all (cia_cr_decode cia_crb_fields cr) = cr % 256 ∧
    (∀ p ∈ cia_cr_field_values, p.1 &&& p.2 = p.1) ∧
    cia_crb_inmodes.Nodup := by
  have ha : cia_or_all cia_cra_fields = 0xff := by decide
  have hb : cia_or_all cia_crb_fields = 0xff := by decide
  have hm : cr &&& 0xff = cr % 256 := Nat.and_pow_two_sub_one_eq_mod cr 8
  refine ⟨by decide, ha, by decide, hb, ?_, ?_, by decide, by decide⟩
  · rw [cia_or_all_decode, ha, hm]
  · rw [cia_or_all_decode, hb, hm]

/-- C14: the five interrupt sources are distinct single bits with OR 0x1f, disjoint
from `CIA_IM_SET` and from `CIA_IM_TBB`; truncating any `irqflags` value to a byte
drops the Timer B bug marker (the byte is the same with or without it), the ICR
byte that a read returns never carries it, while `f AND CIA_IM_TBB` on the full
value detects it (it is bit 8). -/
theorem cia_im_tbb_not_in_icr_byte (f : Nat) (ctx : cia_context) :
    cia_im_sources.Nodup ∧
    (∀ s ∈ cia_im_sources, ∃ k, k < 5 ∧ s = 2 ^ k) ∧
    cia_or_all cia_im_sources = 0x1f ∧
    (∀ s ∈ cia_im_sources, s &&& CIA_IM_SET = 0 ∧ s &&& CIA_IM_TBB = 0) ∧
    CIA_IM_SET &&& CIA_IM_TBB = 0 ∧
    f % 256 &&& CIA_IM_TBB = 0 ∧
    (f ||| CIA_IM_TBB) % 256 = f % 256 ∧
    (f ||| CIA_IM_TBB) &&& CIA_IM_TBB = CIA_IM_TBB ∧
    (f &&& CIA_IM_TBB ≠ 0 ↔ f.testBit 8 = true) ∧
    (ciacore_read ctx CIA_ICR).1 &&& CIA_IM_TBB = 0 := by
  have hlow : ∀ x : Nat, x < 256 → x &&& CIA_IM_TBB = 0 := by
    intro x hx
    apply Nat.eq_of_testBit_eq
    intro i
    rw [Nat.testBit_and, Nat.zero_testBit]
    by_cases hi : i = 8
    · subst hi
      rw [Nat.testBit_lt_two_pow (by simpa using hx)]; rfl
    · have : CIA_IM_TBB.testBit i = false := by
        show (2 ^ 8).testBit i = false
        rw [Nat.testBit_two_pow]; simp; omega
      rw [this]; simp
  refine ⟨by decide, by decide, by decide, by decide, by decide, ?_, ?_, ?_, ?_, ?_⟩
  · exact hlow _ (Nat.mod_lt f (by norm_num))
  · apply Nat.eq_of_testBit_eq
    intro i
    have e : (256 : Nat) = 2 ^ 8 := by norm_num
    rw [e, Nat.testBit_mod_two_pow, Nat.testBit_mod_two_pow, Nat.testBit_or]
    by_cases hi : i < 8
    · have : CIA_IM_TBB.testBit i = false := by
        show (2 ^ 8).testBit i = false
        rw [Nat.testBit_two_pow]; simp; omega
      simp [this]
    · simp [hi]
  · apply and_two_pow_of_testBit _ 8
    rw [Nat.testBit_or]
    have : CIA_IM_TBB.testBit 8 = true := by decide
    rw [this, Bool.or_true]
  · exact and_two_pow_ne_zero_iff f 8
  · rw [ciacore_read_icr_eq]
    exact hlow _ (cia_icr_value_lt ctx)

/-! ### Setup with an invalid model tag (C12) -/

theorem cia_model_valid_iff (model : Int) :
    cia_model_valid model = true ↔ model = CIA_MODEL_6526 ∨ model = CIA_MODEL_6526A := by
  simp [cia_model_valid]

/-- C12: with a model tag other than `CIA_MODEL_6526` and `CIA_MODEL_6526A` in the context,
`ciacore_setup_context` and `ciacore_init` both end in the configuration error, which carries
the offending tag, and neither hands back a context.  Whenever either of them does hand back
a context, the tag in it is the caller's own, one of the two valid ones, never a default put
in its place. -/
theorem ciacore_setup_invalid_model (ctx : cia_context)
    (hmodel : ctx.model ≠ CIA_MODEL_6526 ∧ ctx.model ≠ CIA_MODEL_6526A) :
    ciacore_setup_context ctx = .error (.configuration ctx.model) ∧
    ciacore_init ctx = .error (.configuration ctx.model) ∧
    (∀ c, ciacore_setup_context ctx ≠ .ok c) ∧ (∀ c, ciacore_init ctx ≠ .ok c) ∧
    (∀ c0 c, ciacore_setup_context c0 = .ok c ∨ ciacore_init c0 = .ok c →
      c = c0 ∧ cia_model_valid c.model = true) := by
  have hinv : cia_model_valid ctx.model = false := by
    rw [← Bool.not_eq_true, cia_model_valid_iff]
    exact fun h => h.elim hmodel.1 hmodel.2
  refine ⟨by simp [ciacore_setup_context, hinv], by simp [ciacore_init, hinv],
    by simp [ciacore_setup_context, hinv], by simp [ciacore_init, hinv], ?_⟩
  intro c0 c h
  unfold ciacore_setup_context ciacore_init at h
  by_cases hv : cia_model_valid c0.model = true
  · simp only [hv, if_true, or_self, Except.ok.injEq] at h
    subst h
    exact ⟨rfl, hv⟩
  · simp [hv] at h

/-- Witness for C12: a context whose model tag is 2. -/
theorem ciacore_setup_invalid_model_witness :
    ciacore_setup_context { cia_ctx0 with model := 2 } = .error (.configuration 2) ∧
    ciacore_init { cia_ctx0 with model := 2 } = .error (.configuration 2) ∧
    (∀ c, ciacore_setup_context { cia_ctx0 with model := 2 } ≠ .ok c) ∧
    (∀ c, ciacore_init { cia_ctx0 with model := 2 } ≠ .ok c) ∧
    (∀ c0 c, ciacore_setup_context c0 = .ok c ∨ ciacore_init c0 = .ok c →
      c = c0 ∧ cia_model_valid c.model = true) :=
  ciacore_setup_invalid_model { cia_ctx0 with model := 2 } (by decide)

/-! ### Snapshot round trip (C11) -/

theorem cia_is_bytes_iff (n : Nat) (l : List Nat) :
    cia_is_bytes n l = true ↔ l.length = n ∧ ∀ b ∈ l, b < 256 := by
  simp [cia_is_bytes]

theorem smr_ba_smw_ba (n : Nat) (l rest : List Nat) (h : cia_is_bytes n l = true) :
    smr_ba n (smw_ba l ++ rest) = some (l, rest) := by
  obtain ⟨hlen, hb⟩ := (cia_is_bytes_iff n l).1 h
  have hmap : smw_ba l = l := by
    unfold smw_ba
    conv_rhs => rw [← List.map_id l]
    exact List.map_congr_left fun b hb1 => Nat.mod_eq_of_lt (hb b hb1)
  rw [hmap, smr_ba, if_pos (by simp [hlen])]
  simp [← hlen]

theorem smr_b_smw_b (v : Nat) (rest : List Nat) (h : v < 256) :
    smr_b (smw_b v ++ rest) = some (v, rest) := by
  simp [smw_b, smr_b, Nat.mod_eq_of_lt h]

theorem smr_w_smw_w (v : Nat) (rest : List Nat) (h : v < 65536) :
    smr_w (smw_w v ++ rest) = some (v, rest) := by
  simp only [smw_w, smr_w, List.cons_append, List.nil_append]
  congr 2; omega

theorem smr_dw_smw_dw (v : Nat) (rest : List Nat) (h : v < 2 ^ 32) :
    smr_dw (smw_dw v ++ rest) = some (v, rest) := by
  simp only [smw_dw, smr_dw, List.cons_append, List.nil_append]
  congr 2; omega

theorem smr_bool_smw_bool (b : Bool) (rest : List Nat) :
    smr_bool (smw_bool b ++ rest) = some (b, rest) := by
  cases b <;> simp [smw_bool, smr_bool]

theorem smr_slots_smw_slots (l : List (Option Nat)) (rest : List Nat)
    (h : l.all cia_is_slot = true) :
    smr_slots l.length (smw_slots l ++ rest) = some (l, rest) := by
  induction l with
  | nil => simp [smw_slots, smr_slots]
  | cons o r ih =>
    have hr : r.all cia_is_slot = true := by
      simp only [List.all_cons, Bool.and_eq_true] at h; exact h.2
    have ho : cia_is_slot o = true := by
      simp only [List.all_cons, Bool.and_eq_true] at h; exact h.1
    cases o with
    | none => simp [smw_slots, smr_slots, ih hr]
    | some v =>
      have hv : v < 256 := by simpa [cia_is_slot] using ho
      simp [smw_slots, smr_slots, ih hr, Nat.mod_eq_of_lt hv]

theorem cia_in_range_iff (c : cia_context) :
    cia_in_range c = true ↔
      cia_is_bytes 16 c.c_cia = true ∧ c.irqflags < 2 ^ 32 ∧ c.irq_enabled < 256 ∧
      c.tat < 2 ^ 32 ∧ c.tbt < 2 ^ 32 ∧ c.sr_bits < 2 ^ 32 ∧ c.shifter < 65536 ∧
      c.sdr_delay < 2 ^ 32 ∧ c.old_pa < 256 ∧ c.old_pb < 256 ∧
      cia_is_bytes 4 c.todalarm = true ∧ cia_is_bytes 4 c.todlatch = true ∧
      c.todtickcounter < 256 ∧ c.ta.cnt < 65536 ∧ c.ta.latch < 65536 ∧
      c.tb.cnt < 65536 ∧ c.tb.latch < 65536 ∧
      c.todwrbuf.length = 4 ∧ c.todwrbuf.all cia_is_slot = true := by
  simp only [cia_in_range, Bool.and_eq_true, decide_eq_true_eq, and_assoc]

theorem cia_snapshot_parse_data (fresh s : cia_context) (h : cia_in_range s = true) :
    cia_snapshot_parse fresh (cia_snapshot_data s) =
      some { s with model := fresh.model, pa_in := fresh.pa_in, pb_in := fresh.pb_in } := by
  obtain ⟨h1, h2, h3, h4, h5, h6, h7, h8, h9, h10, h11, h12, h13, h14, h15, h16, h17, h18, h19⟩ :=
    (cia_in_range_iff s).1 h
  have hs := smr_slots_smw_slots s.todwrbuf [] h19
  rw [h18, List.append_nil] at hs
  simp only [cia_snapshot_parse, cia_snapshot_data, smr_bind,
    smr_ba_smw_ba _ _ _ h1, smr_ba_smw_ba _ _ _ h11, smr_ba_smw_ba _ _ _ h12,
    smr_bool_smw_bool, smr_dw_smw_dw _ _ h2, smr_b_smw_b _ _ h3, smr_dw_smw_dw _ _ h4,
    smr_dw_smw_dw _ _ h5, smr_dw_smw_dw _ _ h6, smr_w_smw_w _ _ h7, smr_dw_smw_dw _ _ h8,
    smr_b_smw_b _ _ h9, smr_b_smw_b _ _ h10, smr_b_smw_b _ _ h13, smr_w_smw_w _ _ h14,
    smr_w_smw_w _ _ h15, smr_w_smw_w _ _ h16, smr_w_smw_w _ _ h17, hs]

theorem reg_lt_of_is_bytes (n : Nat) (l : List Nat) (i : Nat) (h : cia_is_bytes n l = true) :
    reg l i < 256 := by
  obtain ⟨_, hb⟩ := (cia_is_bytes_iff n l).1 h
  unfold reg
  by_cases hi : i < l.length
  · rw [List.getD_eq_getElem _ _ hi]
    exact hb _ (List.getElem_mem _)
  · rw [List.getD_eq_default _ _ (by omega)]
    decide

theorem cia_is_bytes_set (n : Nat) (l : List Nat) (i v : Nat) (h : cia_is_bytes n l = true)
    (hv : v < 256) : cia_is_bytes n (l.set i v) = true := by
  obtain ⟨hlen, hb⟩ := (cia_is_bytes_iff n l).1 h
  refine (cia_is_bytes_iff n _).2 ⟨by simp [hlen], fun b hb1 => ?_⟩
  rcases List.mem_or_eq_of_mem_set hb1 with h1 | h1
  · exact hb b h1
  · rw [h1]; exact hv

theorem cia_slots_set (l : List (Option Nat)) (i v : Nat) (h : l.all cia_is_slot = true)
    (hv : v < 256) : (l.set i (some v)).all cia_is_slot = true := by
  rw [List.all_eq_true] at h ⊢
  intro o ho
  rcases List.mem_or_eq_of_mem_set ho with h1 | h1
  · exact h o h1
  · rw [h1]; simpa [cia_is_slot] using hv

theorem cia_slots_clear (l : List (Option Nat)) :
    (l.map fun _ => (none : Option Nat)).all cia_is_slot = true := by
  rw [List.all_eq_true]
  intro o ho
  obtain ⟨_, _, rfl⟩ := List.mem_map.1 ho
  rfl

theorem or_lt_256 (a b : Nat) (ha : a < 256) (hb : b < 256) : a ||| b < 256 :=
  Nat.or_lt_two_pow (n := 8) ha hb

theorem and_lt_left (a b n : Nat) (ha : a < n) : a &&& b < n :=
  lt_of_le_of_lt Nat.and_le_left ha

theorem cia_set_int_in_range (c : cia_context) (src : Nat) (hs : src < 2 ^ 32)
    (h : cia_in_range c = true) : cia_in_range (cia_set_int c src) = true := by
  rw [cia_in_range_iff] at h ⊢
  obtain ⟨h1, h2, h3⟩ := h
  exact ⟨h1, Nat.or_lt_two_pow h2 hs, h3⟩

theorem cia_sdr_shift_out_in_range (c : cia_context) (h : cia_in_range c = true) :
    cia_in_range (cia_sdr_shift_out c) = true := by
  have h0 := h
  rw [cia_in_range_iff] at h
  obtain ⟨h1, h2, h3, h4, h5, h6, h7, h8, h9, h10, h11, h12, h13, h14, h15, h16, h17, h18, h19⟩ := h
  have hr := reg_lt_of_is_bytes 16 c.c_cia CIA_SDR h1
  have hi : c.irqflags ||| CIA_IM_SDR < 2 ^ 32 := Nat.or_lt_two_pow h2 (by decide)
  simp only [cia_sdr_shift_out]
  split_ifs with ha hb hc <;> (try with_reducible exact h0) <;>
  · rw [cia_in_range_iff]
    try dsimp only [cia_set_int]
    refine ⟨?_, ?_, ?_, ?_, ?_, ?_, ?_, ?_, ?_, ?_, ?_, ?_, ?_, ?_, ?_, ?_, ?_, ?_, ?_⟩ <;>
      first
      | omega
      | with_reducible assumption

theorem cia_in_range_ite (p : Prop) [Decidable p] (a b : cia_context)
    (ha : cia_in_range a = true) (hb : cia_in_range b = true) :
    cia_in_range (if p then a else b) = true := by
  split_ifs <;> assumption

theorem cia_sdr_shift_in_in_range (c : cia_context) (h : cia_in_range c = true) :
    cia_in_range (cia_sdr_shift_in c) = true := by
  rw [cia_in_range_iff] at h
  obtain ⟨h1, h2, h3, h4, h5, h6, h7, h8, h9, h10, h11, h12, h13, h14, h15, h16, h17, h18, h19⟩ := h
  have hi : c.irqflags ||| CIA_IM_SDR < 2 ^ 32 := Nat.or_lt_two_pow h2 (by decide)
  simp only [cia_sdr_shift_in]
  split_ifs <;>
  ·
    rw [cia_in_range_iff]
    try dsimp only [cia_set_int]
    refine ⟨?_, ?_, ?_, ?_, ?_, ?_, ?_, ?_, ?_, ?_, ?_, ?_, ?_, ?_, ?_, ?_, ?_, ?_, ?_⟩ <;>
      first
      | omega
      | with_reducible assumption
      | exact cia_is_bytes_set _ _ _ _ (by assumption) (by omega)

theorem cia_tb_underflow_in_range (c : cia_context) (h : cia_in_range c = true) :
    cia_in_range (cia_tb_underflow c) = true := by
  rw [cia_in_range_iff] at h
  obtain ⟨h1, h2, h3, h4, h5, h6, h7, h8, h9, h10, h11, h12, h13, h14, h15, h16, h17, h18, h19⟩ := h
  have hi : c.irqflags ||| CIA_IM_TB < 2 ^ 32 := Nat.or_lt_two_pow h2 (by decide)
  have hr : reg c.c_cia CIA_CRB &&& 0xfe < 256 :=
    and_lt_left _ _ _ (reg_lt_of_is_bytes 16 _ _ h1)
  simp only [cia_tb_underflow]
  split_ifs <;>
  ·
    rw [cia_in_range_iff]
    try dsimp only [cia_set_int]
    refine ⟨?_, ?_, ?_, ?_, ?_, ?_, ?_, ?_, ?_, ?_, ?_, ?_, ?_, ?_, ?_, ?_, ?_, ?_, ?_⟩ <;>
      first
      | omega
      | with_reducible assumption
      | exact cia_is_bytes_set _ _ _ _ (by assumption) (by omega)

theorem ciat_tick_in_range (t : ciat) (h1 : t.cnt < 65536) (h2 : t.latch < 65536) :
    (ciat_tick t).1.cnt < 65536 ∧ (ciat_tick t).1.latch < 65536 := by
  unfold ciat_tick
  split_ifs
  · exact ⟨h2, h2⟩
  · exact ⟨by dsimp only; omega, h2⟩

theorem cia_tb_tick_in_range (c : cia_context) (h : cia_in_range c = true) :
    cia_in_range (cia_tb_tick c) = true := by
  have h0 := h
  rw [cia_in_range_iff] at h
  obtain ⟨h1, h2, h3, h4, h5, h6, h7, h8, h9, h10, h11, h12, h13, h14, h15, h16, h17, h18, h19⟩ := h
  obtain ⟨ht1, ht2⟩ := ciat_tick_in_range c.tb h16 h17
  simp only [cia_tb_tick]
  split_ifs <;> (try with_reducible exact h0) <;> (try with_reducible apply cia_tb_underflow_in_range) <;>
  ·
    rw [cia_in_range_iff]
    try dsimp only [cia_set_int]
    refine ⟨?_, ?_, ?_, ?_, ?_, ?_, ?_, ?_, ?_, ?_, ?_, ?_, ?_, ?_, ?_, ?_, ?_, ?_, ?_⟩ <;>
      first
      | omega
      | with_reducible assumption

theorem cia_ta_underflow_in_range (c : cia_context) (h : cia_in_range c = true) :
    cia_in_range (cia_ta_underflow c) = true := by
  rw [cia_in_range_iff] at h
  obtain ⟨h1, h2, h3, h4, h5, h6, h7, h8, h9, h10, h11, h12, h13, h14, h15, h16, h17, h18, h19⟩ := h
  have hi : c.irqflags ||| CIA_IM_TA < 2 ^ 32 := Nat.or_lt_two_pow h2 (by decide)
  have hr : reg c.c_cia CIA_CRA &&& 0xfe < 256 :=
    and_lt_left _ _ _ (reg_lt_of_is_bytes 16 _ _ h1)
  simp only [cia_ta_underflow]
  split_ifs <;> (try with_reducible apply cia_sdr_shift_out_in_range) <;>
    (try with_reducible apply cia_tb_tick_in_range) <;>
  ·
    rw [cia_in_range_iff]
    try dsimp only [cia_set_int]
    refine ⟨?_, ?_, ?_, ?_, ?_, ?_, ?_, ?_, ?_, ?_, ?_, ?_, ?_, ?_, ?_, ?_, ?_, ?_, ?_⟩ <;>
      first
      | omega
      | with_reducible assumption
      | exact cia_is_bytes_set _ _ _ _ (by assumption) (by omega)

theorem cia_ta_tick_in_range (c : cia_context) (h : cia_in_range c = true) :
    cia_in_range (cia_ta_tick c) = true := by
  have h0 := h
  rw [cia_in_range_iff] at h
  obtain ⟨h1, h2, h3, h4, h5, h6, h7, h8, h9, h10, h11, h12, h13, h14, h15, h16, h17, h18, h19⟩ := h
  obtain ⟨ht1, ht2⟩ := ciat_tick_in_range c.ta h14 h15
  simp only [cia_ta_tick]
  split_ifs <;> (try with_reducible exact h0) <;> (try with_reducible apply cia_ta_underflow_in_range) <;>
  ·
    rw [cia_in_range_iff]
    try dsimp only [cia_set_int]
    refine ⟨?_, ?_, ?_, ?_, ?_, ?_, ?_, ?_, ?_, ?_, ?_, ?_, ?_, ?_, ?_, ?_, ?_, ?_, ?_⟩ <;>
      first
      | omega
      | with_reducible assumption

theorem cia_phi2_in_range (c : cia_context) (h : cia_in_range c = true) :
    cia_in_range (cia_phi2 c) = true := by
  unfold cia_phi2
  exact cia_in_range_ite _ _ _ (cia_tb_tick_in_range _ (cia_in_range_ite _ _ _
    (cia_ta_tick_in_range _ h) h)) (cia_in_range_ite _ _ _ (cia_ta_tick_in_range _ h) h)

theorem ciacore_set_cnt_in_range (c : cia_context) (data : Bool) (h : cia_in_range c = true) :
    cia_in_range (ciacore_set_cnt c data) = true := by
  have h0 : cia_in_range { c with cnt_in_state := data } = true := h
  simp only [ciacore_set_cnt]
  split_ifs <;> (try with_reducible apply cia_sdr_shift_in_in_range) <;>
    (try with_reducible apply cia_tb_tick_in_range) <;>
    (try with_reducible apply cia_ta_tick_in_range) <;>
    exact h0

theorem ciacore_set_sp_in_range (c : cia_context) (data : Bool) (h : cia_in_range c = true) :
    cia_in_range (ciacore_set_sp c data) = true := h

theorem ciacore_set_flag_in_range (c : cia_context) (h : cia_in_range c = true) :
    cia_in_range (ciacore_set_flag c) = true :=
  cia_set_int_in_range c CIA_IM_FLG (by decide) h

theorem tod_inc_ten_lt (b : Nat) : (tod_inc_ten b).1 < 256 := by
  unfold tod_inc_ten
  split_ifs
  · decide
  · dsimp only; omega

theorem tod_inc_60_lt (b : Nat) : (tod_inc_60 b).1 < 256 := by
  simp only [tod_inc_60]
  split_ifs
  · decide
  · dsimp only; omega
  · dsimp only; omega

theorem tod_inc_hr_lt (b : Nat) : tod_inc_hr b < 256 := by
  have hpm : b &&& 0x80 < 256 := lt_of_le_of_lt Nat.and_le_right (by decide)
  have hx : (b &&& 0x80) ^^^ 0x80 < 256 := Nat.xor_lt_two_pow (n := 8) hpm (by decide)
  have hh : (b &&& 0x1f) + 1 &&& 0x1f < 256 := lt_of_le_of_lt Nat.and_le_right (by decide)
  simp only [tod_inc_hr]
  split_ifs
  · exact or_lt_256 _ _ hpm (by decide)
  · exact or_lt_256 _ _ hx (by decide)
  · exact or_lt_256 _ _ hpm (by decide)
  · exact or_lt_256 _ _ hpm hh

theorem tod_increment_is_bytes (n : Nat) (c : List Nat) (h : cia_is_bytes n c = true) :
    cia_is_bytes n (tod_increment c) = true := by
  simp only [tod_increment]
  split_ifs <;>
    repeat (first
      | exact h
      | apply cia_is_bytes_set
      | exact tod_inc_ten_lt _
      | exact tod_inc_60_lt _
      | exact tod_inc_hr_lt _)

theorem tod_wrbuf_apply_is_bytes (n : Nat) (w : List (Option Nat)) (i : Nat) (c : List Nat)
    (hw : w.all cia_is_slot = true) (h : cia_is_bytes n c = true) :
    cia_is_bytes n (tod_wrbuf_apply w i c) = true := by
  induction w generalizing i c with
  | nil => exact h
  | cons o r ih =>
    simp only [List.all_cons, Bool.and_eq_true] at hw
    cases o with
    | none => exact ih _ _ hw.2 h
    | some v =>
      exact ih _ _ hw.2 (cia_is_bytes_set n c i v h (by simpa [cia_is_slot] using hw.1))

theorem cia_tod_tick_in_range (c : cia_context) (h : cia_in_range c = true) :
    cia_in_range (cia_tod_tick c) = true := by
  have h0 := h
  rw [cia_in_range_iff] at h
  obtain ⟨h1, h2, h3, h4, h5, h6, h7, h8, h9, h10, h11, h12, h13, h14, h15, h16, h17, h18, h19⟩ := h
  have hi : c.irqflags ||| CIA_IM_TOD < 2 ^ 32 := Nat.or_lt_two_pow h2 (by decide)
  have hc := tod_increment_is_bytes 16 _ (tod_wrbuf_apply_is_bytes 16 c.todwrbuf CIA_TOD_TEN
    c.c_cia h19 h1)
  have hl : (c.todwrbuf.map fun _ => (none : Option Nat)).length = 4 := by
    rw [List.length_map]; exact h18
  have hs := cia_slots_clear c.todwrbuf
  simp only [cia_tod_tick]
  split_ifs
  · exact h0
  all_goals
    rw [cia_in_range_iff]
    try dsimp only [cia_set_int]
    refine ⟨?_, ?_, ?_, ?_, ?_, ?_, ?_, ?_, ?_, ?_, ?_, ?_, ?_, ?_, ?_, ?_, ?_, ?_, ?_⟩ <;>
      first
      | omega
      | with_reducible assumption

theorem cia_tod_divisor_le (cra : Nat) : cia_tod_divisor cra ≤ 6 := by
  unfold cia_tod_divisor
  split_ifs <;> decide

theorem cia_tod_subtick_in_range (c : cia_context) (h : cia_in_range c = true) :
    cia_in_range (cia_tod_subtick c) = true := by
  have h0 := h
  have hd := cia_tod_divisor_le (reg c.c_cia CIA_CRA)
  rw [cia_in_range_iff] at h
  obtain ⟨h1, h2, h3, h4, h5, h6, h7, h8, h9, h10, h11, h12, h13, h14, h15, h16, h17, h18, h19⟩ := h
  simp only [cia_tod_subtick]
  split_ifs
  · exact h0
  · apply cia_tod_tick_in_range
    rw [cia_in_range_iff]
    try dsimp only [cia_set_int]
    refine ⟨?_, ?_, ?_, ?_, ?_, ?_, ?_, ?_, ?_, ?_, ?_, ?_, ?_, ?_, ?_, ?_, ?_, ?_, ?_⟩ <;>
      first
      | omega
      | with_reducible assumption
  · rw [cia_in_range_iff]
    try dsimp only [cia_set_int]
    refine ⟨?_, ?_, ?_, ?_, ?_, ?_, ?_, ?_, ?_, ?_, ?_, ?_, ?_, ?_, ?_, ?_, ?_, ?_, ?_⟩ <;>
      first
      | omega
      | with_reducible assumption

theorem ciacore_read_in_range (c : cia_context) (addr : Nat) (h : cia_in_range c = true) :
    cia_in_range (ciacore_read c addr).2 = true := by
  have h0 := h
  rw [cia_in_range_iff] at h
  obtain ⟨h1, h2, h3, h4, h5, h6, h7, h8, h9, h10, h11, h12, h13, h14, h15, h16, h17, h18, h19⟩ := h
  have hl : cia_is_bytes 4 [reg c.c_cia CIA_TOD_TEN, reg c.c_cia CIA_TOD_SEC,
      reg c.c_cia CIA_TOD_MIN, reg c.c_cia CIA_TOD_HR] = true := by
    rw [cia_is_bytes_iff]
    refine ⟨rfl, fun b hb => ?_⟩
    simp only [List.mem_cons, List.mem_singleton, List.not_mem_nil, or_false] at hb
    rcases hb with rfl | rfl | rfl | rfl <;> exact reg_lt_of_is_bytes 16 _ _ h1
  simp only [ciacore_read]
  split_ifs <;> (try with_reducible exact h0) <;>
  · rw [cia_in_range_iff]
    try dsimp only [cia_set_int]
    refine ⟨?_, ?_, ?_, ?_, ?_, ?_, ?_, ?_, ?_, ?_, ?_, ?_, ?_, ?_, ?_, ?_, ?_, ?_, ?_⟩ <;>
      first
      | omega
      | with_reducible assumption

theorem ciat_store_latch_in_range (t : ciat) (started high : Bool) (byte : Nat)
    (h1 : t.cnt < 65536) (_h2 : t.latch < 65536) (hb : byte < 256) :
    (ciat_store_latch t started high byte).cnt < 65536 ∧
    (ciat_store_latch t started high byte).latch < 65536 := by
  have ha : (t.latch % 256) ||| (byte <<< 8) < 65536 :=
    Nat.or_lt_two_pow (n := 16) (by omega) (by rw [Nat.shiftLeft_eq]; omega)
  have hc : (t.latch / 256 % 256) <<< 8 ||| byte < 65536 :=
    Nat.or_lt_two_pow (n := 16) (by rw [Nat.shiftLeft_eq]; omega) (by omega)
  simp only [ciat_store_latch]
  constructor <;> split_ifs <;> assumption

theorem ciat_store_cr_in_range (t : ciat) (byte : Nat)
    (h1 : t.cnt < 65536) (h2 : t.latch < 65536) :
    (ciat_store_cr t byte).cnt < 65536 ∧ (ciat_store_cr t byte).latch < 65536 := by
  unfold ciat_store_cr
  split_ifs
  · exact ⟨h2, h2⟩
  · exact ⟨h1, h2⟩

theorem ciacore_store_in_range (c : cia_context) (addr data : Nat)
    (h : cia_in_range c = true) : cia_in_range (ciacore_store c addr data) = true := by
  rw [cia_in_range_iff] at h
  obtain ⟨h1, h2, h3, h4, h5, h6, h7, h8, h9, h10, h11, h12, h13, h14, h15, h16, h17, h18, h19⟩ := h
  have hb : data % 256 < 256 := Nat.mod_lt _ (by decide)
  have hset : ∀ i, cia_is_bytes 16 (c.c_cia.set i (data % 256)) = true :=
    fun i => cia_is_bytes_set 16 _ i _ h1 hb
  have hold : ∀ i j k, reg (c.c_cia.set i (data % 256)) j |||
      (0xff ^^^ reg (c.c_cia.set i (data % 256)) k) < 256 := fun i j k =>
    or_lt_256 _ _ (reg_lt_of_is_bytes 16 _ _ (hset i))
      (Nat.xor_lt_two_pow (n := 8) (by decide) (reg_lt_of_is_bytes 16 _ _ (hset i)))
  have hm : (if data % 256 &&& CIA_IM_SET ≠ 0 then c.irq_enabled ||| (data % 256 &&& 0x1f)
      else c.irq_enabled &&& (0xff ^^^ (data % 256 &&& 0x1f))) < 256 := by
    split_ifs
    · exact or_lt_256 _ _ h3 (and_lt_left _ _ _ hb)
    · exact and_lt_left _ _ _ h3
  unfold ciacore_store
  dsimp only
  repeat' (with_reducible apply cia_in_range_ite)
  all_goals
    rw [cia_in_range_iff]
    try dsimp only
    refine ⟨?_, ?_, ?_, ?_, ?_, ?_, ?_, ?_, ?_, ?_, ?_, ?_, ?_, ?_, ?_, ?_, ?_, ?_, ?_⟩ <;>
      first
      | omega
      | with_reducible assumption
      | exact hset _
      | exact hold _ _ _
      | exact cia_is_bytes_set _ _ _ _ (by assumption) (and_lt_left _ _ _ hb)
      | exact cia_is_bytes_set _ _ _ _ (by assumption) hb
      | exact (ciat_store_latch_in_range _ _ _ _ (by assumption) (by assumption) hb).1
      | exact (ciat_store_latch_in_range _ _ _ _ (by assumption) (by assumption) hb).2
      | exact (ciat_store_cr_in_range _ _ (by assumption) (by assumption)).1
      | exact (ciat_store_cr_in_range _ _ (by assumption) (by assumption)).2
      | exact cia_slots_set _ _ _ (by assumption) hb
      | (rw [List.length_set]; assumption)

theorem cia_step_in_range (c : cia_context) (op : cia_op) (h : cia_in_range c = true) :
    cia_in_range (cia_step c op).2 = true := by
  cases op with
  | store a v => exact ciacore_store_in_range c a v h
  | read a => exact ciacore_read_in_range c a h
  | peek a => exact h
  | ta_tick => exact cia_ta_tick_in_range c h
  | tb_tick => exact cia_tb_tick_in_range c h
  | phi2 => exact cia_phi2_in_range c h
  | tod_tick => exact cia_tod_tick_in_range c h
  | tod_subtick => exact cia_tod_subtick_in_range c h
  | set_cnt d => exact ciacore_set_cnt_in_range c d h
  | set_sp d => exact h
  | set_flag => exact ciacore_set_flag_in_range c h

theorem cia_run_in_range (ops : List cia_op) (c : cia_context) (h : cia_in_range c = true) :
    cia_in_range (cia_run ops c).2 = true := by
  induction ops generalizing c with
  | nil => exact h
  | cons op ops ih => exact ih _ (cia_step_in_range c op h)

theorem ciacore_snapshot_read_write (fresh s : cia_context) (h : cia_in_range s = true) :
    ciacore_snapshot_read_module fresh (ciacore_snapshot_write_module s []).2 =
      (0, { s with model := fresh.model, pa_in := fresh.pa_in, pb_in := fresh.pb_in }) := by
  have hfind : List.find? (fun m => decide (m.name = CIA_DUMP_NAME))
      ([] ++ [({ name := CIA_DUMP_NAME, major := CIA_DUMP_VER_MAJOR,
                 minor := CIA_DUMP_VER_MINOR, data := cia_snapshot_data s } : snapshot_module)]) =
      some { name := CIA_DUMP_NAME, major := CIA_DUMP_VER_MAJOR,
             minor := CIA_DUMP_VER_MINOR, data := cia_snapshot_data s } := by
    simp
  have hver : ¬ (CIA_DUMP_VER_MAJOR ≠ CIA_DUMP_VER_MAJOR ∨
      CIA_DUMP_VER_MINOR < CIA_DUMP_VER_MINOR) := by decide
  unfold ciacore_snapshot_read_module ciacore_snapshot_write_module
  dsimp only
  rw [hfind]
  dsimp only
  rw [if_neg hver, cia_snapshot_parse_data fresh s h]

/-- C11: for a context `s` reached from a context whose fields fit their C types by any
sequence of operations, `ciacore_snapshot_write_module` succeeds, and
`ciacore_snapshot_read_module` on its output succeeds and restores every field of `s` that is
chip state into the fresh context.  When the fresh context has the model tag and the host
port inputs of `s`, the restored context is `s` itself, deferred SDR action and TOD hold
included, so any later sequence of operations returns the same bytes to its reads and ends in
the same context. -/
theorem ciacore_snapshot_round_trip (init fresh : cia_context) (ops later : List cia_op)
    (hinit : cia_in_range init = true) :
    (ciacore_snapshot_write_module (cia_run ops init).2 []).1 = 0 ∧
    ciacore_snapshot_read_module fresh
        (ciacore_snapshot_write_module (cia_run ops init).2 []).2 =
      (0, { (cia_run ops init).2 with
            model := fresh.model, pa_in := fresh.pa_in, pb_in := fresh.pb_in }) ∧
    (fresh.model = (cia_run ops init).2.model ∧ fresh.pa_in = (cia_run ops init).2.pa_in ∧
        fresh.pb_in = (cia_run ops init).2.pb_in →
      ciacore_snapshot_read_module fresh
          (ciacore_snapshot_write_module (cia_run ops init).2 []).2 =
        (0, (cia_run ops init).2) ∧
      cia_run later (ciacore_snapshot_read_module fresh
          (ciacore_snapshot_write_module (cia_run ops init).2 []).2).2 =
        cia_run later (cia_run ops init).2) := by
  have hs := cia_run_in_range ops init hinit
  have hrw := ciacore_snapshot_read_write fresh _ hs
  refine ⟨rfl, hrw, ?_⟩
  rintro ⟨hm, hpa, hpb⟩
  have heq : ({ (cia_run ops init).2 with
      model := fresh.model, pa_in := fresh.pa_in, pb_in := fresh.pb_in } : cia_context) =
      (cia_run ops init).2 := by
    rw [hm, hpa, hpb]
  rw [hrw, heq]
  exact ⟨rfl, rfl⟩

/-- Witness for C11: the snapshot is taken with a deferred SDR store and a TOD hold pending
and read into the power-up context; the reads that follow return the same bytes. -/
theorem ciacore_snapshot_round_trip_witness :
    (cia_in_range cia_ctx0 = true ∧
     (cia_run cia_snapshot_example_ops cia_ctx0).2.sdr_valid = true ∧
     (cia_run cia_snapshot_example_ops cia_ctx0).2.sdr_delay = 8 ∧
     (cia_run cia_snapshot_example_ops cia_ctx0).2.todlatched = true ∧
     (cia_run cia_snapshot_example_ops cia_ctx0).2 ≠ cia_ctx0) ∧
    ((ciacore_snapshot_write_module (cia_run cia_snapshot_example_ops cia_ctx0).2 []).1 = 0 ∧
    ciacore_snapshot_read_module cia_ctx0
        (ciacore_snapshot_write_module (cia_run cia_snapshot_example_ops cia_ctx0).2 []).2 =
      (0, { (cia_run cia_snapshot_example_ops cia_ctx0).2 with
            model := cia_ctx0.model, pa_in := cia_ctx0.pa_in, pb_in := cia_ctx0.pb_in }) ∧
    (cia_ctx0.model = (cia_run cia_snapshot_example_ops cia_ctx0).2.model ∧
        cia_ctx0.pa_in = (cia_run cia_snapshot_example_ops cia_ctx0).2.pa_in ∧
        cia_ctx0.pb_in = (cia_run cia_snapshot_example_ops cia_ctx0).2.pb_in →
      ciacore_snapshot_read_module cia_ctx0
          (ciacore_snapshot_write_module (cia_run cia_snapshot_example_ops cia_ctx0).2 []).2 =
        (0, (cia_run cia_snapshot_example_ops cia_ctx0).2) ∧
      cia_run cia_snapshot_example_later (ciacore_snapshot_read_module cia_ctx0
          (ciacore_snapshot_write_module (cia_run cia_snapshot_example_ops cia_ctx0).2 []).2).2 =
        cia_run cia_snapshot_example_later (cia_run cia_snapshot_example_ops cia_ctx0).2)) :=
  ⟨by decide,
   ciacore_snapshot_round_trip cia_ctx0 cia_ctx0 cia_snapshot_example_ops
     cia_snapshot_example_later (by decide)⟩

end Cia

namespace AciaWidget

theorem count_baud_rates_append (pre : List Int) (t : Int) (post : List Int) (i : Nat)
    (hpre : ∀ v ∈ pre, 0 < v) (ht : t ≤ 0) :
    count_baud_rates (pre ++ t :: post) i = some (i + pre.length) := by
  induction pre generalizing i with
  | nil => simp [count_baud_rates, not_lt.2 ht]
  | cons v rest ih =>
    have hv : 0 < v := hpre v (List.mem_cons_self _ _)
    rw [List.cons_append, count_baud_rates, if_pos hv,
      ih (i + 1) fun w hw => hpre w (List.mem_cons_of_mem _ hw)]
    simp; omega

theorem fill_baud_rate_list_append (pre : List Int) (t : Int) (post : List Int) (i : Nat)
    (buf : List vice_gtk3_combo_entry_int_t)
    (hpre : ∀ v ∈ pre, 0 < v) (ht : t ≤ 0) (hlen : i + pre.length ≤ buf.length) :
    fill_baud_rate_list (pre ++ t :: post) i buf =
      some (i + pre.length,
        buf.take i ++ pre.map baud_rate_entry ++ buf.drop (i + pre.length)) := by
  induction pre generalizing i buf with
  | nil => simp [fill_baud_rate_list, not_lt.2 ht]
  | cons v rest ih =>
    have hv : 0 < v := hpre v (List.mem_cons_self _ _)
    have hi : i < buf.length := by simp at hlen; omega
    rw [List.cons_append, fill_baud_rate_list, if_pos hv, if_pos hi,
      ih (i + 1) _ (fun w hw => hpre w (List.mem_cons_of_mem _ hw))
      (by simp at hlen ⊢; omega)]
    have h1 : (buf.set i { name := some (lib_msprintf_d v), id := v }).take (i + 1) =
        buf.take i ++ [baud_rate_entry v] := by
      rw [List.set_eq_take_append_cons_drop, if_pos hi, List.take_append_eq_append_take]
      simp [List.take_take, Nat.min_eq_left (Nat.le_of_lt hi), baud_rate_entry]
    have h2 : (buf.set i { name := some (lib_msprintf_d v), id := v }).drop
        (i + 1 + rest.length) = buf.drop (i + (rest.length + 1)) := by
      rw [List.drop_set, if_pos (by omega)]
      congr 1; omega
    rw [h1, h2]
    simp [List.length_cons]
    omega

theorem generate_baud_rate_list_append (junk : vice_gtk3_combo_entry_int_t) (pre : List Int)
    (t : Int) (post : List Int) (hpre : ∀ v ∈ pre, 0 < v) (ht : t ≤ 0) :
    generate_baud_rate_list junk (pre ++ t :: post) =
      some (pre.map baud_rate_entry ++ [baud_rate_terminator]) := by
  unfold generate_baud_rate_list
  rw [count_baud_rates_append pre t post 0 hpre ht]
  simp only [Nat.zero_add]
  rw [fill_baud_rate_list_append pre t post 0 _ hpre ht (by simp)]
  simp only [Nat.zero_add, List.take_zero, List.nil_append]
  have hd : (List.replicate (pre.length + 1) junk).drop pre.length = [junk] := by
    rw [List.drop_replicate]; simp
  rw [hd]
  have hlt : pre.length < (List.map baud_rate_entry pre ++ [junk]).length := by simp
  rw [if_pos hlt]
  congr 1
  have : pre.length = (List.map baud_rate_entry pre).length := by simp
  rw [List.set_append]
  simp [baud_rate_terminator]

theorem take_getD_decompose (l : List Int) (n : Nat) (hn : n < l.length) :
    l = l.take n ++ l.getD n 0 :: l.drop (n + 1) := by
  rw [List.getD_eq_getElem l 0 hn, ← List.drop_eq_getElem_cons hn, List.take_append_drop]

theorem takeWhile_minus_one_decompose (baud : List Int) (h : -1 ∈ baud) :
    ∃ post, baud = (baud.takeWhile fun v => v ≠ -1) ++ -1 :: post := by
  induction baud with
  | nil => simp at h
  | cons v rest ih =>
    by_cases hv : v = -1
    · exact ⟨rest, by simp [hv]⟩
    · have hmem : -1 ∈ rest := by
        rcases List.mem_cons.1 h with h1 | h1
        · exact absurd h1.symm hv
        · exact h1
      obtain ⟨post, hp⟩ := ih hmem
      refine ⟨post, ?_⟩
      rw [List.takeWhile_cons_of_pos (by simpa using hv), List.cons_append, ← hp]

theorem acia_entries_index_eq (st : acia_widget_state) (hlen : st.acia_entries.length = 2)
    (d : Int) (hd : d = 1 ∨ d = 2) :
    acia_entries_index st (d - 1) = some (d - 1).toNat ∧ (d - 1).toNat < 2 := by
  unfold acia_entries_index
  rcases hd with rfl | rfl <;> simp [hlen]

theorem gtk_entry_set_text_entries (st : acia_widget_state) (k : Nat) (text : String) :
    (gtk_entry_set_text st k text).acia_entries =
      st.acia_entries.set k ((st.acia_entries.getD k none).map fun e => { e with text := text })
    ∧ (gtk_entry_set_text st k text).log = st.log
    ∧ (gtk_entry_set_text st k text).freed = st.freed
    ∧ (gtk_entry_set_text st k text).dialog_destroyed = st.dialog_destroyed
    ∧ (gtk_entry_set_text st k text).baud_rate_list = st.baud_rate_list
    ∧ (gtk_entry_set_text st k text).acia_baud_rates = st.acia_baud_rates := by
  unfold gtk_entry_set_text
  cases hk : st.acia_entries.getD k none with
  | none =>
    refine ⟨?_, rfl, rfl, rfl, rfl, rfl⟩
    simp only [Option.map_none']
    by_cases hlt : k < st.acia_entries.length
    · rw [List.getD_eq_getElem _ _ hlt] at hk
      exact (List.ext_getElem (by simp) fun i h1 h2 => by
        rw [List.getElem_set]; split
        · next h => subst h; exact hk.symm
        · rfl).symm
    · rw [List.set_eq_of_length_le (by omega)]
  | some e =>
    simp only [Option.map_some']
    split <;> simp [on_serial_device_changed]

theorem create_acia_serial_device_widget_frame (st : acia_widget_state) (num : Int)
    (hlen : st.acia_entries.length = 2) (hnum : num = 1 ∨ num = 2) :
    ∃ st', create_acia_serial_device_widget st num = some st' ∧
      st'.acia_entries.length = 2 ∧ st'.baud_rate_list = st.baud_rate_list ∧
      st'.acia_baud_rates = st.acia_baud_rates := by
  unfold create_acia_serial_device_widget
  rw [(acia_entries_index_eq st hlen num hnum).1]
  simp only
  cases hp : st.rs_device num with
  | none => exact ⟨_, rfl, by simp [hlen], rfl, rfl⟩
  | some path =>
    by_cases he : path = ""
    · exact ⟨_, rfl, by simp [he, hlen], by simp [he], by simp [he]⟩
    · refine ⟨_, rfl, ?_, ?_, ?_⟩
      · simp [he, (gtk_entry_set_text_entries _ _ _).1, hlen]
      · simp [he, (gtk_entry_set_text_entries _ _ _).2.2.2.2.1]
      · simp [he, (gtk_entry_set_text_entries _ _ _).2.2.2.2.2]

/-- C15: when the first non-positive element of the baud array is at index `n`,
`generate_baud_rate_list` returns with a list of exactly `n + 1` entries: entry `i < n` has
the id `acia_baud_rates[i]` and as name its decimal rendering, in the order of the array, and
entry `n` is the terminator with a NULL name and id -1. -/
theorem generate_baud_rate_list_entries (junk : vice_gtk3_combo_entry_int_t)
    (acia_baud_rates : List Int) (n : Nat) (hn : n < acia_baud_rates.length)
    (hpos : ∀ i, i < n → 0 < acia_baud_rates.getD i 0)
    (hstop : acia_baud_rates.getD n 0 ≤ 0) :
    ∃ l, generate_baud_rate_list junk acia_baud_rates = some l ∧ l.length = n + 1 ∧
      (∀ i, i < n → l[i]? = some { name := some (toString (acia_baud_rates.getD i 0)),
                                   id := acia_baud_rates.getD i 0 }) ∧
      l[n]? = some { name := none, id := -1 } ∧
      l = (acia_baud_rates.take n).map baud_rate_entry ++ [baud_rate_terminator] := by
  have hdec := take_getD_decompose acia_baud_rates n hn
  have hlt : (acia_baud_rates.take n).length = n := by
    rw [List.length_take]; omega
  have hpre : ∀ v ∈ acia_baud_rates.take n, 0 < v := by
    intro v hv
    obtain ⟨i, hi, rfl⟩ := List.mem_take_iff_getElem.1 hv
    have hi1 : i < n := lt_of_lt_of_le hi (Nat.min_le_left _ _)
    have := hpos i hi1
    rwa [List.getD_eq_getElem _ _ (by omega)] at this
  have hgen := generate_baud_rate_list_append junk _ _ (acia_baud_rates.drop (n + 1)) hpre hstop
  rw [← hdec] at hgen
  refine ⟨_, hgen, by rw [List.length_append, List.length_map, hlt]; rfl, ?_, ?_, rfl⟩
  · intro i hi
    have hil : i < acia_baud_rates.length := by omega
    rw [List.getElem?_append_left (by rw [List.length_map, hlt]; exact hi), List.getElem?_map,
      List.getElem?_take_of_lt hi, List.getElem?_eq_getElem hil, List.getD_eq_getElem _ _ hil]
    rfl
  · rw [List.getElem?_append_right (by rw [List.length_map, hlt]), List.length_map, hlt,
      Nat.sub_self]
    rfl

/-- Witness for C15: an array whose first three rates are positive and whose fourth element
is 0. -/
theorem generate_baud_rate_list_entries_witness :
    ∃ l, generate_baud_rate_list { name := none, id := 0 } [300, 1200, 2400, 0, 9600] = some l ∧
      l.length = 3 + 1 ∧
      (∀ i, i < 3 → l[i]? =
        some { name := some (toString (([300, 1200, 2400, 0, 9600] : List Int).getD i 0)),
               id := ([300, 1200, 2400, 0, 9600] : List Int).getD i 0 }) ∧
      l[3]? = some { name := none, id := -1 } ∧
      l = (([300, 1200, 2400, 0, 9600] : List Int).take 3).map baud_rate_entry ++
            [baud_rate_terminator] :=
  generate_baud_rate_list_entries { name := none, id := 0 } [300, 1200, 2400, 0, 9600] 3
    (by decide) (by decide) (by decide)

/-- C16, as stated, fails: on the list 300, 0, 1200, -1 the generated list holds the entry for
300 and the terminator only, while the elements preceding the first -1 are 300, 0 and 1200. -/
theorem acia_widget_create_stops_at_zero :
    (acia_widget_create { name := none, id := 0 } acia_widget_state0 [300, 0, 1200, -1]).map
        (fun st => st.baud_rate_list) =
      some (some [{ name := some "300", id := 300 }, { name := none, id := -1 }]) ∧
    baud_rate_list_until_minus_one [300, 0, 1200, -1] =
      [{ name := some "300", id := 300 }, { name := some "0", id := 0 },
       { name := some "1200", id := 1200 }, { name := none, id := -1 }] ∧
    (acia_widget_create { name := none, id := 0 } acia_widget_state0 [300, 0, 1200, -1]).map
        (fun st => st.baud_rate_list) ≠
      some (some (baud_rate_list_until_minus_one [300, 0, 1200, -1])) := by
  decide

/-- C16, amended: for a list that holds a -1 and whose elements before the first -1 are all
positive, `acia_widget_create` returns with `acia_baud_rates` set to the list and
`baud_rate_list` holding one entry for each element before that -1, in order, followed by the
terminator. -/
theorem acia_widget_create_baud_rate_list (junk : vice_gtk3_combo_entry_int_t)
    (st : acia_widget_state) (baud : List Int) (hlen : st.acia_entries.length = 2)
    (hterm : -1 ∈ baud) (hpos : ∀ v ∈ baud.takeWhile (fun v => v ≠ -1), 0 < v) :
    generate_baud_rate_list junk baud = some (baud_rate_list_until_minus_one baud) ∧
    ∃ st', acia_widget_create junk st baud = some st' ∧ st'.acia_baud_rates = baud ∧
      st'.baud_rate_list = some (baud_rate_list_until_minus_one baud) := by
  obtain ⟨post, hp⟩ := takeWhile_minus_one_decompose baud hterm
  have hgen : generate_baud_rate_list junk baud = some (baud_rate_list_until_minus_one baud) := by
    have := generate_baud_rate_list_append junk _ (-1) post hpos (by decide)
    rw [← hp] at this
    exact this
  refine ⟨hgen, ?_⟩
  unfold acia_widget_create
  simp only [hgen]
  obtain ⟨s3, h3, hl3, hb3, hr3⟩ := create_acia_serial_device_widget_frame
    { st with acia_baud_rates := baud,
              baud_rate_list := some (baud_rate_list_until_minus_one baud) } 1 hlen (Or.inl rfl)
  obtain ⟨s4, h4, _, hb4, hr4⟩ := create_acia_serial_device_widget_frame s3 2 hl3 (Or.inr rfl)
  rw [h3]
  exact ⟨s4, h4, by rw [hr4, hr3], by rw [hb4, hb3]⟩

/-- Witness for the amended C16: the list 300, 1200, 2400, -1. -/
theorem acia_widget_create_baud_rate_list_witness :
    generate_baud_rate_list { name := none, id := 0 } [300, 1200, 2400, -1] =
      some (baud_rate_list_until_minus_one [300, 1200, 2400, -1]) ∧
    ∃ st', acia_widget_create { name := none, id := 0 } acia_widget_state0
        [300, 1200, 2400, -1] = some st' ∧
      st'.acia_baud_rates = [300, 1200, 2400, -1] ∧
      st'.baud_rate_list = some (baud_rate_list_until_minus_one [300, 1200, 2400, -1]) :=
  acia_widget_create_baud_rate_list { name := none, id := 0 } acia_widget_state0
    [300, 1200, 2400, -1] rfl (by decide) (by decide)

/-- C17: `browse_filename_callback` always returns with the dialog destroyed. For a non-NULL
filename and device 1 or 2 the text of `acia_entries[d - 1]` becomes the filename, the other
entry keeps its text and nothing is logged; for any other device the error is logged and
`acia_entries` and the resources stay as they were; for a NULL filename the state changes in
nothing but the destroyed dialog. -/
theorem browse_filename_callback_sets_entry (st : acia_widget_state) (filename : Option String)
    (d : Int) (hlen : st.acia_entries.length = 2) :
    ∃ st', browse_filename_callback st filename d = some st' ∧ st'.dialog_destroyed = true ∧
      (∀ f, filename = some f → d = 1 ∨ d = 2 →
        st'.acia_entries = st.acia_entries.set (d - 1).toNat
          ((st.acia_entries.getD (d - 1).toNat none).map fun e => { e with text := f }) ∧
        (d - 1).toNat < 2 ∧ st'.log = st.log) ∧
      (∀ f, filename = some f → ¬ (d = 1 ∨ d = 2) →
        st' = { st with log := st.log ++ [d], freed := st.freed ++ [f],
                        dialog_destroyed := true }) ∧
      (filename = none → st' = { st with dialog_destroyed := true }) := by
  cases filename with
  | none => exact ⟨_, rfl, rfl, by simp, by simp, fun _ => rfl⟩
  | some f =>
    by_cases hd : d = 1 ∨ d = 2
    · have hnot : ¬ (d ≠ 1 ∧ d ≠ 2) := by
        rcases hd with h | h <;> simp [h]
      obtain ⟨hidx, hk⟩ := acia_entries_index_eq st hlen d hd
      refine ⟨{ gtk_entry_set_text st (d - 1).toNat f with
                  freed := (gtk_entry_set_text st (d - 1).toNat f).freed ++ [f],
                  dialog_destroyed := true },
        by simp only [browse_filename_callback, if_neg hnot, hidx], rfl, ?_, ?_, by simp⟩
      · intro f1 hf1 _
        cases hf1
        exact ⟨(gtk_entry_set_text_entries _ _ _).1, hk, (gtk_entry_set_text_entries _ _ _).2.1⟩
      · intro f1 _ h
        exact absurd hd h
    · have hyes : d ≠ 1 ∧ d ≠ 2 := by
        constructor <;> intro h <;> exact hd (by simp [h])
      refine ⟨{ st with log := st.log ++ [d], freed := st.freed ++ [f],
                        dialog_destroyed := true },
        by simp only [browse_filename_callback, if_pos hyes], rfl, ?_, ?_, by simp⟩
      · intro f1 _ h
        exact absurd h hd
      · intro f1 hf1 _
        cases hf1
        rfl

/-- Witness for C17: the path of a serial port chosen for device 2. -/
theorem browse_filename_callback_sets_entry_witness :
    acia_widget_example.acia_entries.length = 2 ∧
    (browse_filename_callback acia_widget_example (some "/dev/ttyS1") 2).map
        (fun st => (st.acia_entries, st.log, st.dialog_destroyed)) =
      some ([some { text := "", changed_data := some 1 },
             some { text := "/dev/ttyS1", changed_data := some 2 }], [], true) ∧
    ∃ st', browse_filename_callback acia_widget_example (some "/dev/ttyS1") 2 = some st' ∧
      st'.dialog_destroyed = true ∧
      (∀ f, some "/dev/ttyS1" = some f → (2 : Int) = 1 ∨ (2 : Int) = 2 →
        st'.acia_entries = acia_widget_example.acia_entries.set ((2 : Int) - 1).toNat
          ((acia_widget_example.acia_entries.getD ((2 : Int) - 1).toNat none).map
            fun e => { e with text := f }) ∧
        ((2 : Int) - 1).toNat < 2 ∧ st'.log = acia_widget_example.log) ∧
      (∀ f, some "/dev/ttyS1" = some f → ¬ ((2 : Int) = 1 ∨ (2 : Int) = 2) →
        st' = { acia_widget_example with
                log := acia_widget_example.log ++ [2],
                freed := acia_widget_example.freed ++ [f], dialog_destroyed := true }) ∧
      ((some "/dev/ttyS1" : Option String) = none →
        st' = { acia_widget_example with dialog_destroyed := true }) :=
  ⟨rfl, by decide,
   browse_filename_callback_sets_entry acia_widget_example (some "/dev/ttyS1") 2 rfl⟩

end AciaWidget

namespace KbdMappingWidget

theorem list_set_set_getElem? (l : List Bool) (a b : Bool) (hlen : l.length = 4) :
    ((l.set 0 a).set 1 b)[0]? = some a ∧ ((l.set 0 a).set 1 b)[1]? = some b ∧
    ((l.set 0 a).set 1 b)[2]? = l[2]? ∧ ((l.set 0 a).set 1 b)[3]? = l[3]? ∧
    ((l.set 0 a).set 1 b).length = 4 := by
  match l, hlen with
  | [_, _, _, _], _ => simp

/-- C18: `kbdmapping_widget_update` returns with the value of every resource, `KeymapIndex`
among them, as it was. Radio item 0 is sensitive exactly when
`keyboard_is_keymap_valid(KBD_INDEX_SYM, KeyboardMapping, KeyboardType)` is 0 and item 1
exactly when the call with `KBD_INDEX_POS` is 0; the one call of `resources_set_int` sets
`KeymapIndex` to the value read from it; items 2 and 3 keep their sensitivity. -/
theorem kbdmapping_widget_update_keeps_index (keyboard_is_keymap_valid : Int → Int → Int → Int)
    (KBD_INDEX_SYM KBD_INDEX_POS : Int) (st : kbdmapping_state) (hosttype kbdtype kbdindex : Int)
    (hmapping : st.resources "KeyboardMapping" = some hosttype)
    (htype : st.resources "KeyboardType" = some kbdtype)
    (hindex : st.resources "KeymapIndex" = some kbdindex)
    (hlen : st.radio_group.length = 4) :
    ∃ st', kbdmapping_widget_update keyboard_is_keymap_valid KBD_INDEX_SYM KBD_INDEX_POS st
        = some st' ∧
      st'.resources = st.resources ∧ st'.resources "KeymapIndex" = some kbdindex ∧
      st'.resource_sets = st.resource_sets ++ [("KeymapIndex", kbdindex)] ∧
      (st'.radio_group[0]? = some true ↔
        keyboard_is_keymap_valid KBD_INDEX_SYM hosttype kbdtype = 0) ∧
      (st'.radio_group[0]? = some false ↔
        keyboard_is_keymap_valid KBD_INDEX_SYM hosttype kbdtype ≠ 0) ∧
      (st'.radio_group[1]? = some true ↔
        keyboard_is_keymap_valid KBD_INDEX_POS hosttype kbdtype = 0) ∧
      (st'.radio_group[1]? = some false ↔
        keyboard_is_keymap_valid KBD_INDEX_POS hosttype kbdtype ≠ 0) ∧
      st'.radio_group[2]? = st.radio_group[2]? ∧ st'.radio_group[3]? = st.radio_group[3]? ∧
      st'.radio_group.length = mappings.length := by
  have hres : (fun n => if n = "KeymapIndex" ∧ (st.resources "KeymapIndex").isSome = true
      then some kbdindex else st.resources n) = st.resources := by
    funext n
    by_cases hn : n = "KeymapIndex"
    · simp [hn, hindex]
    · simp [hn]
  obtain ⟨h0, h1, h2, h3, h4⟩ := list_set_set_getElem? st.radio_group
    (decide ((if keyboard_is_keymap_valid KBD_INDEX_SYM hosttype kbdtype = 0
      then (1 : Int) else 0) ≠ 0))
    (decide ((if keyboard_is_keymap_valid KBD_INDEX_POS hosttype kbdtype = 0
      then (1 : Int) else 0) ≠ 0)) hlen
  refine ⟨resources_set_int
      (vice_gtk3_resource_radiogroup_item_set_sensitive
        (vice_gtk3_resource_radiogroup_item_set_sensitive st 0
          (if keyboard_is_keymap_valid KBD_INDEX_SYM hosttype kbdtype = 0 then 1 else 0))
        1 (if keyboard_is_keymap_valid KBD_INDEX_POS hosttype kbdtype = 0 then 1 else 0))
      "KeymapIndex" kbdindex,
    by simp only [kbdmapping_widget_update, resources_get_int, hmapping, htype, hindex],
    ?_, ?_, rfl, ?_, ?_, ?_, ?_, ?_, ?_, ?_⟩
  · exact hres
  · simp [resources_set_int, vice_gtk3_resource_radiogroup_item_set_sensitive, hindex]
  · simp only [resources_set_int, vice_gtk3_resource_radiogroup_item_set_sensitive, h0]
    by_cases hv : keyboard_is_keymap_valid KBD_INDEX_SYM hosttype kbdtype = 0 <;> simp [hv]
  · simp only [resources_set_int, vice_gtk3_resource_radiogroup_item_set_sensitive, h0]
    by_cases hv : keyboard_is_keymap_valid KBD_INDEX_SYM hosttype kbdtype = 0 <;> simp [hv]
  · simp only [resources_set_int, vice_gtk3_resource_radiogroup_item_set_sensitive, h1]
    by_cases hv : keyboard_is_keymap_valid KBD_INDEX_POS hosttype kbdtype = 0 <;> simp [hv]
  · simp only [resources_set_int, vice_gtk3_resource_radiogroup_item_set_sensitive, h1]
    by_cases hv : keyboard_is_keymap_valid KBD_INDEX_POS hosttype kbdtype = 0 <;> simp [hv]
  · exact h2
  · exact h3
  · exact h4

/-- Witness for C18: with only the positional keymap valid, item 0 is made insensitive,
item 1 stays sensitive and `KeymapIndex` is set to the 0 it held. -/
theorem kbdmapping_widget_update_keeps_index_witness :
    (kbdmapping_widget_update keymap_valid_example 0 1 kbdmapping_example).map
        (fun st => (st.radio_group, st.resource_sets, st.resources "KeymapIndex")) =
      some ([false, true, true, true], [("KeymapIndex", 0)], some 0) ∧
    ∃ st', kbdmapping_widget_update keymap_valid_example 0 1 kbdmapping_example = some st' ∧
      st'.resources = kbdmapping_example.resources ∧ st'.resources "KeymapIndex" = some 0 ∧
      st'.resource_sets = kbdmapping_example.resource_sets ++ [("KeymapIndex", 0)] ∧
      (st'.radio_group[0]? = some true ↔ keymap_valid_example 0 2 0 = 0) ∧
      (st'.radio_group[0]? = some false ↔ keymap_valid_example 0 2 0 ≠ 0) ∧
      (st'.radio_group[1]? = some true ↔ keymap_valid_example 1 2 0 = 0) ∧
      (st'.radio_group[1]? = some false ↔ keymap_valid_example 1 2 0 ≠ 0) ∧
      st'.radio_group[2]? = kbdmapping_example.radio_group[2]? ∧
      st'.radio_group[3]? = kbdmapping_example.radio_group[3]? ∧
      st'.radio_group.length = mappings.length :=
  ⟨by decide,
   kbdmapping_widget_update_keeps_index keymap_valid_example 0 1 kbdmapping_example 2 0 0
     (by decide) (by decide) (by decide) rfl⟩

end KbdMappingWidget

namespace UiC64Model

/-- C19: `dialog_proc` calls `c64model_set`, with the current selection, exactly on
`WM_COMMAND` whose low word is `IDOK`; on every other message no call is made and the model
is as before. `EndDialog` is called, once, exactly on `WM_COMMAND` with `IDOK` or `IDCANCEL`
and on `WM_CLOSE`. -/
theorem dialog_proc_sets_model_on_ok {M : Type} (c64model_get : M → Int)
    (c64model_set : Int → M → M) (d : c64model_dialog M) (msg wparam : Nat) :
    (msg = WM_COMMAND ∧ LOWORD wparam = IDOK →
      (dialog_proc c64model_get c64model_set d msg wparam).2.c64model_set_calls =
        d.c64model_set_calls ++ [d.cursel] ∧
      (dialog_proc c64model_get c64model_set d msg wparam).2.machine =
        c64model_set d.cursel d.machine) ∧
    (¬ (msg = WM_COMMAND ∧ LOWORD wparam = IDOK) →
      (dialog_proc c64model_get c64model_set d msg wparam).2.c64model_set_calls =
        d.c64model_set_calls ∧
      (dialog_proc c64model_get c64model_set d msg wparam).2.machine = d.machine) ∧
    ((msg = WM_COMMAND ∧ (LOWORD wparam = IDOK ∨ LOWORD wparam = IDCANCEL)) ∨ msg = WM_CLOSE →
      (dialog_proc c64model_get c64model_set d msg wparam).2.end_dialog_calls =
        d.end_dialog_calls ++ [0]) ∧
    (¬ ((msg = WM_COMMAND ∧ (LOWORD wparam = IDOK ∨ LOWORD wparam = IDCANCEL)) ∨
        msg = WM_CLOSE) →
      (dialog_proc c64model_get c64model_set d msg wparam).2.end_dialog_calls =
        d.end_dialog_calls) := by
  have hcc : WM_CLOSE ≠ WM_COMMAND := by decide
  have hic : WM_INITDIALOG ≠ WM_COMMAND := by decide
  have hil : WM_INITDIALOG ≠ WM_CLOSE := by decide
  have hoc : IDOK ≠ IDCANCEL := by decide
  unfold dialog_proc
  by_cases h1 : msg = WM_COMMAND
  · by_cases h2 : LOWORD wparam = IDOK
    · simp [h1, h2, EndDialog, end_c64model_dialog]
    · by_cases h3 : LOWORD wparam = IDCANCEL
      · simp [h1, h3, hoc.symm, hcc.symm, EndDialog]
      · simp [h1, h2, h3, hcc.symm]
  · by_cases h4 : msg = WM_CLOSE
    · subst h4
      simp [hcc, EndDialog]
    · by_cases h5 : msg = WM_INITDIALOG
      · subst h5
        simp [hic, hil, init_c64model_dialog, cb_setcursel, cb_addstring]
      · simp [h1, h4, h5]

/-- C20: `dialog_proc` returns `TRUE` exactly on `WM_INITDIALOG`, on `WM_CLOSE` and on
`WM_COMMAND` whose low word is `IDOK` or `IDCANCEL`, and `FALSE` on every other message and
on `WM_COMMAND` with any other command id. -/
theorem dialog_proc_returns_true_iff {M : Type} (c64model_get : M → Int)
    (c64model_set : Int → M → M) (d : c64model_dialog M) (msg wparam : Nat) :
    ((dialog_proc c64model_get c64model_set d msg wparam).1 = TRUE ↔
      msg = WM_INITDIALOG ∨ msg = WM_CLOSE ∨
        (msg = WM_COMMAND ∧ (LOWORD wparam = IDOK ∨ LOWORD wparam = IDCANCEL))) ∧
    ((dialog_proc c64model_get c64model_set d msg wparam).1 = FALSE ↔
      ¬ (msg = WM_INITDIALOG ∨ msg = WM_CLOSE ∨
        (msg = WM_COMMAND ∧ (LOWORD wparam = IDOK ∨ LOWORD wparam = IDCANCEL)))) ∧
    TRUE ≠ FALSE := by
  have hcc : WM_CLOSE ≠ WM_COMMAND := by decide
  have hic : WM_INITDIALOG ≠ WM_COMMAND := by decide
  have hil : WM_INITDIALOG ≠ WM_CLOSE := by decide
  have htf : TRUE ≠ FALSE := by decide
  have hoc : IDCANCEL ≠ IDOK := by decide
  unfold dialog_proc
  by_cases h1 : msg = WM_COMMAND
  · by_cases h2 : LOWORD wparam = IDOK
    · simp [h1, h2, htf]
    · by_cases h3 : LOWORD wparam = IDCANCEL
      · simp [h1, h3, hoc, htf]
      · simp [h1, h2, h3, htf, htf.symm, hcc.symm, hic.symm]
  · by_cases h4 : msg = WM_CLOSE
    · subst h4
      simp [hcc, htf]
    · by_cases h5 : msg = WM_INITDIALOG
      · subst h5
        simp [hic, hil, htf]
      · simp [h1, h4, h5, htf, htf.symm]

end UiC64Model

namespace AciaWidget

/-- C23: with `acia_entries` an array of two elements, the index `num - 1` that
`create_acia_serial_device_widget` writes is in bounds exactly for `num` 1 and 2, and it is
then 0 or 1; `acia_widget_create` calls it with 1 and 2 only, so it can fail on no access to
`acia_entries` (it fails exactly when `generate_baud_rate_list` does) and it leaves the array
at two elements; `browse_filename_callback` never fails, every index it uses being 0 or 1, and
leaves the array at two elements. -/
theorem acia_entries_in_bounds (junk : vice_gtk3_combo_entry_int_t) (st : acia_widget_state)
    (hlen : st.acia_entries.length = 2) :
    (∀ idx k, acia_entries_index st idx = some k → (k = 0 ∨ k = 1) ∧ (k : Int) = idx) ∧
    (∀ num, (create_acia_serial_device_widget st num).isSome = true ↔ num = 1 ∨ num = 2) ∧
    (∀ num st', create_acia_serial_device_widget st num = some st' →
      st'.acia_entries.length = 2) ∧
    (∀ baud, acia_widget_create junk st baud = none ↔
      generate_baud_rate_list junk baud = none) ∧
    (∀ baud st', acia_widget_create junk st baud = some st' → st'.acia_entries.length = 2) ∧
    (∀ filename data, ∃ st', browse_filename_callback st filename data = some st' ∧
      st'.acia_entries.length = 2) := by
  have hidx : ∀ idx k, acia_entries_index st idx = some k → (k = 0 ∨ k = 1) ∧ (k : Int) = idx := by
    intro idx k h
    unfold acia_entries_index at h
    rw [hlen] at h
    split_ifs at h with hc
    cases h
    obtain ⟨h0, h2⟩ := hc
    have h3 : (idx.toNat : Int) = idx := Int.toNat_of_nonneg h0
    refine ⟨?_, h3⟩
    omega
  have hcreate : ∀ (s : acia_widget_state) (num : Int), s.acia_entries.length = 2 →
      ((create_acia_serial_device_widget s num).isSome = true ↔ num = 1 ∨ num = 2) := by
    intro s num hl
    constructor
    · intro h
      cases hi : acia_entries_index s (num - 1) with
      | none => simp [create_acia_serial_device_widget, hi] at h
      | some k =>
        unfold acia_entries_index at hi
        rw [hl] at hi
        split_ifs at hi with hc
        omega
    · intro h
      obtain ⟨s', hs, _⟩ := create_acia_serial_device_widget_frame s num hl h
      rw [hs]; rfl
  have hcl : ∀ (s : acia_widget_state) (num : Int) (s' : acia_widget_state),
      s.acia_entries.length = 2 → create_acia_serial_device_widget s num = some s' →
      s'.acia_entries.length = 2 := by
    intro s num s' hl h
    have hn := (hcreate s num hl).1 (by rw [h]; rfl)
    obtain ⟨s2, hs, hl2, _⟩ := create_acia_serial_device_widget_frame s num hl hn
    rw [hs] at h
    cases h
    exact hl2
  refine ⟨hidx, fun num => hcreate st num hlen, fun num st' => hcl st num st' hlen, ?_, ?_, ?_⟩
  · intro baud
    cases hg : generate_baud_rate_list junk baud with
    | none => simp [acia_widget_create, hg]
    | some l =>
      obtain ⟨s3, h3, hl3, _⟩ := create_acia_serial_device_widget_frame
        { st with acia_baud_rates := baud, baud_rate_list := some l } 1 hlen (Or.inl rfl)
      obtain ⟨s4, h4, _⟩ := create_acia_serial_device_widget_frame s3 2 hl3 (Or.inr rfl)
      simp only [acia_widget_create, hg, h3, h4]
      simp
  · intro baud st' h
    cases hg : generate_baud_rate_list junk baud with
    | none => simp [acia_widget_create, hg] at h
    | some l =>
      obtain ⟨s3, h3, hl3, _⟩ := create_acia_serial_device_widget_frame
        { st with acia_baud_rates := baud, baud_rate_list := some l } 1 hlen (Or.inl rfl)
      simp only [acia_widget_create, hg, h3] at h
      exact hcl s3 2 st' hl3 h
  · intro filename data
    cases filename with
    | none => exact ⟨_, rfl, hlen⟩
    | some f =>
      by_cases hd : data = 1 ∨ data = 2
      · have hnot : ¬ (data ≠ 1 ∧ data ≠ 2) := by
          rcases hd with h | h <;> simp [h]
        obtain ⟨hi, _⟩ := acia_entries_index_eq st hlen data hd
        refine ⟨{ gtk_entry_set_text st (data - 1).toNat f with
                    freed := (gtk_entry_set_text st (data - 1).toNat f).freed ++ [f],
                    dialog_destroyed := true },
          by simp only [browse_filename_callback, if_neg hnot, hi], ?_⟩
        show (gtk_entry_set_text st (data - 1).toNat f).acia_entries.length = 2
        rw [(gtk_entry_set_text_entries _ _ _).1, List.length_set, hlen]
      · have hyes : data ≠ 1 ∧ data ≠ 2 := by
          constructor <;> intro h <;> exact hd (by simp [h])
        exact ⟨{ st with log := st.log ++ [data], freed := st.freed ++ [f],
                         dialog_destroyed := true },
          by simp only [browse_filename_callback, if_pos hyes], hlen⟩

/-- Witness for C23: the statics at program start. -/
theorem acia_entries_in_bounds_witness :
    acia_widget_state0.acia_entries.length = 2 ∧
    ((∀ idx k, acia_entries_index acia_widget_state0 idx = some k →
      (k = 0 ∨ k = 1) ∧ (k : Int) = idx) ∧
    (∀ num, (create_acia_serial_device_widget acia_widget_state0 num).isSome = true ↔
      num = 1 ∨ num = 2) ∧
    (∀ num st', create_acia_serial_device_widget acia_widget_state0 num = some st' →
      st'.acia_entries.length = 2) ∧
    (∀ baud, acia_widget_create { name := none, id := 0 } acia_widget_state0 baud = none ↔
      generate_baud_rate_list { name := none, id := 0 } baud = none) ∧
    (∀ baud st', acia_widget_create { name := none, id := 0 } acia_widget_state0 baud = some st' →
      st'.acia_entries.length = 2) ∧
    (∀ filename data, ∃ st', browse_filename_callback acia_widget_state0 filename data =
        some st' ∧ st'.acia_entries.length = 2)) :=
  ⟨rfl, acia_entries_in_bounds { name := none, id := 0 } acia_widget_state0 rfl⟩

end AciaWidget

namespace UiC64Model

/-- C21: on a dialog whose list is still empty, `WM_INITDIALOG` fills the list with the
fourteen model names, "C64 PAL" at index 0 to "MAX Machine" at index 13, and, the model
`m = c64model_get()` being one of 0 to 13, selects index `m`.  `WM_COMMAND` with `IDOK` on
the dialog so initialised makes the one call `c64model_set(m)`; when `c64model_get` gives
back what `c64model_set` was given, the model after accepting is the model before
opening. -/
theorem c64model_dialog_round_trip {M : Type} (c64model_get : M → Int)
    (c64model_set : Int → M → M) (d : c64model_dialog M) (w1 w2 : Nat)
    (hempty : d.list_strings = [])
    (hm : 0 ≤ c64model_get d.machine ∧ c64model_get d.machine ≤ 13)
    (hok : LOWORD w2 = IDOK) :
    (init_c64model_dialog c64model_get d).list_strings =
      ["C64 PAL", "C64C PAL", "C64 old PAL", "C64 NTSC", "C64C NTSC", "C64 old NTSC", "Drean",
       "C64 SX PAL", "C64 SX NTSC", "Japanese", "C64 GS", "PET64 PAL", "PET64 NTSC",
       "MAX Machine"] ∧
    (init_c64model_dialog c64model_get d).list_strings.length = 14 ∧
    (init_c64model_dialog c64model_get d).cursel = c64model_get d.machine ∧
    (dialog_proc c64model_get c64model_set d WM_INITDIALOG w1).2 =
      init_c64model_dialog c64model_get d ∧
    (dialog_proc c64model_get c64model_set
        (dialog_proc c64model_get c64model_set d WM_INITDIALOG w1).2
        WM_COMMAND w2).2.c64model_set_calls =
      d.c64model_set_calls ++ [c64model_get d.machine] ∧
    (dialog_proc c64model_get c64model_set
        (dialog_proc c64model_get c64model_set d WM_INITDIALOG w1).2
        WM_COMMAND w2).2.machine =
      c64model_set (c64model_get d.machine) d.machine ∧
    ((∀ m s, c64model_get (c64model_set m s) = m) →
      c64model_get (dialog_proc c64model_get c64model_set
        (dialog_proc c64model_get c64model_set d WM_INITDIALOG w1).2
        WM_COMMAND w2).2.machine = c64model_get d.machine) := by
  have hic : WM_INITDIALOG ≠ WM_COMMAND := by decide
  have hil : WM_INITDIALOG ≠ WM_CLOSE := by decide
  have hlist : (init_c64model_dialog c64model_get d).list_strings =
      ["C64 PAL", "C64C PAL", "C64 old PAL", "C64 NTSC", "C64C NTSC", "C64 old NTSC", "Drean",
       "C64 SX PAL", "C64 SX NTSC", "Japanese", "C64 GS", "PET64 PAL", "PET64 NTSC",
       "MAX Machine"] := by
    simp [init_c64model_dialog, cb_setcursel, cb_addstring, hempty]
  have hsel : (init_c64model_dialog c64model_get d).cursel = c64model_get d.machine := by
    have hlt : c64model_get d.machine < 14 := by omega
    simp [init_c64model_dialog, cb_setcursel, cb_addstring, hempty, hm.1, hlt]
  have hmach : (init_c64model_dialog c64model_get d).machine = d.machine := by
    simp [init_c64model_dialog, cb_setcursel, cb_addstring]
  have hcalls : (init_c64model_dialog c64model_get d).c64model_set_calls =
      d.c64model_set_calls := by
    simp [init_c64model_dialog, cb_setcursel, cb_addstring]
  have hinit : (dialog_proc c64model_get c64model_set d WM_INITDIALOG w1).2 =
      init_c64model_dialog c64model_get d := by
    simp [dialog_proc, hic, hil]
  have hokp : (dialog_proc c64model_get c64model_set (init_c64model_dialog c64model_get d)
      WM_COMMAND w2).2 =
      EndDialog (end_c64model_dialog c64model_set (init_c64model_dialog c64model_get d)) 0 := by
    simp [dialog_proc, hok]
  refine ⟨hlist, by rw [hlist]; rfl, hsel, hinit, ?_, ?_, ?_⟩
  · rw [hinit, hokp]
    simp only [EndDialog, end_c64model_dialog, hsel, hcalls]
  · rw [hinit, hokp]
    simp only [EndDialog, end_c64model_dialog, hsel, hmach]
  · intro hgs
    rw [hinit, hokp]
    simp only [EndDialog, end_c64model_dialog, hsel, hmach, hgs]

/-- Witness for C21: the dialog is opened on model 3 and accepted. -/
theorem c64model_dialog_round_trip_witness :
    (c64model_dialog_example.list_strings = [] ∧
     (0 ≤ c64model_get_example c64model_dialog_example.machine ∧
      c64model_get_example c64model_dialog_example.machine ≤ 13) ∧
     LOWORD 0x10001 = IDOK) ∧
    ((init_c64model_dialog c64model_get_example c64model_dialog_example).list_strings =
      ["C64 PAL", "C64C PAL", "C64 old PAL", "C64 NTSC", "C64C NTSC", "C64 old NTSC", "Drean",
       "C64 SX PAL", "C64 SX NTSC", "Japanese", "C64 GS", "PET64 PAL", "PET64 NTSC",
       "MAX Machine"] ∧
    (init_c64model_dialog c64model_get_example c64model_dialog_example).list_strings.length
      = 14 ∧
    (init_c64model_dialog c64model_get_example c64model_dialog_example).cursel =
      c64model_get_example c64model_dialog_example.machine ∧
    (dialog_proc c64model_get_example c64model_set_example c64model_dialog_example
        WM_INITDIALOG 0).2 =
      init_c64model_dialog c64model_get_example c64model_dialog_example ∧
    (dialog_proc c64model_get_example c64model_set_example
        (dialog_proc c64model_get_example c64model_set_example c64model_dialog_example
          WM_INITDIALOG 0).2
        WM_COMMAND 0x10001).2.c64model_set_calls =
      c64model_dialog_example.c64model_set_calls ++
        [c64model_get_example c64model_dialog_example.machine] ∧
    (dialog_proc c64model_get_example c64model_set_example
        (dialog_proc c64model_get_example c64model_set_example c64model_dialog_example
          WM_INITDIALOG 0).2
        WM_COMMAND 0x10001).2.machine =
      c64model_set_example (c64model_get_example c64model_dialog_example.machine)
        c64model_dialog_example.machine ∧
    ((∀ m s, c64model_get_example (c64model_set_example m s) = m) →
      c64model_get_example (dialog_proc c64model_get_example c64model_set_example
        (dialog_proc c64model_get_example c64model_set_example c64model_dialog_example
          WM_INITDIALOG 0).2
        WM_COMMAND 0x10001).2.machine =
        c64model_get_example c64model_dialog_example.machine)) :=
  ⟨by decide,
   c64model_dialog_round_trip c64model_get_example c64model_set_example
     c64model_dialog_example 0 0x10001 rfl (by decide) (by decide)⟩

end UiC64Model

namespace Vic20Stubs

/-- C22: the stubs are constant: `cartridge_enable` and `cartridge_disable` return -1, which
is not the 0 of success, for every cartridge id; `cartridge_get_id` returns `CARTRIDGE_NONE`
and `cartridge_get_filename` returns NULL for every slot; `cartridge_get_info_list` returns
NULL; `pia1_get_diagnostic_pin` returns false. -/
theorem vic20_stubs_constant (CARTRIDGE_NONE : Int) (cartridge_info_t : Type)
    (crtid slot : Int) :
    cartridge_enable crtid = -1 ∧ cartridge_disable crtid = -1 ∧
    cartridge_enable crtid ≠ 0 ∧ cartridge_disable crtid ≠ 0 ∧
    cartridge_get_id CARTRIDGE_NONE slot = CARTRIDGE_NONE ∧
    cartridge_get_filename slot = none ∧
    cartridge_get_info_list cartridge_info_t = none ∧
    pia1_get_diagnostic_pin = false ∧
    (∀ other : Int, cartridge_enable other = cartridge_enable crtid ∧
      cartridge_disable other = cartridge_disable crtid ∧
      cartridge_get_id CARTRIDGE_NONE other = cartridge_get_id CARTRIDGE_NONE slot ∧
      cartridge_get_filename other = cartridge_get_filename slot) := by
  refine ⟨rfl, rfl, ?_, ?_, rfl, rfl, rfl, rfl, fun _ => ⟨rfl, rfl, rfl, rfl⟩⟩
  · unfold cartridge_enable; decide
  · unfold cartridge_disable; decide

end Vic20Stubs
